import Mathlib

/-!
Seat reservation core of the cinema booking backend.

A shallow embedding of `src/controllers/booking.controller.js`,
`src/controllers/payment.controller.js`, `src/controllers/vnpay.controller.js`,
the showtime creation, status and removal paths (`showtime.controller.js`,
`admin.routes.js`, `showtimeGenerator.service.js`), the loyalty tiers
(`loyalty.controller.js`, `loyaltyService.js`) and the Mongoose models they
use, followed by the properties of the specification that concern seat
inventory, cancellation, booking status, loyalty points and requests that
interleave.

Modelling conventions

* The three MongoDB collections touched by the controllers are lists of
  documents (`State`). `findById` is the first document with the id,
  `save` / `updateOne` / `findByIdAndUpdate` rewrite the first document with
  the id, `findByIdAndDelete` removes it.
* A controller is a function `State → request → environment → Response × State`.
  The environment carries what the handler reads from outside the database:
  the clock (`Date.now()`), the random suffix of the booking code, the
  ObjectId Mongo assigns to a new document, the answer of the payment gateway.
* An exception that reaches `next(error)` is a response with status 500; the
  state returned with it is the state at the moment of the throw, so writes
  made before the throw stay.
* JavaScript numbers are integers (`Int`, `Nat` for seat numbers), strings are
  Lean strings whose characters stand for UTF-16 code units (rows are taken
  in the Basic Multilingual Plane). Request bodies are well typed for the
  Booking schema: a seat is `{row : String, number : Number, type : String}`.
  The one computation that leaves the integers, the quotient and the product
  of `getOccupancy`, is double arithmetic: `roundDouble` is the double nearest
  to the exact result.
* Notification side effects (QR code, e-mail, socket emit) do not touch the
  three collections and are left out.
-/

namespace Cinema

/-- MongoDB ObjectId. Two ids are equal iff their `toString()` are equal. -/
abbrev Id := Nat

/-- Models `User.role` enum. -/
inductive Role where
  | customer | staff | admin
  deriving DecidableEq, Repr

/-- Models `User.loyaltyTier` enum. -/
inductive Tier where
  | bronze | silver | gold | platinum
  deriving DecidableEq, Repr

/-- Models `Booking.status` enum; the schema default is `pending`. -/
inductive BookingStatus where
  | confirmed | pending | cancelled | used | expired
  deriving DecidableEq, Repr

/-- Models `Booking.paymentStatus` enum. -/
inductive PaymentStatus where
  | pending | completed | failed | refunded | paid
  deriving DecidableEq, Repr

/-- Models `Booking.bookingType` enum. -/
inductive BookingType where
  | online | counter
  deriving DecidableEq, Repr

/-- Models `Showtime.status` enum. -/
inductive ShowtimeStatus where
  | scheduled | ongoing | completed | cancelled
  deriving DecidableEq, Repr

/-- One element of `Showtime.bookedSeats`. -/
structure BookedSeat where
  row : String
  number : Nat
  type : String
  bookingId : Id
  deriving DecidableEq, Repr

/-- Models `Showtime.price`: each entry is an optional Number. -/
structure PriceTable where
  standard : Option Int
  vip : Option Int
  couple : Option Int
  deriving DecidableEq, Repr

/-- Showtime document (`src/models/Showtime.model.js`), without the crowd
prediction and special price blocks, which the booking controllers never read. -/
structure Showtime where
  id : Id
  movieId : Id
  cinemaId : Id
  capacity : Int  -- `room.capacity`
  startTime : Int
  endTime : Int
  price : PriceTable
  availableSeats : Int
  bookedSeats : List BookedSeat
  status : ShowtimeStatus
  isActive : Bool
  deriving DecidableEq, Repr

/-- User document (`src/models/User.model.js`), fields read by the booking flow. -/
structure User where
  id : Id
  role : Role
  cinemaId : Option Id
  phone : Option String
  fullName : String
  email : String
  loyaltyPoints : Int
  loyaltyTier : Tier
  deriving DecidableEq, Repr

/-- A seat of the request body. -/
structure SeatReq where
  row : String
  number : Nat
  type : String
  deriving DecidableEq, Repr

/-- A seat as stored in `Booking.seats` (`{ ...seat, price }`). -/
structure SeatDetail where
  row : String
  number : Nat
  type : String
  price : Int
  deriving DecidableEq, Repr

/-- A combo of the request body. -/
structure ComboReq where
  comboId : Option String
  name : String
  quantity : Int
  price : Int
  deriving DecidableEq, Repr

/-- Models `Booking.discount`. -/
structure Discount where
  amount : Int
  code : String
  type : String
  deriving DecidableEq, Repr

/-- Models `Booking.bookedBy`. -/
structure BookedBy where
  userId : Id
  role : Role
  name : String
  deriving DecidableEq, Repr

/-- Models `Booking.customerInfo` of a walk-in customer. -/
structure CustomerInfo where
  phone : String
  name : String
  deriving DecidableEq, Repr

/-- Booking document (`src/models/Booking.model.js`), without time stamps, QR
code and gateway payloads. -/
structure Booking where
  id : Id
  bookingCode : String
  userId : Option Id
  customerInfo : Option CustomerInfo
  showtimeId : Id
  movieId : Id
  cinemaId : Id
  seats : List SeatDetail
  combos : List ComboReq
  totalAmount : Int
  discount : Option Discount
  loyaltyPointsUsed : Int
  loyaltyPointsEarned : Int
  finalAmount : Int
  paymentStatus : PaymentStatus
  paymentMethod : String
  status : BookingStatus
  bookingType : BookingType
  bookedBy : BookedBy
  isCheckedIn : Bool
  cancellationReason : Option String
  refundAmount : Option Int
  deriving DecidableEq, Repr

/-- The database: the collections the booking flow reads and writes, and the
ids of the Movie and Cinema documents that `populate` resolves. -/
structure State where
  showtimes : List Showtime
  bookings : List Booking
  users : List User
  movies : List Id
  cinemas : List Id
  deriving DecidableEq, Repr

/-- The JSON answer of a handler. -/
structure Response where
  status : Nat
  success : Bool
  message : String
  error : Option String
  unavailableSeats : Option (List String)
  booking : Option Booking
  deriving DecidableEq, Repr

/-- Models `res.status(code).json({ success: false, message })`. -/
def reject (code : Nat) (msg : String) : Response :=
  { status := code, success := false, message := msg, error := none,
    unavailableSeats := none, booking := none }

/-- Models `next(error)`: the error middleware answers 500. -/
def serverError (msg : String) : Response :=
  { status := 500, success := false, message := msg, error := none,
    unavailableSeats := none, booking := none }

/-- Models `res.status(code).json({ success: true, message, booking })`. -/
def accept (code : Nat) (msg : String) (b : Booking) : Response :=
  { status := code, success := true, message := msg, error := none,
    unavailableSeats := none, booking := some b }

/-! ## Collections -/

/-- Models `Showtime.findById`. -/
def findShowtime (l : List Showtime) (i : Id) : Option Showtime :=
  l.find? (fun s => s.id == i)

/-- Models `Booking.findById`. -/
def findBooking (l : List Booking) (i : Id) : Option Booking :=
  l.find? (fun b => b.id == i)

/-- Models `User.findById`. -/
def findUser (l : List User) (i : Id) : Option User :=
  l.find? (fun u => u.id == i)

/-- Models `User.findOne({ phone })`. -/
def findUserByPhone (l : List User) (p : String) : Option User :=
  l.find? (fun u => u.phone == some p)

/-- Rewrite the first showtime with id `i` (one-document write). -/
def updateShowtime (i : Id) (f : Showtime → Showtime) : List Showtime → List Showtime
  | [] => []
  | s :: rest => if s.id = i then f s :: rest else s :: updateShowtime i f rest

/-- Rewrite the first booking with id `i`. -/
def updateBooking (i : Id) (f : Booking → Booking) : List Booking → List Booking
  | [] => []
  | b :: rest => if b.id = i then f b :: rest else b :: updateBooking i f rest

/-- Rewrite the first user with id `i`. -/
def updateUser (i : Id) (f : User → User) : List User → List User
  | [] => []
  | u :: rest => if u.id = i then f u :: rest else u :: updateUser i f rest

/-- Models `Booking.findByIdAndDelete`: remove the first booking with id `i`. -/
def deleteBooking (i : Id) : List Booking → List Booking
  | [] => []
  | b :: rest => if b.id = i then rest else b :: deleteBooking i rest

/-! ## Seat keys -/

/-- Template literal `${s.row}${s.number}`. -/
def seatKey (row : String) (number : Nat) : String :=
  row ++ toString number

/-- Models `String.prototype.charAt(0)`: the first character, or the empty string. -/
def charAt0 (s : String) : String :=
  match s.data with
  | [] => ""
  | c :: _ => String.mk [c]

/-- Models `String.prototype.substring(1)`. -/
def substring1 (s : String) : String :=
  String.mk s.data.tail

/-- ECMAScript `StrWhiteSpaceChar`: white space and line terminators. -/
def isStrWhiteSpace (c : Char) : Bool :=
  let n := c.toNat
  n == 0x09 || n == 0x0A || n == 0x0B || n == 0x0C || n == 0x0D || n == 0x20 ||
  n == 0xA0 || n == 0x1680 || (0x2000 ≤ n && n ≤ 0x200A) || n == 0x2028 ||
  n == 0x2029 || n == 0x202F || n == 0x205F || n == 0x3000 || n == 0xFEFF

/-- Value of a digit in the given radix, if the character is one. -/
def digitValue (radix : Nat) (c : Char) : Option Nat :=
  let n := c.toNat
  let v :=
    if 48 ≤ n ∧ n ≤ 57 then some (n - 48)
    else if 97 ≤ n ∧ n ≤ 122 then some (n - 97 + 10)
    else if 65 ≤ n ∧ n ≤ 90 then some (n - 65 + 10)
    else none
  match v with
  | some d => if d < radix then some d else none
  | none => none

/-- The longest prefix of radix digits, as digit values. -/
def takeDigits (radix : Nat) : List Char → List Nat
  | [] => []
  | c :: rest =>
    match digitValue radix c with
    | some d => d :: takeDigits radix rest
    | none => []

/-- Mathematical value of a digit list, most significant digit first. -/
def digitsValue (radix : Nat) (ds : List Nat) : Nat :=
  ds.foldl (fun acc d => acc * radix + d) 0

/-- Global `parseInt(string)` with no radix argument; `none` is `NaN`. Leading
white space is skipped, one sign is read, a `0x`/`0X` prefix selects radix 16,
and the longest digit prefix is converted. -/
def parseInt (s : String) : Option Int :=
  let trimmed := s.data.dropWhile isStrWhiteSpace
  let (neg, body) :=
    match trimmed with
    | '-' :: rest => (true, rest)
    | '+' :: rest => (false, rest)
    | other => (false, other)
  let (radix, digits) :=
    match body with
    | '0' :: 'x' :: rest => (16, rest)
    | '0' :: 'X' :: rest => (16, rest)
    | other => (10, other)
  match takeDigits radix digits with
  | [] => none
  | ds => some (if neg then - (digitsValue radix ds : Int) else (digitsValue radix ds : Int))

/-! ## createBooking (`booking.controller.js`, lines 12-290) -/

/-- Models `req.user`, the document loaded by the `protect` middleware. -/
structure Actor where
  id : Id
  role : Role
  deriving DecidableEq, Repr

/-- Request of `POST /api/bookings`: `req.user` and `req.body`. An absent
`combos` is the empty list, an absent `loyaltyPointsUsed` is 0. -/
structure BookingReq where
  user : Actor
  showtimeId : Id
  seats : List SeatReq
  combos : List ComboReq
  paymentMethod : Option String
  promotionCode : Option String
  customerPhone : Option String
  customerName : Option String
  loyaltyPointsUsed : Int
  deriving DecidableEq, Repr

/-- What `createBooking` reads from outside the database: `Date.now()`,
`Math.floor(Math.random() * 1000)` and the `_id` given to the new booking. -/
structure Env where
  now : Nat
  rand : Nat
  newId : Id
  deriving DecidableEq, Repr

/-- JavaScript truthiness of an optional string. -/
def truthyStr : Option String → Bool
  | some s => s != ""
  | none => false

/-- Models `a || b` on optional strings with a string default. -/
def strOr (a : Option String) (d : String) : String :=
  match a with
  | some s => if s != "" then s else d
  | none => d

/-- JavaScript truthiness of an optional number: present and not 0. -/
def truthyNum : Option Int → Option Int
  | some v => if v = 0 then none else some v
  | none => none

/-- Models `showtime.price[type]`. -/
def priceEntry (p : PriceTable) (type : String) : Option Int :=
  if type = "standard" then p.standard
  else if type = "vip" then p.vip
  else if type = "couple" then p.couple
  else none

/-- Models `showtime.price[seat.type] || showtime.price.standard || 100000`. -/
def seatPrice (p : PriceTable) (type : String) : Int :=
  match truthyNum (priceEntry p type) with
  | some v => v
  | none =>
    match truthyNum p.standard with
    | some v => v
    | none => 100000

/-- Models `seats.map(seat => ({ ...seat, price }))`. -/
def seatDetails (p : PriceTable) (seats : List SeatReq) : List SeatDetail :=
  seats.map (fun s => { row := s.row, number := s.number, type := s.type, price := seatPrice p s.type })

/-- Models `totalAmount` after the seat loop and the combo loop. -/
def totalAmount (p : PriceTable) (seats : List SeatReq) (combos : List ComboReq) : Int :=
  ((seatDetails p seats).map (fun d => d.price)).sum +
    (combos.map (fun c => c.price * c.quantity)).sum

/-- Models `Math.max(0, totalAmount - discount - loyaltyPointsUsed * 1000)` with the
promotion discount, which the source leaves at 0. -/
def finalAmount (total used : Int) : Int :=
  max 0 (total - 0 - used * 1000)

/-- Models `Math.floor(finalAmount * 0.01)`; for a non-negative integer amount this
is the integer quotient by 100. -/
def pointsEarned (final : Int) : Int :=
  final / 100

/-- Inline tier update of `createBooking` (lines 241-249). -/
def tierOf (points : Int) : Tier :=
  if points ≥ 10000 then Tier.platinum
  else if points ≥ 5000 then Tier.gold
  else if points ≥ 2000 then Tier.silver
  else Tier.bronze

/-- Hexadecimal digit test used by `ObjectId.isValid`. -/
def isHexChar (c : Char) : Bool :=
  (digitValue 16 c).isSome

/-- Models `mongoose.Types.ObjectId.isValid(comboId) && String(comboId).length === 24`. -/
def isValidObjectId (s : String) : Bool :=
  s.data.length == 24 && s.data.all isHexChar

/-- Models `processedCombos`: the combo id is kept only when it is a valid ObjectId. -/
def processCombos (combos : List ComboReq) : List ComboReq :=
  combos.map (fun c =>
    { comboId := match c.comboId with
        | some i => if isValidObjectId i then some i else none
        | none => none,
      name := c.name, quantity := c.quantity, price := c.price })

/-- Enum of `Booking.seats.type`. -/
def seatTypeEnum : List String := ["standard", "vip", "couple"]

/-- Enum of `Booking.paymentMethod`. -/
def paymentMethodEnum : List String :=
  ["credit-card", "debit-card", "e-wallet", "cash", "loyalty-points", "vnpay", "momo", "zalopay"]

/-- The customer a booking is made for: a stored user, or the in-memory
walk-in object `{ _id: null, phone, fullName, loyaltyPoints: 0 }`. -/
inductive Customer where
  | registered (u : User)
  | walkIn (phone : String) (fullName : String)
  deriving DecidableEq, Repr

/-- Models `customer.loyaltyPoints || 0`. -/
def Customer.points : Customer → Int
  | Customer.registered u => u.loyaltyPoints
  | Customer.walkIn _ _ => 0

/-- Models `isWalkInCustomer`. -/
def Customer.isWalkIn : Customer → Bool
  | Customer.registered _ => false
  | Customer.walkIn _ _ => true

/-- Models `requestedSeats.filter(s => bookedSeatIds.includes(s))` (lines 58-60). -/
def unavailableSeats (booked : List BookedSeat) (seats : List SeatReq) : List String :=
  (seats.map (fun s => seatKey s.row s.number)).filter
    (fun k => (booked.map (fun b => seatKey b.row b.number)).contains k)

/-- Models `seatsToAdd` (lines 194-199). -/
def seatsToAdd (details : List SeatDetail) (bookingId : Id) : List BookedSeat :=
  details.map (fun d => { row := d.row, number := d.number, type := d.type, bookingId := bookingId })

/-- One disjunct of the update filter:
`{ $and: [{ row: id.charAt(0) }, { number: parseInt(id.substring(1)) }] }`. -/
def matchesIdentifier (b : BookedSeat) (ident : String) : Bool :=
  b.row == charAt0 ident && parseInt (substring1 ident) == some (b.number : Int)

/-- Models `$elemMatch: { $or: [...] }` over `bookedSeats`: some stored seat matches
some identifier. -/
def elemMatchConflict (booked : List BookedSeat) (idents : List String) : Bool :=
  booked.any (fun b => idents.any (fun i => matchesIdentifier b i))

/-- The update document of lines 219-222:
`{ $push: { bookedSeats: { $each: seatsToAdd } }, $inc: { availableSeats: -seats.length } }`. -/
def applyClaim (toAdd : List BookedSeat) (n : Nat) (s : Showtime) : Showtime :=
  { s with bookedSeats := s.bookedSeats ++ toAdd, availableSeats := s.availableSeats - (n : Int) }

/-- The conditional `updateOne` (lines 203-223) on the first showtime with the
id: when no stored seat matches, push `toAdd` and lower `availableSeats` by
`n`. The result is the new collection and `matchedCount`. -/
def claimSeats (i : Id) (toAdd : List BookedSeat) (n : Nat) : List Showtime → List Showtime × Bool
  | [] => ([], false)
  | s :: rest =>
    if s.id = i then
      if elemMatchConflict s.bookedSeats (toAdd.map (fun b => seatKey b.row b.number)) then
        (s :: rest, false)
      else
        (applyClaim toAdd n s :: rest, true)
    else
      let r := claimSeats i toAdd n rest
      (s :: r.1, r.2)

/-- Everything `createBooking` has computed when it reaches `Booking.create`:
the booking document and the customer object it read. -/
structure Prepared where
  booking : Booking
  customer : Customer
  deriving DecidableEq, Repr

/-- Models `isCounterBooking`: the requester is staff or admin. -/
def isCounterBooking (staffUser : User) : Bool :=
  staffUser.role = Role.staff || staffUser.role = Role.admin

/-- Lines 31-47: a staff requester needs a cinema, and it must be the cinema
of the showtime. `none` lets the request through. Reading
`showtime.cinemaId._id` throws when `populate` found no cinema. -/
def staffGate (st : State) (showtime : Showtime) (staffUser : User) : Option Response :=
  if staffUser.role = Role.staff then
    match staffUser.cinemaId with
    | none => some (reject 403 "Staff chưa được gán rạp")
    | some c =>
      if !st.cinemas.contains showtime.cinemaId then
        some (serverError "TypeError: showtime.cinemaId is null")
      else if showtime.cinemaId ≠ c then
        some (reject 403 "Bạn chỉ có thể đặt vé cho rạp của mình")
      else none
  else none

/-- Lines 91-120: a counter booking with a phone number looks the customer up
by phone and falls back to a walk-in object; every other booking is for the
logged-in user. `none` is the 404 of line 115. -/
def resolveCustomer (st : State) (req : BookingReq) (staffUser : User) : Option Customer :=
  if isCounterBooking staffUser && truthyStr req.customerPhone then
    match findUserByPhone st.users (req.customerPhone.getD "") with
    | some u => some (Customer.registered u)
    | none =>
      some (Customer.walkIn (req.customerPhone.getD "") (strOr req.customerName "Khách vãng lai"))
  else
    (findUser st.users req.user.id).map Customer.registered

/-- Lines 132-189: `bookingData`, with the schema defaults `status: 'pending'`
and `isCheckedIn: false` that `Booking.create` fills in. -/
def bookingData (req : BookingReq) (env : Env) (showtime : Showtime) (staffUser : User)
    (customer : Customer) : Booking :=
  let total := totalAmount showtime.price req.seats req.combos
  let final := finalAmount total req.loyaltyPointsUsed
  { id := env.newId,
    bookingCode := "BK" ++ toString env.now ++ toString env.rand,
    userId := match customer with
      | Customer.registered u => some u.id
      | Customer.walkIn _ _ => none,
    customerInfo := match customer with
      | Customer.registered _ => none
      | Customer.walkIn phone name => some { phone := phone, name := name },
    showtimeId := req.showtimeId,
    movieId := showtime.movieId,
    cinemaId := showtime.cinemaId,
    seats := seatDetails showtime.price req.seats,
    combos := processCombos req.combos,
    totalAmount := total,
    discount := if truthyStr req.promotionCode then
        some { amount := 0, code := req.promotionCode.getD "", type := "promotion" }
      else none,
    loyaltyPointsUsed := req.loyaltyPointsUsed,
    loyaltyPointsEarned := if customer.isWalkIn then 0 else pointsEarned final,
    finalAmount := final,
    paymentStatus := if isCounterBooking staffUser then PaymentStatus.paid else PaymentStatus.pending,
    paymentMethod := strOr req.paymentMethod "cash",
    status := BookingStatus.pending,
    bookingType := if isCounterBooking staffUser then BookingType.counter else BookingType.online,
    bookedBy := { userId := req.user.id, role := staffUser.role,
                  name := if staffUser.fullName != "" then staffUser.fullName else staffUser.email },
    isCheckedIn := false,
    cancellationReason := none,
    refundAmount := none }

/-- The 400 answer of the availability pre-check (lines 62-68). -/
def seatsAlreadyBooked (unavailable : List String) : Response :=
  { status := 400, success := false, message := "Some seats are already booked",
    error := none, unavailableSeats := some unavailable, booking := none }

/-- Lines 14-189 of `createBooking`: the reads, the availability pre-check and
the construction of `bookingData`. Nothing is written. -/
def prepare (st : State) (req : BookingReq) (env : Env) : Except Response Prepared :=
  match findShowtime st.showtimes req.showtimeId with
  | none => Except.error (reject 404 "Showtime not found")
  | some showtime =>
  match findUser st.users req.user.id with
  | none => Except.error (serverError "TypeError: staffUser is null")
  | some staffUser =>
  match staffGate st showtime staffUser with
  | some r => Except.error r
  | none =>
  if (unavailableSeats showtime.bookedSeats req.seats).length > 0 then
    Except.error (seatsAlreadyBooked (unavailableSeats showtime.bookedSeats req.seats))
  else
  match resolveCustomer st req staffUser with
  | none => Except.error (reject 404 "User not found")
  | some customer =>
  if req.loyaltyPointsUsed > customer.points then
    Except.error (reject 400 "Insufficient loyalty points")
  else if !st.movies.contains showtime.movieId then
    Except.error (serverError "TypeError: showtime.movieId is null")
  else if !st.cinemas.contains showtime.cinemaId then
    Except.error (serverError "TypeError: showtime.cinemaId is null")
  else
    Except.ok { booking := bookingData req env showtime staffUser customer, customer := customer }

/-- Schema validation and unique indexes of `Booking.create`: seat types and
payment method in their enums, `_id` and `bookingCode` unused. -/
def bookingInsertable (bookings : List Booking) (b : Booking) : Bool :=
  b.seats.all (fun s => seatTypeEnum.contains s.type) &&
  paymentMethodEnum.contains b.paymentMethod &&
  bookings.all (fun x => x.id != b.id && x.bookingCode != b.bookingCode)

/-- What `customer.save()` writes at line 251: the balance and its tier. -/
def earnPointsWrite (pts : Int) (stored : User) : User :=
  { stored with loyaltyPoints := pts, loyaltyTier := tierOf pts }

/-- Lines 236-252: the customer copy read earlier gets its new balance and
tier and is saved. A walk-in customer has no document. -/
def saveLoyalty (users : List User) (p : Prepared) : List User :=
  match p.customer with
  | Customer.walkIn _ _ => users
  | Customer.registered u =>
    updateUser u.id
      (earnPointsWrite
        (u.loyaltyPoints - p.booking.loyaltyPointsUsed + p.booking.loyaltyPointsEarned))
      users

/-- The 400 answer after a failed conditional update (lines 229-233). -/
def seatConflict : Response :=
  { status := 400, success := false,
    message := "Selected seats are no longer available. Please refresh and try again.",
    error := some "SEAT_CONFLICT", unavailableSeats := none, booking := none }

/-- Lines 191-286 of `createBooking`: `Booking.create`, the conditional seat
claim with its rollback, the loyalty update and the 201 answer. An empty
`$or` array makes MongoDB refuse the update with an error, after the booking
has been inserted. -/
def commit (st : State) (req : BookingReq) (p : Prepared) : Response × State :=
  if !bookingInsertable st.bookings p.booking then
    (serverError "Booking.create failed", st)
  else
  let st1 : State := { st with bookings := st.bookings ++ [p.booking] }
  let toAdd := seatsToAdd p.booking.seats p.booking.id
  if toAdd.isEmpty then
    (serverError "MongoServerError: $or must be a nonempty array", st1)
  else
  let claimed := claimSeats req.showtimeId toAdd req.seats.length st1.showtimes
  if !claimed.2 then
    (seatConflict, { st1 with bookings := deleteBooking p.booking.id st1.bookings })
  else
  let st2 : State := { st1 with showtimes := claimed.1 }
  let st3 : State := { st2 with users := saveLoyalty st2.users p }
  (accept 201 "" p.booking, st3)

/-- Handler `createBooking`. -/
def createBooking (st : State) (req : BookingReq) (env : Env) : Response × State :=
  match prepare st req env with
  | Except.error r => (r, st)
  | Except.ok p => commit st req p

/-! ## cancelBooking, checkInBooking, refundBooking (`booking.controller.js`) -/

/-- Request of `PUT /api/bookings/:id/cancel`. -/
structure CancelReq where
  user : Actor
  bookingId : Id
  reason : Option String
  deriving DecidableEq, Repr

/-- Milliseconds in the two hours of the cancellation window. -/
def cutoffMs : Int := 2 * (1000 * 60 * 60)

/-- Models `hoursUntilShowtime < 2` where
`hoursUntilShowtime = (showtime.startTime - Date.now()) / (1000 * 60 * 60)`;
on millisecond time stamps the quotient is below 2 exactly when the
difference is below 7 200 000. -/
def insideCutoff (startTime now : Int) : Bool :=
  startTime - now < cutoffMs

/-- Models `showtime.bookedSeats.filter(s => s.bookingId.toString() !== booking._id.toString())`. -/
def releaseSeats (booked : List BookedSeat) (bookingId : Id) : List BookedSeat :=
  booked.filter (fun s => s.bookingId != bookingId)

/-- Lines 397-402: `showtime.save()` writes the filtered `bookedSeats` and the
raised `availableSeats` of the copy read at line 387. -/
def releaseWrite (showtime : Showtime) (booking : Booking) (stored : Showtime) : Showtime :=
  { stored with
    bookedSeats := releaseSeats showtime.bookedSeats booking.id,
    availableSeats := showtime.availableSeats + (booking.seats.length : Int) }

/-- Lines 405-408: `user.save()` writes the balance with the used points
given back and the earned points taken away. -/
def refundPointsWrite (user : User) (booking : Booking) (stored : User) : User :=
  { stored with
    loyaltyPoints := user.loyaltyPoints + booking.loyaltyPointsUsed - booking.loyaltyPointsEarned }

/-- Lines 411-413: `booking.save()` writes the status and the reason. -/
def cancelWrite (reason : Option String) (stored : Booking) : Booking :=
  { stored with status := BookingStatus.cancelled, cancellationReason := reason }

/-- Handler `cancelBooking` (lines 366-423). The three saves happen in the
order showtime, user, booking; a throw between them keeps the earlier ones. -/
def cancelBooking (st : State) (req : CancelReq) (now : Int) : Response × State :=
  match findBooking st.bookings req.bookingId with
  | none => (reject 404 "Booking not found", st)
  | some booking =>
  match booking.userId with
  | none => (serverError "TypeError: booking.userId is undefined", st)
  | some owner =>
  if owner ≠ req.user.id ∧ ¬ (req.user.role = Role.admin ∨ req.user.role = Role.staff) then
    (reject 403 "Not authorized to cancel this booking", st)
  else
  match findShowtime st.showtimes booking.showtimeId with
  | none => (serverError "TypeError: showtime is null", st)
  | some showtime =>
  if insideCutoff showtime.startTime now then
    (reject 400 "Cannot cancel booking less than 2 hours before showtime", st)
  else
  let st1 : State :=
    { st with showtimes := updateShowtime showtime.id (releaseWrite showtime booking) st.showtimes }
  match findUser st1.users owner with
  | none => (serverError "TypeError: user is null", st1)
  | some user =>
  let st2 : State :=
    { st1 with users := updateUser user.id (refundPointsWrite user booking) st1.users }
  let st3 : State :=
    { st2 with bookings := updateBooking booking.id (cancelWrite req.reason) st2.bookings }
  (accept 200 "Booking cancelled successfully" (cancelWrite req.reason booking), st3)

/-- Lines 463-466: the write of a check-in. -/
def checkInWrite (stored : Booking) : Booking :=
  { stored with status := BookingStatus.used, isCheckedIn := true }

/-- Handler `checkInBooking` (lines 428-476). -/
def checkInBooking (st : State) (bookingId : Id) : Response × State :=
  match findBooking st.bookings bookingId with
  | none => (reject 404 "Booking not found", st)
  | some booking =>
  if booking.status = BookingStatus.used then
    (reject 400 "Booking already checked in", st)
  else if booking.status ≠ BookingStatus.confirmed then
    (reject 400 "Only confirmed bookings can be checked in", st)
  else
    (accept 200 "Check-in successful" (checkInWrite booking),
     { st with bookings := updateBooking booking.id checkInWrite st.bookings })

/-- Lines 545-549: the write of a refund. -/
def refundWrite (amount : Int) (stored : Booking) : Booking :=
  { stored with
    paymentStatus := PaymentStatus.refunded,
    refundAmount := some amount,
    status := BookingStatus.cancelled }

/-- Handler `refundBooking` (lines 534-559); `refundAmount` is
`req.body.refundAmount || booking.finalAmount`. -/
def refundBooking (st : State) (bookingId : Id) (refundAmount : Option Int) : Response × State :=
  match findBooking st.bookings bookingId with
  | none => (reject 404 "Booking not found", st)
  | some booking =>
    let amount : Int :=
      match truthyNum refundAmount with
      | some v => v
      | none => booking.finalAmount
    (accept 200 "Booking refunded successfully" (refundWrite amount booking),
     { st with bookings := updateBooking booking.id (refundWrite amount) st.bookings })

/-! ## confirmPayment (`payment.controller.js`) and verifyVNPayCallback (`vnpay.controller.js`) -/

/-- Request of `POST /api/payments/confirm`. -/
structure ConfirmReq where
  user : Actor
  bookingId : Id
  paymentIntentId : String
  deriving DecidableEq, Repr

/-- What `confirmPayment` reads from its process and from Stripe: whether a
Stripe key is configured, whether `NODE_ENV` is `development`, and the status
of the retrieved payment intent (`none` when `retrieve` throws). -/
structure PaymentEnv where
  stripeConfigured : Bool
  development : Bool
  intentStatus : Option String
  deriving DecidableEq, Repr

/-- Models `paymentIntentId.startsWith('pi_mock_')`. -/
def isMockIntent (intentId : String) : Bool :=
  List.isPrefixOf "pi_mock_".data intentId.data

/-- The write both success branches of `confirmPayment` make. -/
def markPaid (b : Booking) : Booking :=
  { b with paymentStatus := PaymentStatus.completed, status := BookingStatus.confirmed }

/-- The write of the failure branch of `confirmPayment`. -/
def markFailed (b : Booking) : Booking :=
  { b with paymentStatus := PaymentStatus.failed }

/-- Handler `confirmPayment` (lines 90-184). -/
def confirmPayment (st : State) (req : ConfirmReq) (env : PaymentEnv) : Response × State :=
  match findBooking st.bookings req.bookingId with
  | none => (reject 404 "Booking not found", st)
  | some booking =>
  let isOwner := booking.userId = some req.user.id
  let isStaffCreated := booking.userId = none ∧ booking.bookedBy.userId = req.user.id
  let isAdminOrStaff := req.user.role = Role.admin ∨ req.user.role = Role.staff
  if ¬ isOwner ∧ ¬ isStaffCreated ∧ ¬ isAdminOrStaff then
    (reject 403 "Not authorized to access this booking", st)
  else if !env.stripeConfigured then
    if env.development && isMockIntent req.paymentIntentId then
      (accept 200 "Payment confirmed successfully (Mock)" (markPaid booking),
       { st with bookings := updateBooking booking.id markPaid st.bookings })
    else
      (reject 500 "Payment service is not configured. Please contact support.", st)
  else
  match env.intentStatus with
  | none => (reject 500 "Payment verification failed. Please try again or contact support.", st)
  | some status =>
    if status = "succeeded" then
      (accept 200 "Payment confirmed successfully" (markPaid booking),
       { st with bookings := updateBooking booking.id markPaid st.bookings })
    else
      (reject 400 "Payment failed",
       { st with bookings := updateBooking booking.id markFailed st.bookings })

/-- The VNPay callback as the handler sees it: whether the secure hash of the
query matches, the booking id taken from `vnp_TxnRef`, and `vnp_ResponseCode`. -/
structure VNPayCallback where
  hashValid : Bool
  bookingId : Id
  rspCode : String
  deriving DecidableEq, Repr

/-- The update of the success branch (lines 156-169). -/
def vnpayPaidWrite (b : Booking) : Booking :=
  { b with
    status := BookingStatus.confirmed,
    paymentStatus := PaymentStatus.paid,
    paymentMethod := "vnpay" }

/-- The update of the failure branch (lines 192-200). -/
def vnpayFailedWrite (b : Booking) : Booking :=
  { b with status := BookingStatus.cancelled, paymentStatus := PaymentStatus.failed }

/-- Handler `verifyVNPayCallback` (lines 121-224). -/
def verifyVNPayCallback (st : State) (cb : VNPayCallback) : Response × State :=
  if !cb.hashValid then (reject 400 "Invalid secure hash", st)
  else if cb.rspCode = "00" then
    match findBooking st.bookings cb.bookingId with
    | none => (reject 404 "Booking not found", st)
    | some booking =>
      (accept 200 "Payment successful" (vnpayPaidWrite booking),
       { st with bookings := updateBooking cb.bookingId vnpayPaidWrite st.bookings })
  else
    ({ status := 400, success := false, message := "Payment failed", error := none,
       unavailableSeats := none,
       booking := (findBooking st.bookings cb.bookingId).map vnpayFailedWrite },
     { st with bookings := updateBooking cb.bookingId vnpayFailedWrite st.bookings })

/-! ## Vocabulary of the properties -/

/-- The `(row, number)` pairs of a `bookedSeats` list. -/
def seatPairs (l : List BookedSeat) : List (String × Nat) :=
  l.map (fun b => (b.row, b.number))

/-- The `(row, number)` pairs of the seats of a request. -/
def requestPairs (l : List SeatReq) : List (String × Nat) :=
  l.map (fun s => (s.row, s.number))

/-- Two `createBooking` calls on one showtime where the second request has
done all its reads (`prepare`) before the first request writes, and does its
writes (`commit`) after the first request has finished. -/
def createBookingAfterRace (st : State) (first : BookingReq) (envFirst : Env)
    (second : BookingReq) (envSecond : Env) : Response × State :=
  match prepare st second envSecond with
  | Except.error r => (r, (createBooking st first envFirst).2)
  | Except.ok p => commit (createBooking st first envFirst).2 second p

/-! ## Sample data -/

/-- A registered customer with no points. -/
def sampleCustomer : User :=
  { id := 1, role := Role.customer, cinemaId := none, phone := some "0901", fullName := "An",
    email := "an@example.vn", loyaltyPoints := 0, loyaltyTier := Tier.bronze }

/-- A two-seat room with nothing booked; it starts at millisecond 100 000 000. -/
def sampleShowtime : Showtime :=
  { id := 10, movieId := 100, cinemaId := 200, capacity := 2,
    startTime := 100000000, endTime := 107200000,
    price := { standard := some 80000, vip := some 120000, couple := some 150000 },
    availableSeats := 2, bookedSeats := [], status := ShowtimeStatus.scheduled, isActive := true }

/-- The database with the sample showtime and customer and no booking. -/
def sampleState : State :=
  { showtimes := [sampleShowtime], bookings := [], users := [sampleCustomer],
    movies := [100], cinemas := [200] }

/-- Seat A1. -/
def seatA1 : SeatReq := { row := "A", number := 1, type := "standard" }

/-- Seat A2. -/
def seatA2 : SeatReq := { row := "A", number := 2, type := "standard" }

/-- An online request of the sample customer for the given seats. -/
def sampleRequest (seats : List SeatReq) : BookingReq :=
  { user := { id := 1, role := Role.customer }, showtimeId := 10, seats := seats, combos := [],
    paymentMethod := none, promotionCode := none, customerPhone := none, customerName := none,
    loyaltyPointsUsed := 0 }

/-- Environment of a first call. -/
def envFirst : Env := { now := 1000, rand := 7, newId := 50 }

/-- Environment of a later call: a later clock and another ObjectId. -/
def envSecond : Env := { now := 2000, rand := 8, newId := 51 }

/-- Environment of a third call. -/
def envThird : Env := { now := 3000, rand := 9, newId := 52 }

/-- The sample database after seat A1 has been booked by booking 50. -/
def stateA1Booked : State :=
  (createBooking sampleState (sampleRequest [seatA1]) envFirst).2

/-- Cancellation of booking 50 by its owner. -/
def cancelFirst : CancelReq :=
  { user := { id := 1, role := Role.customer }, bookingId := 50, reason := none }

/-- The sample showtime sold out: capacity 1, seat A1 held by booking 40. -/
def fullShowtime : Showtime :=
  { sampleShowtime with
    capacity := 1,
    availableSeats := 0,
    bookedSeats := [{ row := "A", number := 1, type := "standard", bookingId := 40 }] }

/-- The database with the sold-out showtime. -/
def fullState : State :=
  { sampleState with showtimes := [fullShowtime] }

/-- A seat whose row label has two characters; its key `A01` decodes to row
`A`, number 1 in the update filter. -/
def seatA0_1 : SeatReq := { row := "A0", number := 1, type := "standard" }

/-- The sample showtime after booking 50 has taken seats A1 and A2. -/
def bothSeatsBooked : Showtime :=
  { sampleShowtime with
    availableSeats := 0,
    bookedSeats := [{ row := "A", number := 1, type := "standard", bookingId := 50 },
                    { row := "A", number := 2, type := "standard", bookingId := 50 }] }

/-- The sample showtime with seat A2 held by booking 40. -/
def conflictOnLastShowtime : Showtime :=
  { sampleShowtime with
    availableSeats := 1,
    bookedSeats := [{ row := "A", number := 2, type := "standard", bookingId := 40 }] }

/-- The database in which seat A2 is already booked. -/
def conflictOnLastState : State :=
  { sampleState with showtimes := [conflictOnLastShowtime] }

/-- The sample database after booking 50 took A1 and booking 51 took A2. -/
def twoBookingsState : State :=
  (createBooking stateA1Booked (sampleRequest [seatA2]) envSecond).2

/-- The showtime of `twoBookingsState`. -/
def bothBookedShowtime : Showtime :=
  { sampleShowtime with
    availableSeats := 0,
    bookedSeats := [{ row := "A", number := 1, type := "standard", bookingId := 50 },
                    { row := "A", number := 2, type := "standard", bookingId := 51 }] }

/-- The showtime of `twoBookingsState` after booking 50 has been cancelled. -/
def afterReleaseShowtime : Showtime :=
  { sampleShowtime with
    availableSeats := 1,
    bookedSeats := [{ row := "A", number := 2, type := "standard", bookingId := 51 }] }

/-- Booking 50 as `createBooking` stored it. -/
def firstBooking : Booking :=
  { id := 50, bookingCode := "BK10007", userId := some 1, customerInfo := none,
    showtimeId := 10, movieId := 100, cinemaId := 200,
    seats := [{ row := "A", number := 1, type := "standard", price := 80000 }],
    combos := [], totalAmount := 80000, discount := none, loyaltyPointsUsed := 0,
    loyaltyPointsEarned := 800, finalAmount := 80000, paymentStatus := PaymentStatus.pending,
    paymentMethod := "cash", status := BookingStatus.pending, bookingType := BookingType.online,
    bookedBy := { userId := 1, role := Role.customer, name := "An" },
    isCheckedIn := false, cancellationReason := none, refundAmount := none }

/-- Confirmation of the payment of booking 50 by its owner, with a mock intent. -/
def confirmFirst : ConfirmReq :=
  { user := { id := 1, role := Role.customer }, bookingId := 50, paymentIntentId := "pi_mock_1" }

/-- A development process without a Stripe key. -/
def devMock : PaymentEnv :=
  { stripeConfigured := false, development := true, intentStatus := none }

/-- A VNPay callback for booking 50 with a valid hash and the success code. -/
def vnpaySuccess : VNPayCallback :=
  { hashValid := true, bookingId := 50, rspCode := "00" }

/-- Booking 50 paid: status `confirmed`. -/
def stateConfirmed : State :=
  (confirmPayment stateA1Booked confirmFirst devMock).2

/-- Booking 50 checked in: status `used`. -/
def stateUsed : State :=
  (checkInBooking stateConfirmed 50).2

/-- Booking 50 cancelled after payment: status `cancelled`, seat A1 released. -/
def stateCancelled : State :=
  (cancelBooking stateConfirmed cancelFirst 0).2

/-- Booking 50 stored with status `expired`. -/
def stateExpired : State :=
  { stateA1Booked with bookings := [{ firstBooking with status := BookingStatus.expired }] }

/-- The current time exactly two hours before the sample showtime starts. -/
def twoHoursBefore : Int := 100000000 - 2 * 60 * 60 * 1000

/-- The showtime of `stateA1Booked`. -/
def a1BookedShowtime : Showtime :=
  { sampleShowtime with
    availableSeats := 1,
    bookedSeats := [{ row := "A", number := 1, type := "standard", bookingId := 50 }] }

/-- The status of the stored booking with the given id. -/
def statusOf (st : State) (i : Id) : Option BookingStatus :=
  (findBooking st.bookings i).map (fun b => b.status)

/-- A VNPay callback for booking 50 with a valid hash and a failure code. -/
def vnpayFailure : VNPayCallback :=
  { hashValid := true, bookingId := 50, rspCode := "24" }

/-- The entries of a showtime's `bookedSeats` held by the given booking. -/
def seatsOfBooking (sh : Showtime) (bookingId : Id) : List BookedSeat :=
  sh.bookedSeats.filter (fun e => e.bookingId == bookingId)

/-- The entries the showtimes of a database hold for the given booking. -/
def heldSeats (st : State) (bookingId : Id) : List BookedSeat :=
  (st.showtimes.map (fun sh => seatsOfBooking sh bookingId)).flatten

/-- A staff user of cinema 200. -/
def sampleStaff : User :=
  { id := 2, role := Role.staff, cinemaId := some 200, phone := none, fullName := "Binh",
    email := "binh@example.vn", loyaltyPoints := 0, loyaltyTier := Tier.bronze }

/-- The sample database with the staff user added. -/
def counterState : State :=
  { sampleState with users := [sampleCustomer, sampleStaff] }

/-- A counter request of the staff user for a walk-in customer. -/
def counterRequest (seats : List SeatReq) : BookingReq :=
  { user := { id := 2, role := Role.staff }, showtimeId := 10, seats := seats, combos := [],
    paymentMethod := some "cash", promotionCode := none, customerPhone := some "0999",
    customerName := some "Chi", loyaltyPointsUsed := 0 }

/-- The price the showtime's price table lists for a seat type, as the
specification reads it: the table entry, 0 when the table has none. -/
def listedPrice (p : PriceTable) (type : String) : Int :=
  (priceEntry p type).getD 0

/-- The seat type has a price other than 0 in the table: the entry is present
and is not 0, which is what `showtime.price[seat.type] || ...` tests. -/
def hasListedPrice (p : PriceTable) (type : String) : Bool :=
  (truthyNum (priceEntry p type)).isSome

/-- A request for a VIP seat and a standard seat with two combos. -/
def mixedRequest : BookingReq :=
  { user := { id := 1, role := Role.customer }, showtimeId := 10,
    seats := [{ row := "B", number := 3, type := "vip" }, seatA1],
    combos := [{ comboId := none, name := "Popcorn", quantity := 2, price := 45000 },
               { comboId := none, name := "Cola", quantity := 1, price := 20000 }],
    paymentMethod := none, promotionCode := none, customerPhone := none, customerName := none,
    loyaltyPointsUsed := 0 }

/-- The sample customer with 5 loyalty points. -/
def pointsCustomer : User :=
  { sampleCustomer with loyaltyPoints := 5 }

/-- The sample database in which the customer has 5 points. -/
def pointsState : State :=
  { sampleState with users := [pointsCustomer] }

/-- A request for seat A1 that spends 3 points. -/
def pointsRequest : BookingReq :=
  { sampleRequest [seatA1] with loyaltyPointsUsed := 3 }

/-- An admin user. -/
def sampleAdmin : User :=
  { id := 3, role := Role.admin, cinemaId := none, phone := none, fullName := "Dung",
    email := "dung@example.vn", loyaltyPoints := 0, loyaltyTier := Tier.bronze }

/-- Booking 50 holds seat A1, but the user document of its owner has been
removed; only the admin is left in the users collection. -/
def ownerGoneState : State :=
  { stateA1Booked with users := [sampleAdmin] }

/-- Cancellation of booking 50 by the admin. -/
def cancelByAdmin : CancelReq :=
  { user := { id := 3, role := Role.admin }, bookingId := 50, reason := none }

/-- A showtime that is over: it started at millisecond 0 and is `completed`. -/
def pastShowtime : Showtime :=
  { sampleShowtime with
    startTime := 0,
    endTime := 500,
    status := ShowtimeStatus.completed }

/-- The database whose only showtime is over. -/
def pastState : State :=
  { sampleState with showtimes := [pastShowtime] }

/-- A staff user of cinema 201, which is not the cinema of the sample showtime. -/
def otherStaff : User :=
  { sampleStaff with cinemaId := some 201 }

/-- The sample database with the staff user of the other cinema. -/
def otherStaffState : State :=
  { sampleState with users := [sampleCustomer, otherStaff] }

/-! ## Showtime removal and occupancy
(`showtime.controller.js`, `admin.routes.js`, `showtimeGenerator.service.js`,
`Showtime.model.js`) -/

/-- The write of `deleteShowtime` (lines 289-290): `showtime.isActive = false`. -/
def softDeleteWrite (stored : Showtime) : Showtime :=
  { stored with isActive := false }

/-- The 200 answer of `deleteShowtime`. -/
def showtimeDeleted : Response :=
  { status := 200, success := true, message := "Showtime deleted successfully", error := none,
    unavailableSeats := none, booking := none }

/-- Handler `deleteShowtime` (`showtime.controller.js`, lines 269-298). -/
def deleteShowtime (st : State) (showtimeId : Id) : Response × State :=
  match findShowtime st.showtimes showtimeId with
  | none => (reject 404 "Showtime not found", st)
  | some showtime =>
    if showtime.bookedSeats.length > 0 then
      (reject 400 "Cannot delete showtime with existing bookings", st)
    else
      (showtimeDeleted,
       { st with showtimes := updateShowtime showtime.id softDeleteWrite st.showtimes })

/-- The filter of the `deleteMany` of `POST /showtimes/regenerate-today`
(`admin.routes.js`, lines 112-118): the showtime starts today and its
`bookedSeats` has size 0 (a stored list always exists here). -/
def startsTodayUnbooked (today tomorrow : Int) (s : Showtime) : Bool :=
  decide (today ≤ s.startTime) && decide (s.startTime < tomorrow) && s.bookedSeats.length == 0

/-- Route `POST /showtimes/regenerate-today`: the `deleteMany`, then
`generateShowtimesForNextDay(today)`, which inserts nothing when a showtime
still starts between `today` and `dayEnd` (23:59:59.999) and otherwise
inserts the showtimes it has built. `today`, `tomorrow` and `dayEnd` come from
the clock; `generated` is the list `insertMany` stores (empty when the
generator finds no movie or cinema, or fails). -/
def regenerateToday (st : State) (today tomorrow dayEnd : Int) (generated : List Showtime) :
    State :=
  let kept := st.showtimes.filter (fun s => !startsTodayUnbooked today tomorrow s)
  if kept.any (fun s => decide (today ≤ s.startTime) && decide (s.startTime ≤ dayEnd)) then
    { st with showtimes := kept }
  else
    { st with showtimes := kept ++ generated }

/-- The filter of the `deleteMany` of `cleanupOldShowtimes`
(`showtimeGenerator.service.js`, lines 215-218). -/
def oldAndOver (sevenDaysAgo : Int) (s : Showtime) : Bool :=
  decide (s.startTime < sevenDaysAgo) &&
    (s.status == ShowtimeStatus.completed || s.status == ShowtimeStatus.cancelled)

/-- Service method `cleanupOldShowtimes`; `sevenDaysAgo` is the clock moved
back seven calendar days. -/
def cleanupOldShowtimes (st : State) (sevenDaysAgo : Int) : State :=
  { st with showtimes := st.showtimes.filter (fun s => !oldAndOver sevenDaysAgo s) }

/-- Rounding of a number to an integer, to the nearest one, a tie to the even
one: the last step of the rounding of a double operation. -/
def roundHalfEven (m : ℚ) : Int :=
  if m - (⌊m⌋ : ℚ) < 1 / 2 then ⌊m⌋
  else if m - (⌊m⌋ : ℚ) > 1 / 2 then ⌊m⌋ + 1
  else if ⌊m⌋ % 2 = 0 then ⌊m⌋ else ⌊m⌋ + 1

/-- The double nearest to the exact result of an arithmetic operation (IEEE 754
binary64, round to nearest, ties to even): with `2 ^ e ≤ |q| < 2 ^ (e + 1)` the
doubles around `q` are the multiples of `2 ^ (e - 52)`, and `q` goes to the
nearest multiple. The exponent range is not modelled, so the value is the
JavaScript one for results of magnitude between `2 ^ (-1022)` and `2 ^ 1024`. -/
def roundDouble (q : ℚ) : ℚ :=
  if q = 0 then 0
  else (roundHalfEven (q / (2 : ℚ) ^ (Int.log 2 |q| - 52)) : ℚ) * (2 : ℚ) ^ (Int.log 2 |q| - 52)

/-- Method `getOccupancy` of the Showtime model (lines 125-128):
`totalSeats > 0 ? (this.bookedSeats.length / totalSeats) * 100 : 0`. The seat
counts are integers, exact as doubles below `2 ^ 53`; the quotient and the
product are doubles, each the rounded exact result. -/
def getOccupancy (sh : Showtime) : ℚ :=
  let totalSeats : Int := sh.availableSeats + (sh.bookedSeats.length : Int)
  if totalSeats > 0 then
    roundDouble (roundDouble ((sh.bookedSeats.length : ℚ) / (totalSeats : ℚ)) * 100)
  else 0

/-- A room of 25 seats with 7 of them booked by booking 40. -/
def sevenOfTwentyFive : Showtime :=
  { sampleShowtime with
    capacity := 25,
    availableSeats := 18,
    bookedSeats := (List.range 7).map (fun k =>
      { row := "A", number := k + 1, type := "standard", bookingId := 40 }) }

/-- An old showtime with seat A1 booked: it started at millisecond 0 and is
`completed`. -/
def oldBookedShowtime : Showtime :=
  { a1BookedShowtime with
    startTime := 0,
    endTime := 500,
    status := ShowtimeStatus.completed }

/-- The database of booking 50 with its showtime old and completed. -/
def oldBookedState : State :=
  { stateA1Booked with showtimes := [oldBookedShowtime] }

/-- The sold-out room of capacity 1 after a second seat has been booked. -/
def overbookedShowtime : Showtime :=
  { fullShowtime with
    availableSeats := -1,
    bookedSeats := [{ row := "A", number := 1, type := "standard", bookingId := 40 },
                    { row := "A", number := 2, type := "standard", bookingId := 50 }] }

/-! ## Loyalty tiers outside the booking flow -/

/-- Models `userSchema.methods.updateLoyaltyTier` (User.model.js lines 110-120): the
tier is reassigned from the balance. -/
def updateLoyaltyTier (u : User) : User :=
  if u.loyaltyPoints ≥ 10000 then { u with loyaltyTier := Tier.platinum }
  else if u.loyaltyPoints ≥ 5000 then { u with loyaltyTier := Tier.gold }
  else if u.loyaltyPoints ≥ 2000 then { u with loyaltyTier := Tier.silver }
  else { u with loyaltyTier := Tier.bronze }

/-- Models `tierThresholds` of `getMyLoyaltyInfo` (loyalty.controller.js lines 34-39). -/
def tierThresholds : Tier → Int
  | Tier.bronze => 0
  | Tier.silver => 2000
  | Tier.gold => 5000
  | Tier.platinum => 10000

/-- Models `tiers[tiers.indexOf(user.loyaltyTier) + 1]` over the key order of
`tierThresholds`; `getMyLoyaltyInfo` only evaluates it below platinum. -/
def nextTier : Tier → Option Tier
  | Tier.bronze => some Tier.silver
  | Tier.silver => some Tier.gold
  | Tier.gold => some Tier.platinum
  | Tier.platinum => none

/-- Models `pointsToNextTier` of `getMyLoyaltyInfo`: 0 for a platinum user, otherwise
the threshold of the next tier minus the balance. -/
def pointsToNextTier (u : User) : Int :=
  match nextTier u.loyaltyTier with
  | none => 0
  | some t => tierThresholds t - u.loyaltyPoints

/-- One entry of `LoyaltyService.rewardTiers`. -/
structure RewardTier where
  minPoints : Int
  multiplier : ℚ
  name : String
  deriving DecidableEq

/-- Models `this.rewardTiers` of `LoyaltyService` (loyaltyService.js lines 19-24). -/
def rewardTiers : Tier → RewardTier
  | Tier.bronze => { minPoints := 0, multiplier := 1, name := "Đồng" }
  | Tier.silver => { minPoints := 1000, multiplier := 5 / 4, name := "Bạc" }
  | Tier.gold => { minPoints := 5000, multiplier := 3 / 2, name := "Vàng" }
  | Tier.platinum => { minPoints := 10000, multiplier := 2, name := "Bạch Kim" }

/-- Models `LoyaltyService._getUserTier` (loyaltyService.js lines 93-98). -/
def getUserTier (points : Int) : RewardTier :=
  if points ≥ (rewardTiers Tier.platinum).minPoints then rewardTiers Tier.platinum
  else if points ≥ (rewardTiers Tier.gold).minPoints then rewardTiers Tier.gold
  else if points ≥ (rewardTiers Tier.silver).minPoints then rewardTiers Tier.silver
  else rewardTiers Tier.bronze

/-- A customer with 1500 loyalty points. -/
def midCustomer : User :=
  { sampleCustomer with loyaltyPoints := 1500 }

/-! ## Interleaved requests

Each handler is an `async` function: between two database operations another
request may run. A handler is cut here at its database writes; the reads that
open `createBooking` (lines 14-189, `prepare`) are taken as one step, every
later `await` is a step of its own. The conditional `updateOne` of
`createBooking` is one operation of the database, `showtime.save()` of
`cancelBooking` writes the copy read earlier. The native `updateOne` does not
touch the version key, so a `save()` that follows it is not refused. -/

/-- Where a `createBooking` call stands between its database operations. -/
inductive CreatePc
  | start
  | prepared (p : Prepared)
  | inserted (p : Prepared)
  | refused (p : Prepared)
  | claimed (p : Prepared)
  | done (r : Response)
  deriving DecidableEq, Repr

/-- One database operation of `createBooking`: the reads and the pre-check
(lines 14-189), `Booking.create` (line 191), the conditional `updateOne`
(lines 203-223), then `Booking.findByIdAndDelete` (line 227) or
`customer.save()` (line 251). -/
def createStep (req : BookingReq) (env : Env) (st : State) : CreatePc → State × CreatePc
  | CreatePc.start =>
    match prepare st req env with
    | Except.error r => (st, CreatePc.done r)
    | Except.ok p => (st, CreatePc.prepared p)
  | CreatePc.prepared p =>
    if !bookingInsertable st.bookings p.booking then
      (st, CreatePc.done (serverError "Booking.create failed"))
    else
      ({ st with bookings := st.bookings ++ [p.booking] }, CreatePc.inserted p)
  | CreatePc.inserted p =>
    if (seatsToAdd p.booking.seats p.booking.id).isEmpty then
      (st, CreatePc.done (serverError "MongoServerError: $or must be a nonempty array"))
    else if !(claimSeats req.showtimeId (seatsToAdd p.booking.seats p.booking.id)
        req.seats.length st.showtimes).2 then
      (st, CreatePc.refused p)
    else
      ({ st with
          showtimes := (claimSeats req.showtimeId (seatsToAdd p.booking.seats p.booking.id)
            req.seats.length st.showtimes).1 },
        CreatePc.claimed p)
  | CreatePc.refused p =>
    ({ st with bookings := deleteBooking p.booking.id st.bookings }, CreatePc.done seatConflict)
  | CreatePc.claimed p =>
    ({ st with users := saveLoyalty st.users p }, CreatePc.done (accept 201 "" p.booking))
  | CreatePc.done r => (st, CreatePc.done r)

/-- Where a `cancelBooking` call stands between its database operations. -/
inductive CancelPc
  | start
  | bookingRead (booking : Booking) (owner : Id)
  | showtimeRead (booking : Booking) (owner : Id) (showtime : Showtime)
  | released (booking : Booking) (owner : Id)
  | userRead (booking : Booking) (user : User)
  | refunded (booking : Booking)
  | done (r : Response)
  deriving DecidableEq, Repr

/-- One database operation of `cancelBooking`: `Booking.findById` with the
ownership check (lines 368-384), `Showtime.findById` with the cutoff check
(lines 387-395), `showtime.save()` (line 402), `User.findById` (line 405),
`user.save()` (line 408), `booking.save()` (line 413). -/
def cancelStep (req : CancelReq) (now : Int) (st : State) : CancelPc → State × CancelPc
  | CancelPc.start =>
    match findBooking st.bookings req.bookingId with
    | none => (st, CancelPc.done (reject 404 "Booking not found"))
    | some booking =>
    match booking.userId with
    | none => (st, CancelPc.done (serverError "TypeError: booking.userId is undefined"))
    | some owner =>
    if owner ≠ req.user.id ∧ ¬ (req.user.role = Role.admin ∨ req.user.role = Role.staff) then
      (st, CancelPc.done (reject 403 "Not authorized to cancel this booking"))
    else (st, CancelPc.bookingRead booking owner)
  | CancelPc.bookingRead booking owner =>
    match findShowtime st.showtimes booking.showtimeId with
    | none => (st, CancelPc.done (serverError "TypeError: showtime is null"))
    | some showtime =>
    if insideCutoff showtime.startTime now then
      (st, CancelPc.done
        (reject 400 "Cannot cancel booking less than 2 hours before showtime"))
    else (st, CancelPc.showtimeRead booking owner showtime)
  | CancelPc.showtimeRead booking owner showtime =>
    ({ st with
        showtimes := updateShowtime showtime.id (releaseWrite showtime booking) st.showtimes },
      CancelPc.released booking owner)
  | CancelPc.released booking owner =>
    match findUser st.users owner with
    | none => (st, CancelPc.done (serverError "TypeError: user is null"))
    | some user => (st, CancelPc.userRead booking user)
  | CancelPc.userRead booking user =>
    ({ st with users := updateUser user.id (refundPointsWrite user booking) st.users },
      CancelPc.refunded booking)
  | CancelPc.refunded booking =>
    ({ st with bookings := updateBooking booking.id (cancelWrite req.reason) st.bookings },
      CancelPc.done (accept 200 "Booking cancelled successfully"
        (cancelWrite req.reason booking)))
  | CancelPc.done r => (st, CancelPc.done r)

/-- A request in flight. -/
inductive Proc
  | create (req : BookingReq) (env : Env) (pc : CreatePc)
  | cancel (req : CancelReq) (now : Int) (pc : CancelPc)
  deriving DecidableEq, Repr

/-- The next database operation of a request. -/
def Proc.step (st : State) : Proc → State × Proc
  | Proc.create req env pc => ((createStep req env st pc).1, Proc.create req env (createStep req env st pc).2)
  | Proc.cancel req now pc => ((cancelStep req now st pc).1, Proc.cancel req now (cancelStep req now st pc).2)

/-- The answer of a request that has finished. -/
def Proc.response : Proc → Option Response
  | Proc.create _ _ (CreatePc.done r) => some r
  | Proc.cancel _ _ (CancelPc.done r) => some r
  | _ => none

/-- The request with index `i` does its next operation. -/
def stepAt : Nat → State → List Proc → State × List Proc
  | _, st, [] => (st, [])
  | 0, st, p :: rest => ((p.step st).1, (p.step st).2 :: rest)
  | i + 1, st, p :: rest => ((stepAt i st rest).1, p :: (stepAt i st rest).2)

/-- Run a schedule: the list names, operation by operation, the request that
moves next. -/
def runSchedule : List Nat → State → List Proc → State × List Proc
  | [], st, ps => (st, ps)
  | i :: rest, st, ps => runSchedule rest (stepAt i st ps).1 (stepAt i st ps).2

/-- The answers of the requests after a schedule. -/
def answers (r : State × List Proc) : List (Option Response) :=
  r.2.map Proc.response

/-- Schedules of two requests, as lists of request indices: with `n = a + b`
operations to go, every order of `a` operations of request 0 and `b`
operations of request 1. -/
def schedulesAux : Nat → Nat → Nat → List (List Nat)
  | 0, _, _ => [[]]
  | n + 1, a, b =>
    (if a > 0 then (schedulesAux n (a - 1) b).map (fun l => 0 :: l) else []) ++
      (if b > 0 then (schedulesAux n a (b - 1)).map (fun l => 1 :: l) else [])

/-- Every interleaving of `a` operations of request 0 with `b` operations of
request 1. -/
def interleavings (a b : Nat) : List (List Nat) :=
  schedulesAux (a + b) a b
/-- A second registered customer. -/
def otherCustomer : User :=
  { id := 4, role := Role.customer, cinemaId := none, phone := some "0904", fullName := "Dung",
    email := "dung@example.vn", loyaltyPoints := 0, loyaltyTier := Tier.bronze }

/-- The sample database with both customers. -/
def raceState : State :=
  { sampleState with users := [sampleCustomer, otherCustomer] }

/-- An online request of the second customer for the given seats. -/
def otherRequest (seats : List SeatReq) : BookingReq :=
  { sampleRequest seats with user := { id := 4, role := Role.customer } }

/-- Seat 1 of a row with a two-letter label. -/
def seatAB1 : SeatReq := { row := "AB", number := 1, type := "standard" }

/-- Two `createBooking` requests in flight for the same seats, one per customer. -/
def twoCreates (seats : List SeatReq) : List Proc :=
  [Proc.create (sampleRequest seats) envFirst CreatePc.start,
   Proc.create (otherRequest seats) envSecond CreatePc.start]

/-- Both requests do their reads before either writes. -/
def readsFirst : List Nat := [0, 1, 0, 0, 0, 1, 1, 1]

/-- The database with both customers after the first one has booked seat A1
as booking 50. -/
def raceA1Booked : State :=
  (createBooking raceState (sampleRequest [seatA1]) envFirst).2

/-- The owner cancels booking 50 while the second customer books seat A2. -/
def cancelAndCreate : List Proc :=
  [Proc.cancel cancelFirst 0 CancelPc.start,
   Proc.create (otherRequest [seatA2]) envSecond CreatePc.start]

/-- The cancellation reads the booking and the showtime, the booking request
runs from its reads to its answer, then the cancellation saves. -/
def staleSave : List Nat := [0, 0, 1, 1, 1, 1, 0, 0, 0, 0]

/-- The answers are one 201 and one seat rejection (the pre-check answer or
`SEAT_CONFLICT`), in either order. -/
def oneWinner (seats : List SeatReq) (r : State × List Proc) : Bool :=
  match answers r with
  | [some a, some b] =>
    (a.status == 201 &&
        (b == seatConflict ||
          b == seatsAlreadyBooked (seats.map (fun s => seatKey s.row s.number)))) ||
    (b.status == 201 &&
        (a == seatConflict ||
          a == seatsAlreadyBooked (seats.map (fun s => seatKey s.row s.number))))
  | _ => false

/-! ## Showtime creation (`showtime.controller.js`, `showtimeGenerator.service.js`) -/

/-- The `room` object of a showtime document. -/
structure Room where
  name : String
  capacity : Int
  type : String
  deriving DecidableEq, Repr

/-- A screen of a cinema document (`screenSchema`), with the fields the
showtime code reads. -/
structure Screen where
  id : Id
  name : String
  capacity : Option Int
  seatsTotal : Option Int
  screenType : String
  deriving DecidableEq, Repr

/-- The `room` object of the body of `POST /api/showtimes`. -/
structure RoomBody where
  name : Option String
  capacity : Option Int
  type : Option String
  deriving DecidableEq, Repr

/-- Body of `POST /api/showtimes`. -/
structure ShowtimeBody where
  movieId : Id
  cinemaId : Id
  screenId : Option Id
  room : Option RoomBody
  startTime : Int
  price : Option PriceTable
  deriving DecidableEq, Repr

/-- The document handed to `Showtime.create` and `Showtime.insertMany`. -/
structure ShowtimeDoc where
  movieId : Id
  cinemaId : Id
  room : Room
  screenId : Option Id
  startTime : Int
  endTime : Int
  price : PriceTable
  availableSeats : Int
  bookedSeats : List BookedSeat
  status : ShowtimeStatus
  isActive : Bool
  deriving DecidableEq, Repr

/-- Values the Showtime schema accepts for `room.type`. -/
def roomTypeEnum : List String := ["standard", "imax", "4dx", "premium"]

/-- Models
`screen.screenType === 'IMAX' ? 'imax' : screen.screenType === '4DX' ? '4dx' : 'standard'`. -/
def screenRoomType (screenType : String) : String :=
  if screenType = "IMAX" then "imax" else if screenType = "4DX" then "4dx" else "standard"

/-- Models `screen.capacity || screen.seats?.total || 150`. -/
def screenCapacity (screen : Screen) : Int :=
  match truthyNum screen.capacity with
  | some c => c
  | none =>
    match truthyNum screen.seatsTotal with
    | some c => c
    | none => 150

/-- Lines 154-176 of `createShowtime`: `roomInfo` and `capacity` after the two
branches, before the default room is filled in. -/
def roomAndCapacity (body : ShowtimeBody) (screens : List Screen) : Option Room × Int :=
  match body.room with
  | some room =>
    if truthyStr room.name then
      (some { name := room.name.getD "", capacity := (truthyNum room.capacity).getD 150,
              type := strOr room.type "standard" },
        (truthyNum room.capacity).getD 150)
    else
      match body.screenId with
      | none => (none, 150)
      | some i =>
        match screens.find? (fun s => s.id == i) with
        | none => (none, 150)
        | some screen =>
          (some { name := screen.name, capacity := screenCapacity screen,
                  type := screenRoomType screen.screenType },
            screenCapacity screen)
  | none =>
    match body.screenId with
    | none => (none, 150)
    | some i =>
      match screens.find? (fun s => s.id == i) with
      | none => (none, 150)
      | some screen =>
        (some { name := screen.name, capacity := screenCapacity screen,
                type := screenRoomType screen.screenType },
          screenCapacity screen)

/-- Lines 179-185 of `createShowtime`: the default room. -/
def roomInfoOrDefault (r : Option Room) : Room :=
  match r with
  | some room => room
  | none => { name := "Phòng 1", capacity := 150, type := "standard" }

/-- Lines 200-207 of `createShowtime`: the default price table when the body
has none or one with neither a standard nor a vip price. -/
def priceInfo (price : Option PriceTable) : PriceTable :=
  match price with
  | none => { standard := some 80000, vip := some 120000, couple := some 150000 }
  | some p =>
    if (truthyNum p.standard).isNone && (truthyNum p.vip).isNone then
      { standard := some 80000, vip := some 120000, couple := some 150000 }
    else p

/-- The document `createShowtime` hands to `Showtime.create` (lines 209-222);
`duration` is the movie's length in minutes. -/
def createShowtimeDoc (body : ShowtimeBody) (screens : List Screen) (duration : Int) :
    ShowtimeDoc :=
  { movieId := body.movieId,
    cinemaId := body.cinemaId,
    room := roomInfoOrDefault (roomAndCapacity body screens).1,
    screenId := body.screenId,
    startTime := body.startTime,
    endTime := body.startTime + (duration + 15) * 60000,
    price := priceInfo body.price,
    availableSeats := (roomAndCapacity body screens).2,
    bookedSeats := [],
    status := ShowtimeStatus.scheduled,
    isActive := true }

/-- Models `generateDefaultRooms(screenCount)`. -/
def generateDefaultRooms (screenCount : Nat) : List Room :=
  (List.range screenCount).map (fun k =>
    { name := "Phòng " ++ toString (k + 1),
      capacity := if k + 1 ≤ 2 then 200 else 150,
      type := if k + 1 = 1 then "imax" else if k + 1 = 2 then "vip" else "standard" })

/-- Lines 73-86 of `generateShowtimesForNextDay`: the rooms of a cinema, from
its screens or the five default rooms. -/
def roomsOfCinema (screens : List Screen) : List Room :=
  if screens.length > 0 then
    screens.map (fun screen =>
      { name := if screen.name = "" then "Screen" else screen.name,
        capacity := screenCapacity screen,
        type := screenRoomType screen.screenType })
  else generateDefaultRooms 5

/-- Models `generateTimeSlots()`, as minutes after midnight. -/
def timeSlots : List Int := [540, 690, 840, 990, 1140, 1290]

/-- The showtime object of lines 106-120 of `generateShowtimesForNextDay` for
one room and one time slot. The price table is the result of
`generatePricing`, which is not modelled. -/
def generatedDoc (movieId cinemaId : Id) (duration : Int) (room : Room) (tomorrow slot : Int)
    (price : PriceTable) : ShowtimeDoc :=
  { movieId := movieId,
    cinemaId := cinemaId,
    room := { name := room.name, capacity := room.capacity,
              type := if room.type = "" then "standard" else room.type },
    screenId := none,
    startTime := tomorrow + slot * 60000,
    endTime := tomorrow + slot * 60000 + (duration + 15) * 60000,
    price := price,
    availableSeats := room.capacity,
    bookedSeats := [],
    status := ShowtimeStatus.scheduled,
    isActive := true }

/-- The showtime objects `generateShowtimesForNextDay` builds for one cinema:
for every room the movie picked for it (`pick` gives, by room index, its id and
duration), for every time slot one object. -/
def cinemaDocs (cinemaId : Id) (screens : List Screen) (pick : Nat → Id × Int)
    (tomorrow : Int) (pricing : Int → String → PriceTable) : List ShowtimeDoc :=
  (roomsOfCinema screens).enum.flatMap (fun kr =>
    timeSlots.map (fun slot =>
      generatedDoc (pick kr.1).1 cinemaId (pick kr.1).2 kr.2 tomorrow slot
        (pricing slot kr.2.type)))

/-- The list `generateShowtimesForNextDay` hands to `Showtime.insertMany`: the
objects of every active cinema, given by its id and its screens. -/
def generatedDocs (cinemas : List (Id × List Screen)) (pick : Id → Nat → Id × Int)
    (tomorrow : Int) (pricing : Int → String → PriceTable) : List ShowtimeDoc :=
  cinemas.flatMap (fun c => cinemaDocs c.1 c.2 (pick c.1) tomorrow pricing)

/-- Schema validation of a showtime document: `room.name` is required and
`room.type` must be in its enum; the other required paths are always set. -/
def ShowtimeDoc.valid (d : ShowtimeDoc) : Bool :=
  d.room.name != "" && roomTypeEnum.contains d.room.type

/-- The stored showtime, with the fields of this model. -/
def storeShowtime (i : Id) (d : ShowtimeDoc) : Showtime :=
  { id := i, movieId := d.movieId, cinemaId := d.cinemaId, capacity := d.room.capacity,
    startTime := d.startTime, endTime := d.endTime, price := d.price,
    availableSeats := d.availableSeats, bookedSeats := d.bookedSeats, status := d.status,
    isActive := d.isActive }

/-- Models `Showtime.insertMany(showtimes)`: every document is validated and a
validation error stores nothing; `none` is that error. The documents get the
ids `firstId`, `firstId + 1`, ... -/
def insertMany (firstId : Id) (docs : List ShowtimeDoc) : Option (List Showtime) :=
  if docs.all ShowtimeDoc.valid then
    some (docs.enum.map (fun kd => storeShowtime (firstId + kd.1) kd.2))
  else none

/-- Models `showtimeSchema.methods.updateStatus` (Showtime.model.js lines
112-122) with `now` for `new Date()`. -/
def updateStatus (sh : Showtime) (now : Int) : Showtime :=
  if now < sh.startTime then { sh with status := ShowtimeStatus.scheduled }
  else if now ≥ sh.startTime ∧ now < sh.endTime then { sh with status := ShowtimeStatus.ongoing }
  else { sh with status := ShowtimeStatus.completed }

/-- What `showtime.save()` of `getShowtime` writes: the status. -/
def statusWrite (status : ShowtimeStatus) (stored : Showtime) : Showtime :=
  { stored with status := status }

/-- Handler `getShowtime` (showtime.controller.js lines 76-112): status code,
the showtime of the answer and the database afterwards. The showtime is read,
its movie and cinema must exist, then `updateStatus()` and `save()` run. -/
def getShowtime (st : State) (i : Id) (now : Int) : Nat × Option Showtime × State :=
  match findShowtime st.showtimes i with
  | none => (404, none, st)
  | some showtime =>
    if !st.movies.contains showtime.movieId || !st.cinemas.contains showtime.cinemaId then
      (400, none, st)
    else
      (200, some (updateStatus showtime now),
        { st with
          showtimes := updateShowtime showtime.id
            (statusWrite (updateStatus showtime now).status) st.showtimes })

/-- The seat bookkeeping of a showtime: `availableSeats` plus the number of
`bookedSeats` entries is the room capacity. -/
def bookkeeping (sh : Showtime) : Prop :=
  sh.availableSeats + (sh.bookedSeats.length : Int) = sh.capacity

instance (sh : Showtime) : Decidable (bookkeeping sh) := by
  unfold bookkeeping
  infer_instance

/-- The number of `bookedSeats` entries that carry the booking's id. -/
def heldCount (sh : Showtime) (bookingId : Id) : Nat :=
  (sh.bookedSeats.filter (fun s => s.bookingId == bookingId)).length

/-- The sample showtime with status `cancelled`. -/
def cancelledShowtime : Showtime :=
  { sampleShowtime with status := ShowtimeStatus.cancelled }

/-- The database whose only showtime is cancelled. -/
def cancelledShowtimeState : State :=
  { sampleState with showtimes := [cancelledShowtime] }

/-- Seat 1 of row AB held by booking 40. -/
def bookedAB1 : BookedSeat := { row := "AB", number := 1, type := "standard", bookingId := 40 }

/-- Seat A1 held by booking 40. -/
def bookedA1 : BookedSeat := { row := "A", number := 1, type := "standard", bookingId := 40 }

/-- The identifiers `createBooking` puts into the update filter for a request:
the keys of `seatsToAdd`. -/
def filterIdentifiers (price : PriceTable) (seats : List SeatReq) (bookingId : Id) : List String :=
  (seatsToAdd (seatDetails price seats) bookingId).map (fun b => seatKey b.row b.number)

/-- What the update filter reads out of a seat key: `id.charAt(0)` and
`parseInt(id.substring(1))`. -/
def decodeKey (key : String) : String × Option Int :=
  (charAt0 key, parseInt (substring1 key))

/-- A request for seat A1 with a negative `loyaltyPointsUsed`. -/
def negativePointsRequest : BookingReq :=
  { sampleRequest [seatA1] with loyaltyPointsUsed := -5 }

/-- Cancellation of booking 50 by the staff user. -/
def cancelByStaff : CancelReq :=
  { user := { id := 2, role := Role.staff }, bookingId := 50, reason := none }

/-- The database after the staff user has sold seat A1 to a walk-in customer
as booking 50. -/
def walkInBooked : State :=
  (createBooking counterState (counterRequest [seatA1]) envFirst).2

/-- The stored booking `b` still carries the reservation of `b0`: the same id,
owner, showtime, seats and loyalty figures. The payment handlers change none
of them. -/
def sameReservation (b b0 : Booking) : Prop :=
  b.id = b0.id ∧ b.userId = b0.userId ∧ b.showtimeId = b0.showtimeId ∧ b.seats = b0.seats ∧
  b.loyaltyPointsUsed = b0.loyaltyPointsUsed ∧ b.loyaltyPointsEarned = b0.loyaltyPointsEarned

/-- The sample showtime with a price table whose entry for vip seats is 0. -/
def zeroVipShowtime : Showtime :=
  { sampleShowtime with
    price := { standard := some 80000, vip := some 0, couple := some 150000 } }

/-- The database whose only showtime lists the price 0 for vip seats. -/
def zeroVipState : State :=
  { sampleState with showtimes := [zeroVipShowtime] }

/-- A request of the sample customer for the vip seat B3. -/
def vipRequest : BookingReq :=
  sampleRequest [{ row := "B", number := 3, type := "vip" }]

/-- The database with the staff user of cinema 201 in which the cinema document
of the sample showtime (cinema 200) is gone. -/
def danglingCinemaState : State :=
  { otherStaffState with cinemas := [] }

/-- A room of 3 seats with 1 of them booked by booking 40. -/
def oneOfThree : Showtime :=
  { sampleShowtime with
    capacity := 3,
    availableSeats := 2,
    bookedSeats := [{ row := "A", number := 1, type := "standard", bookingId := 40 }] }

/-- Some entry of the `bookedSeats` of the showtime is the seat `(row, number)`. -/
def holdsSeat (st : State) (showtimeId : Id) (row : String) (number : Nat) : Prop :=
  ∃ sh, findShowtime st.showtimes showtimeId = some sh ∧
    ∃ b ∈ sh.bookedSeats, b.row = row ∧ b.number = number

/-- The request has its seats: its conditional update matched, or it has
answered 201. -/
def CreatePc.won : CreatePc → Prop
  | CreatePc.claimed _ => True
  | CreatePc.done r => r.status = 201
  | _ => False

/-- What is known of a `createBooking` request for the single seat
`(row, number)` at each point of its run: before the conditional update the
entry it will push is that seat, and once it has its seats the showtime holds
the seat. -/
def CreatePc.singleSeat (st : State) (showtimeId : Id) (row : String) (number : Nat) :
    CreatePc → Prop
  | CreatePc.start => True
  | CreatePc.prepared p => ∃ e, seatsToAdd p.booking.seats p.booking.id = [e] ∧
      e.row = row ∧ e.number = number
  | CreatePc.inserted p => ∃ e, seatsToAdd p.booking.seats p.booking.id = [e] ∧
      e.row = row ∧ e.number = number
  | CreatePc.refused _ => True
  | CreatePc.claimed _ => holdsSeat st showtimeId row number
  | CreatePc.done r => r.status = 201 → holdsSeat st showtimeId row number

/-! # Theorems -/

/-! ## Auxiliary facts about the collections and the seat claim -/

theorem claimSeats_false (i : Id) (toAdd : List BookedSeat) (n : Nat) (l : List Showtime)
    (h : (claimSeats i toAdd n l).2 = false) : (claimSeats i toAdd n l).1 = l := by
  induction l with
  | nil => rfl
  | cons s rest ih =>
    unfold claimSeats at h ⊢
    by_cases hs : s.id = i
    · simp only [hs, if_true] at h ⊢
      split at h
      · simp_all
      · simp at h
    · simp only [hs, if_false] at h ⊢
      simp [ih h]

theorem claimSeats_true (i : Id) (toAdd : List BookedSeat) (n : Nat) (l : List Showtime)
    (h : (claimSeats i toAdd n l).2 = true) :
    ∃ sh, findShowtime l i = some sh ∧
      elemMatchConflict sh.bookedSeats (toAdd.map (fun b => seatKey b.row b.number)) = false ∧
      (claimSeats i toAdd n l).1 = updateShowtime i (applyClaim toAdd n) l := by
  induction l with
  | nil => simp [claimSeats] at h
  | cons s rest ih =>
    unfold claimSeats at h ⊢
    by_cases hs : s.id = i
    · simp only [hs, if_true] at h ⊢
      split at h
      · simp at h
      · rename_i hc
        refine ⟨s, ?_, by simpa using hc, ?_⟩
        · simp [findShowtime, hs]
        · simp [updateShowtime, hs, hc]
    · simp only [hs, if_false] at h ⊢
      obtain ⟨sh, h1, h2, h3⟩ := ih h
      refine ⟨sh, ?_, h2, ?_⟩
      · simpa [findShowtime, hs] using h1
      · simp [updateShowtime, hs, h3]

/-- What a successful `prepare` has established. -/
theorem prepare_ok (st : State) (req : BookingReq) (env : Env) (p : Prepared)
    (h : prepare st req env = Except.ok p) :
    ∃ sh su, findShowtime st.showtimes req.showtimeId = some sh ∧
      findUser st.users req.user.id = some su ∧
      staffGate st sh su = none ∧
      unavailableSeats sh.bookedSeats req.seats = [] ∧
      resolveCustomer st req su = some p.customer ∧
      req.loyaltyPointsUsed ≤ p.customer.points ∧
      sh.movieId ∈ st.movies ∧ sh.cinemaId ∈ st.cinemas ∧
      p.booking = bookingData req env sh su p.customer := by
  unfold prepare at h
  cases h1 : findShowtime st.showtimes req.showtimeId with
  | none => simp [h1] at h
  | some sh =>
    cases h2 : findUser st.users req.user.id with
    | none => simp [h1, h2] at h
    | some su =>
      cases h3 : staffGate st sh su with
      | some r => simp [h1, h2, h3] at h
      | none =>
        cases h5 : resolveCustomer st req su with
        | none =>
          simp only [h1, h2, h3, h5] at h
          split at h <;> simp at h
        | some c =>
          simp only [h1, h2, h3, h5] at h
          split at h
          · simp at h
          · rename_i hun
            split at h
            · simp at h
            · rename_i hpts
              split at h
              · simp at h
              · rename_i hm
                split at h
                · simp at h
                · rename_i hc
                  simp only [Except.ok.injEq] at h
                  subst h
                  refine ⟨sh, su, rfl, rfl, h3, ?_, h5, ?_, ?_, ?_, rfl⟩
                  · simpa using hun
                  · simpa using hpts
                  · simpa using hm
                  · simpa using hc

theorem staffGate_failure (st : State) (sh : Showtime) (su : User) (r : Response)
    (h : staffGate st sh su = some r) : r.success = false := by
  unfold staffGate at h
  split at h
  · split at h
    · simp only [Option.some.injEq] at h; subst h; rfl
    · split at h
      · simp only [Option.some.injEq] at h; subst h; rfl
      · split at h
        · simp only [Option.some.injEq] at h; subst h; rfl
        · simp at h
  · simp at h

/-- Every answer `prepare` gives by itself is a failure. -/
theorem prepare_error (st : State) (req : BookingReq) (env : Env) (r : Response)
    (h : prepare st req env = Except.error r) : r.success = false := by
  unfold prepare at h
  split at h
  · simp only [Except.error.injEq] at h; subst h; rfl
  · split at h
    · simp only [Except.error.injEq] at h; subst h; rfl
    · split at h
      · rename_i r0 hg
        simp only [Except.error.injEq] at h; subst h
        exact staffGate_failure _ _ _ _ hg
      · split at h
        · simp only [Except.error.injEq] at h; subst h; rfl
        · split at h
          · simp only [Except.error.injEq] at h; subst h; rfl
          · split at h
            · simp only [Except.error.injEq] at h; subst h; rfl
            · split at h
              · simp only [Except.error.injEq] at h; subst h; rfl
              · split at h
                · simp only [Except.error.injEq] at h; subst h; rfl
                · simp at h

theorem deleteBooking_append_fresh (l : List Booking) (b : Booking)
    (h : ∀ x ∈ l, x.id ≠ b.id) : deleteBooking b.id (l ++ [b]) = l := by
  induction l with
  | nil => simp [deleteBooking]
  | cons x rest ih =>
    have hx : x.id ≠ b.id := h x (List.mem_cons_self _ _)
    have hrest : ∀ y ∈ rest, y.id ≠ b.id := fun y hy => h y (List.mem_cons_of_mem _ hy)
    simp [deleteBooking, hx, ih hrest]

theorem bookingInsertable_fresh (l : List Booking) (b : Booking)
    (h : bookingInsertable l b = true) : ∀ x ∈ l, x.id ≠ b.id := by
  intro x hx
  unfold bookingInsertable at h
  simp only [Bool.and_eq_true, List.all_eq_true] at h
  have := h.2 x hx
  simp only [Bool.and_eq_true, bne_iff_ne, ne_eq] at this
  exact this.1

/-- The three ways `commit` can end. -/
theorem commit_cases (st : State) (req : BookingReq) (p : Prepared) :
    ((commit st req p).2 = st ∧ (commit st req p).1.success = false ∧
        ((commit st req p).1 = seatConflict ∨ (commit st req p).1.status = 500)) ∨
    (p.booking.seats = [] ∧ bookingInsertable st.bookings p.booking = true ∧
        commit st req p = (serverError "MongoServerError: $or must be a nonempty array",
          { st with bookings := st.bookings ++ [p.booking] })) ∨
    (p.booking.seats ≠ [] ∧ bookingInsertable st.bookings p.booking = true ∧
        (claimSeats req.showtimeId (seatsToAdd p.booking.seats p.booking.id) req.seats.length
          st.showtimes).2 = true ∧
        commit st req p = (accept 201 "" p.booking,
          { showtimes := (claimSeats req.showtimeId (seatsToAdd p.booking.seats p.booking.id)
              req.seats.length st.showtimes).1,
            bookings := st.bookings ++ [p.booking],
            users := saveLoyalty st.users p,
            movies := st.movies, cinemas := st.cinemas })) := by
  unfold commit
  by_cases hins : bookingInsertable st.bookings p.booking = true
  · by_cases hempty : p.booking.seats = []
    · right; left
      refine ⟨hempty, hins, ?_⟩
      simp [hins, hempty, seatsToAdd]
    · have hne : (seatsToAdd p.booking.seats p.booking.id).isEmpty = false := by
        cases hs : p.booking.seats with
        | nil => exact absurd hs hempty
        | cons a t => simp [seatsToAdd]
      cases hcl : (claimSeats req.showtimeId (seatsToAdd p.booking.seats p.booking.id)
          req.seats.length st.showtimes).2 with
      | false =>
        left
        have hdel := deleteBooking_append_fresh st.bookings p.booking
          (bookingInsertable_fresh _ _ hins)
        simp [hins, hne, hcl, hdel, seatConflict]
      | true =>
        right; right
        refine ⟨hempty, hins, rfl, ?_⟩
        simp [hins, hne, hcl]
  · left
    simp [hins, serverError]

theorem findShowtime_updateShowtime (i j : Id) (f : Showtime → Showtime)
    (hf : ∀ s, (f s).id = s.id) (l : List Showtime) :
    findShowtime (updateShowtime i f l) j =
      if j = i then (findShowtime l i).map f else findShowtime l j := by
  induction l with
  | nil => simp [updateShowtime, findShowtime]
  | cons s rest ih =>
    unfold findShowtime at ih ⊢
    by_cases hs : s.id = i
    · by_cases hj : j = i
      · subst hj
        have h1 : ((f s).id == j) = true := by simp [hf, hs]
        have h2 : (s.id == j) = true := by simp [hs]
        simp [updateShowtime, hs, List.find?_cons, h1, h2]
      · have hne : ¬ s.id = j := fun h => hj (h ▸ hs)
        have h1 : ((f s).id == j) = false := by simp [hf, hne]
        have h2 : (s.id == j) = false := by simp [hne]
        have h3 : (i == j) = false := by
          rw [beq_eq_false_iff_ne]; exact fun h => hj h.symm
        simp [updateShowtime, hs, hj, List.find?_cons, h1, h3]
    · by_cases hj : j = i
      · subst hj
        have h2 : (s.id == j) = false := by simp [hs]
        simp only [updateShowtime, hs, if_false, List.find?_cons, if_true, h2] at ih ⊢
        exact ih
      · simp only [updateShowtime, hs, if_false, List.find?_cons, hj] at ih ⊢
        cases hsj : (s.id == j) with
        | true => rfl
        | false => exact ih

theorem updateShowtime_congr (i : Id) (f g : Showtime → Showtime) (l : List Showtime)
    (sh : Showtime) (hfind : findShowtime l i = some sh) (hfg : f sh = g sh) :
    updateShowtime i f l = updateShowtime i g l := by
  induction l with
  | nil => rfl
  | cons s rest ih =>
    by_cases hs : s.id = i
    · have : s = sh := by simpa [findShowtime, List.find?_cons, hs] using hfind
      subst this
      simp [updateShowtime, hs, hfg]
    · have hrest : findShowtime rest i = some sh := by
        simpa [findShowtime, List.find?_cons, hs] using hfind
      simp [updateShowtime, hs, ih hrest]

/-- The pre-check lets a request through only when none of its seats is stored
with the same row and number. -/
theorem unavailableSeats_nil (booked : List BookedSeat) (seats : List SeatReq)
    (h : unavailableSeats booked seats = []) :
    ∀ s ∈ seats, ∀ b ∈ booked, ¬ (b.row = s.row ∧ b.number = s.number) := by
  intro s hs b hb hsame
  unfold unavailableSeats at h
  rw [List.filter_eq_nil_iff] at h
  have hmem : seatKey s.row s.number ∈ seats.map (fun s => seatKey s.row s.number) :=
    List.mem_map.mpr ⟨s, hs, rfl⟩
  apply h _ hmem
  simp only [List.contains_iff_exists_mem_beq, beq_iff_eq, List.mem_map, exists_exists_and_eq_and]
  exact ⟨b, hb, by rw [hsame.1, hsame.2]⟩

/-! ## C1 - C5: the seat claim of createBooking -/

/-- A successful `createBooking`, spelled out. -/
theorem createBooking_success (st : State) (req : BookingReq) (env : Env)
    (h : (createBooking st req env).1.success = true) :
    ∃ p sh su, prepare st req env = Except.ok p ∧
      findShowtime st.showtimes req.showtimeId = some sh ∧
      findUser st.users req.user.id = some su ∧
      staffGate st sh su = none ∧
      unavailableSeats sh.bookedSeats req.seats = [] ∧
      resolveCustomer st req su = some p.customer ∧
      req.loyaltyPointsUsed ≤ p.customer.points ∧
      sh.movieId ∈ st.movies ∧ sh.cinemaId ∈ st.cinemas ∧
      p.booking = bookingData req env sh su p.customer ∧
      req.seats ≠ [] ∧ bookingInsertable st.bookings p.booking = true ∧
      elemMatchConflict sh.bookedSeats
        ((seatsToAdd (seatDetails sh.price req.seats) env.newId).map
          (fun b => seatKey b.row b.number)) = false ∧
      createBooking st req env = (accept 201 "" p.booking,
        { showtimes := updateShowtime req.showtimeId
            (applyClaim (seatsToAdd (seatDetails sh.price req.seats) env.newId) req.seats.length)
            st.showtimes,
          bookings := st.bookings ++ [p.booking],
          users := saveLoyalty st.users p,
          movies := st.movies, cinemas := st.cinemas }) := by
  unfold createBooking at h ⊢
  cases hp : prepare st req env with
  | error r =>
    simp only [hp] at h
    rw [prepare_error st req env r hp] at h
    exact absurd h (by decide)
  | ok p =>
    simp only [hp] at h ⊢
    obtain ⟨sh, su, h1, h2, h3, h4, h5, h6, h7, h8, h9⟩ := prepare_ok st req env p hp
    have hseats : p.booking.seats = seatDetails sh.price req.seats := by rw [h9]; rfl
    have hid : p.booking.id = env.newId := by rw [h9]; rfl
    rcases commit_cases st req p with hc | hc | hc
    · rw [hc.2.1] at h; exact absurd h (by decide)
    · rw [hc.2.2] at h; simp [serverError] at h
    · obtain ⟨hne, hins, hcl, heq⟩ := hc
      obtain ⟨sh', hf, hno, hup⟩ := claimSeats_true _ _ _ _ hcl
      rw [h1] at hf
      cases hf
      rw [hseats, hid] at hup hno
      refine ⟨p, sh, su, rfl, h1, h2, h3, h4, h5, h6, h7, h8, h9, ?_, hins, hno, ?_⟩
      · intro hnil
        apply hne
        rw [hseats, hnil]; rfl
      · rw [heq, hseats, hid, hup]

/-- A `createBooking` that does not succeed leaves every showtime as it was. -/
theorem createBooking_failure_showtimes (st : State) (req : BookingReq) (env : Env)
    (h : (createBooking st req env).1.success = false) :
    (createBooking st req env).2.showtimes = st.showtimes := by
  unfold createBooking at h ⊢
  cases hp : prepare st req env with
  | error r => rfl
  | ok p =>
    simp only [hp] at h ⊢
    rcases commit_cases st req p with hc | hc | hc
    · rw [hc.1]
    · rw [hc.2.2]
    · rw [hc.2.2.2] at h; simp [accept] at h

/-- C1. Evaluation of `createBooking` on a request that names seat A1 twice:
the showtime had no seat booked twice, the request is accepted with 201, and
afterwards `bookedSeats` holds the pair (A, 1) two times. -/
theorem createBooking_repeated_seat_booked_twice :
    (∀ sh ∈ sampleState.showtimes, (seatPairs sh.bookedSeats).Nodup) ∧
    (createBooking sampleState (sampleRequest [seatA1, seatA1]) envFirst).1.status = 201 ∧
    (createBooking sampleState (sampleRequest [seatA1, seatA1]) envFirst).2.showtimes.map
        (fun sh => seatPairs sh.bookedSeats) = [[("A", 1), ("A", 1)]] ∧
    ¬ (∀ sh ∈ (createBooking sampleState (sampleRequest [seatA1, seatA1]) envFirst).2.showtimes,
        (seatPairs sh.bookedSeats).Nodup) := by
  decide

theorem seatPairs_seatsToAdd (p : PriceTable) (seats : List SeatReq) (i : Id) :
    seatPairs (seatsToAdd (seatDetails p seats) i) = requestPairs seats := by
  simp [seatPairs, seatsToAdd, seatDetails, requestPairs, List.map_map, Function.comp_def]

/-- When the pre-check passes for a request without repeated seats on a
showtime without repeated seats, the extended list has no repeated seat. -/
theorem nodup_after_claim (booked : List BookedSeat) (price : PriceTable) (seats : List SeatReq)
    (i : Id) (hb : (seatPairs booked).Nodup) (hr : (requestPairs seats).Nodup)
    (hun : unavailableSeats booked seats = []) :
    (seatPairs (booked ++ seatsToAdd (seatDetails price seats) i)).Nodup := by
  have hsplit : seatPairs (booked ++ seatsToAdd (seatDetails price seats) i) =
      seatPairs booked ++ requestPairs seats := by
    rw [← seatPairs_seatsToAdd price seats i]
    simp [seatPairs]
  rw [hsplit]
  refine List.Nodup.append hb hr ?_
  intro pr h1 h2
  obtain ⟨b, hbm, hbe⟩ := List.mem_map.mp h1
  obtain ⟨s, hsm, hse⟩ := List.mem_map.mp h2
  apply unavailableSeats_nil booked seats hun s hsm b hbm
  rw [← hse] at hbe
  simp only [Prod.mk.injEq] at hbe
  exact hbe

/-- C2, the claim as stated, fails: the sold-out showtime (capacity 1, seat A1
booked) satisfies the bound, a request for seat A2 is accepted, and afterwards
two seats are booked in a room of capacity 1. -/
theorem createBooking_exceeds_capacity :
    (∀ sh ∈ fullState.showtimes, (sh.bookedSeats.length : Int) ≤ sh.capacity) ∧
    (createBooking fullState (sampleRequest [seatA2]) envFirst).1.status = 201 ∧
    ¬ (∀ sh ∈ (createBooking fullState (sampleRequest [seatA2]) envFirst).2.showtimes,
        (sh.bookedSeats.length : Int) ≤ sh.capacity) := by
  decide

/-- C2, amended. `createBooking` checks neither a seat layout nor the
capacity. If the booked seats of the showtime are distinct seats of a layout
that has at most `capacity` seats, and the request names distinct seats of
that layout, then after `createBooking` the number of booked seats is still at
most the capacity. -/
theorem createBooking_within_layout (layout : List (String × Nat)) (st : State)
    (req : BookingReq) (env : Env) (sh sh' : Showtime)
    (hfind : findShowtime st.showtimes req.showtimeId = some sh)
    (hcap : (layout.length : Int) ≤ sh.capacity)
    (hbooked : (seatPairs sh.bookedSeats).Nodup ∧ ∀ pr ∈ seatPairs sh.bookedSeats, pr ∈ layout)
    (hreq : (requestPairs req.seats).Nodup ∧ ∀ pr ∈ requestPairs req.seats, pr ∈ layout)
    (hafter : findShowtime (createBooking st req env).2.showtimes req.showtimeId = some sh') :
    (sh'.bookedSeats.length : Int) ≤ sh'.capacity := by
  have bound : ∀ l : List BookedSeat, (seatPairs l).Nodup → (∀ pr ∈ seatPairs l, pr ∈ layout) →
      (l.length : Int) ≤ sh.capacity := by
    intro l hn hs
    have hle : (seatPairs l).length ≤ layout.length := (List.Nodup.subperm hn hs).length_le
    have hlen : (seatPairs l).length = l.length := by simp [seatPairs]
    rw [hlen] at hle
    exact le_trans (by exact_mod_cast hle) hcap
  cases hs : (createBooking st req env).1.success with
  | false =>
    rw [createBooking_failure_showtimes st req env hs, hfind] at hafter
    cases hafter
    exact bound _ hbooked.1 hbooked.2
  | true =>
    obtain ⟨p, sh0, su, _, h1, _, _, hun, _, _, _, _, _, _, _, _, heq⟩ :=
      createBooking_success st req env hs
    rw [hfind] at h1
    cases h1
    rw [heq] at hafter
    simp only at hafter
    rw [findShowtime_updateShowtime _ _ (applyClaim _ _) (fun _ => rfl), if_pos rfl, hfind] at hafter
    simp only [Option.map_some', Option.some.injEq] at hafter
    subst hafter
    show ((sh.bookedSeats ++ seatsToAdd (seatDetails sh.price req.seats) env.newId).length : Int)
      ≤ sh.capacity
    apply bound
    · exact nodup_after_claim _ _ _ _ hbooked.1 hreq.1 hun
    · intro pr hpr
      have hsplit : seatPairs (sh.bookedSeats ++ seatsToAdd (seatDetails sh.price req.seats) env.newId) =
          seatPairs sh.bookedSeats ++ requestPairs req.seats := by
        rw [← seatPairs_seatsToAdd sh.price req.seats env.newId]
        simp [seatPairs]
      rw [hsplit] at hpr
      rcases List.mem_append.mp hpr with h | h
      · exact hbooked.2 pr h
      · exact hreq.2 pr h

/-- C2, amended, at a concrete input: on the sample two-seat room with layout
A1, A2 a request for both seats is accepted and leaves two seats booked, which
is the capacity. -/
theorem createBooking_within_layout_witness :
    findShowtime (createBooking sampleState (sampleRequest [seatA1, seatA2]) envFirst).2.showtimes 10
      = some bothSeatsBooked ∧
    (bothSeatsBooked.bookedSeats.length : Int) ≤ bothSeatsBooked.capacity :=
  ⟨by decide,
   createBooking_within_layout [("A", 1), ("A", 2)] sampleState (sampleRequest [seatA1, seatA2])
    envFirst sampleShowtime bothSeatsBooked
    (by decide) (by decide) (by decide) (by decide) (by decide)⟩

/-- C3. Seat reservation is all-or-nothing. After `createBooking` the showtime
of the request is either exactly as before, or the request was accepted and
the showtime has every requested seat appended to `bookedSeats` and
`availableSeats` lowered by the number of requested seats; every other
showtime is as before. When the last seat of the request is already booked,
no showtime changes, so none of the earlier seats is claimed. -/
theorem createBooking_all_or_nothing (st : State) (req : BookingReq) (env : Env) :
    (∀ sh, findShowtime st.showtimes req.showtimeId = some sh →
      findShowtime (createBooking st req env).2.showtimes req.showtimeId = some sh ∨
      ((createBooking st req env).1.status = 201 ∧
        findShowtime (createBooking st req env).2.showtimes req.showtimeId =
          some { sh with
            bookedSeats := sh.bookedSeats ++ seatsToAdd (seatDetails sh.price req.seats) env.newId,
            availableSeats := sh.availableSeats - (req.seats.length : Int) })) ∧
    (∀ j, j ≠ req.showtimeId →
      findShowtime (createBooking st req env).2.showtimes j = findShowtime st.showtimes j) ∧
    (∀ sh front last, findShowtime st.showtimes req.showtimeId = some sh →
      req.seats = front ++ [last] →
      (∃ b ∈ sh.bookedSeats, b.row = last.row ∧ b.number = last.number) →
      (createBooking st req env).2.showtimes = st.showtimes) := by
  cases hs : (createBooking st req env).1.success with
  | false =>
    have hsame := createBooking_failure_showtimes st req env hs
    refine ⟨fun sh hsh => Or.inl (by rw [hsame]; exact hsh), fun j _ => by rw [hsame],
      fun _ _ _ _ _ _ => hsame⟩
  | true =>
    obtain ⟨p, sh0, su, _, h1, _, _, hun, _, _, _, _, _, _, _, _, heq⟩ :=
      createBooking_success st req env hs
    refine ⟨?_, ?_, ?_⟩
    · intro sh hsh
      rw [h1] at hsh
      cases hsh
      right
      rw [heq]
      refine ⟨rfl, ?_⟩
      show findShowtime (updateShowtime _ _ _) _ = _
      rw [findShowtime_updateShowtime _ _ (applyClaim _ _) (fun _ => rfl), if_pos rfl, h1]
      rfl
    · intro j hj
      rw [heq]
      show findShowtime (updateShowtime _ _ _) _ = _
      rw [findShowtime_updateShowtime _ _ (applyClaim _ _) (fun _ => rfl), if_neg hj]
    · intro sh front last hsh hlast hb
      rw [h1] at hsh
      cases hsh
      obtain ⟨b, hbm, hbe⟩ := hb
      have hmem : last ∈ req.seats := by rw [hlast]; simp
      exact absurd hbe (unavailableSeats_nil _ _ hun last hmem b hbm)

/-- C3 at a concrete input: seat A2 of the sample room is booked, a request
for A1 and A2 conflicts on its last seat, and the showtimes stay as they
were. -/
theorem createBooking_all_or_nothing_witness :
    findShowtime conflictOnLastState.showtimes 10 = some conflictOnLastShowtime ∧
    (∃ b ∈ conflictOnLastShowtime.bookedSeats, b.row = seatA2.row ∧ b.number = seatA2.number) ∧
    (createBooking conflictOnLastState (sampleRequest [seatA1, seatA2]) envFirst).2.showtimes
      = conflictOnLastState.showtimes :=
  ⟨by decide, by decide,
   (createBooking_all_or_nothing conflictOnLastState (sampleRequest [seatA1, seatA2]) envFirst).2.2
    conflictOnLastShowtime [seatA1] seatA2 (by decide) (by decide) (by decide)⟩

/-- C4. A seat conflict changes no state: when `createBooking` answers with
the pre-check rejection `Some seats are already booked` or with the
`SEAT_CONFLICT` error, the whole database (showtimes with their `bookedSeats`
and `availableSeats`, stored bookings, users with their points and tier) is
the one before the call. -/
theorem createBooking_conflict_no_change (st : State) (req : BookingReq) (env : Env)
    (h : (createBooking st req env).1.message = "Some seats are already booked" ∨
      (createBooking st req env).1.error = some "SEAT_CONFLICT") :
    (createBooking st req env).2 = st := by
  unfold createBooking at h ⊢
  cases hp : prepare st req env with
  | error r => rfl
  | ok p =>
    simp only [hp] at h ⊢
    rcases commit_cases st req p with hc | hc | hc
    · exact hc.1
    · rw [hc.2.2] at h
      simp [serverError] at h
    · rw [hc.2.2.2] at h
      simp [accept] at h

/-- C4 at concrete inputs: a request for the booked seat A1 is rejected by the
pre-check, a request whose key decodes to A1 is rejected with `SEAT_CONFLICT`,
and both leave the database unchanged. -/
theorem createBooking_conflict_no_change_witness :
    (createBooking stateA1Booked (sampleRequest [seatA1]) envSecond).1
      = seatsAlreadyBooked ["A1"] ∧
    (createBooking stateA1Booked (sampleRequest [seatA1]) envSecond).2 = stateA1Booked ∧
    (createBooking stateA1Booked (sampleRequest [seatA0_1]) envSecond).1 = seatConflict ∧
    (createBooking stateA1Booked (sampleRequest [seatA0_1]) envSecond).2 = stateA1Booked :=
  ⟨by decide,
   createBooking_conflict_no_change stateA1Booked (sampleRequest [seatA1]) envSecond
    (Or.inl (by decide)),
   by decide,
   createBooking_conflict_no_change stateA1Booked (sampleRequest [seatA0_1]) envSecond
    (Or.inr (by decide))⟩

/-- C5. Evaluation of the `SEAT_CONFLICT` answer. Two requests for seat A1 read
the showtime while A1 is free; the first one books it, the conditional update
of the second one fails. The second answer is the `SEAT_CONFLICT` rejection
and carries no seat list, although A1 is the requested seat found in
`bookedSeats`; the pre-check, run on the same state, names it. The same
answer without a list is given in a single call when the update filter
decodes the requested key to a booked seat. -/
theorem seatConflict_names_no_seat :
    (createBookingAfterRace sampleState (sampleRequest [seatA1]) envFirst
        (sampleRequest [seatA1]) envSecond).1 = seatConflict ∧
    seatConflict.unavailableSeats = none ∧
    (createBookingAfterRace sampleState (sampleRequest [seatA1]) envFirst
        (sampleRequest [seatA1]) envSecond).2.showtimes.map
      (fun sh => unavailableSeats sh.bookedSeats [seatA1]) = [["A1"]] ∧
    (createBooking stateA1Booked (sampleRequest [seatA1]) envSecond).1.unavailableSeats
      = some ["A1"] ∧
    (createBooking stateA1Booked (sampleRequest [seatA0_1]) envSecond).1.unavailableSeats = none ∧
    (createBooking stateA1Booked (sampleRequest [seatA0_1]) envSecond).1.error
      = some "SEAT_CONFLICT" := by
  decide

/-! ## C6 - C8: releasing seats in cancelBooking -/

theorem findShowtime_id (l : List Showtime) (i : Id) (sh : Showtime)
    (h : findShowtime l i = some sh) : sh.id = i := by
  have := List.find?_some h
  simpa using this

theorem findShowtime_mem (l : List Showtime) (i : Id) (sh : Showtime)
    (h : findShowtime l i = some sh) : sh ∈ l :=
  List.mem_of_find?_eq_some h

theorem updateShowtime_twice (i : Id) (f g : Showtime → Showtime)
    (hf : ∀ s, (f s).id = s.id) (l : List Showtime) :
    updateShowtime i g (updateShowtime i f l) = updateShowtime i (fun s => g (f s)) l := by
  induction l with
  | nil => rfl
  | cons s rest ih =>
    by_cases hs : s.id = i
    · have hfs : (f s).id = i := by rw [hf, hs]
      simp [updateShowtime, hs, hfs]
    · simp [updateShowtime, hs, ih]

theorem updateShowtime_self (i : Id) (f : Showtime → Showtime) (l : List Showtime)
    (sh : Showtime) (hfind : findShowtime l i = some sh) (hf : f sh = sh) :
    updateShowtime i f l = l := by
  induction l with
  | nil => rfl
  | cons s rest ih =>
    by_cases hs : s.id = i
    · have : s = sh := by simpa [findShowtime, List.find?_cons, hs] using hfind
      subst this
      simp [updateShowtime, hs, hf]
    · have hrest : findShowtime rest i = some sh := by
        simpa [findShowtime, List.find?_cons, hs] using hfind
      simp [updateShowtime, hs, ih hrest]

theorem releaseSeats_append_fresh (booked : List BookedSeat) (details : List SeatDetail) (i : Id)
    (h : ∀ e ∈ booked, e.bookingId ≠ i) :
    releaseSeats (booked ++ seatsToAdd details i) i = booked := by
  unfold releaseSeats
  rw [List.filter_append]
  have h1 : booked.filter (fun s => s.bookingId != i) = booked := by
    rw [List.filter_eq_self]
    intro e he
    simpa using h e he
  have h2 : (seatsToAdd details i).filter (fun s => s.bookingId != i) = [] := by
    rw [List.filter_eq_nil_iff]
    intro e he
    obtain ⟨d, _, hd⟩ := List.mem_map.mp he
    subst hd
    simp
  rw [h1, h2, List.append_nil]

theorem findBooking_append_fresh (l : List Booking) (b : Booking)
    (h : ∀ x ∈ l, x.id ≠ b.id) : findBooking (l ++ [b]) b.id = some b := by
  unfold findBooking
  rw [List.find?_append]
  have : l.find? (fun x => x.id == b.id) = none := by
    rw [List.find?_eq_none]
    intro x hx
    simpa using h x hx
  rw [this]
  simp

/-- A successful `cancelBooking`, spelled out. The same facts hold up to the
showtime write when the call fails later for a missing user document. -/
theorem cancelBooking_released (st : State) (req : CancelReq) (now : Int)
    (h : (cancelBooking st req now).1.success = true ∨
      (cancelBooking st req now).1 = serverError "TypeError: user is null") :
    ∃ b owner sh, findBooking st.bookings req.bookingId = some b ∧
      b.userId = some owner ∧
      findShowtime st.showtimes b.showtimeId = some sh ∧
      insideCutoff sh.startTime now = false ∧
      (cancelBooking st req now).2.showtimes =
        updateShowtime sh.id (releaseWrite sh b) st.showtimes ∧
      ((cancelBooking st req now).1.success = true →
        ∃ user, findUser st.users owner = some user ∧
          (cancelBooking st req now).2.users =
            updateUser user.id (refundPointsWrite user b) st.users ∧
          (cancelBooking st req now).2.bookings =
            updateBooking b.id (cancelWrite req.reason) st.bookings) := by
  unfold cancelBooking at h ⊢
  cases hb : findBooking st.bookings req.bookingId with
  | none => simp [hb, reject, serverError] at h
  | some b =>
    cases ho : b.userId with
    | none => simp [hb, ho, serverError] at h
    | some owner =>
      simp only [hb, ho] at h ⊢
      by_cases hauth : owner ≠ req.user.id ∧ ¬ (req.user.role = Role.admin ∨ req.user.role = Role.staff)
      · rw [if_pos hauth] at h
        simp [reject, serverError] at h
      · rw [if_neg hauth] at h ⊢
        cases hsh : findShowtime st.showtimes b.showtimeId with
        | none => simp [hsh, serverError] at h
        | some sh =>
          simp only [hsh] at h ⊢
          cases hcut : insideCutoff sh.startTime now with
          | true => simp [hcut, reject, serverError] at h
          | false =>
            simp only [hcut] at h ⊢
            refine ⟨b, owner, sh, rfl, ho, hsh, hcut, ?_, ?_⟩
            · cases hu : findUser st.users owner <;> simp [hu]
            · intro hsucc
              cases hu : findUser st.users owner with
              | none => simp [hu, serverError] at hsucc
              | some user => exact ⟨user, rfl, by simp [hu]⟩

/-- C7. Release removes exactly the booking's entries. Whenever `cancelBooking`
reaches its seat release (it succeeds, or fails afterwards on the missing user
document), the `bookedSeats` of the booking's showtime afterwards contains no
entry of the cancelled booking, is a sublist of the old list (same entries,
same order), and keeps every entry of another booking with its multiplicity. -/
theorem cancelBooking_release_exact (st : State) (req : CancelReq) (now : Int)
    (b : Booking) (sh sh' : Showtime)
    (hb : findBooking st.bookings req.bookingId = some b)
    (hsh : findShowtime st.showtimes b.showtimeId = some sh)
    (hreach : (cancelBooking st req now).1.success = true ∨
      (cancelBooking st req now).1 = serverError "TypeError: user is null")
    (hafter : findShowtime (cancelBooking st req now).2.showtimes b.showtimeId = some sh') :
    (∀ e ∈ sh'.bookedSeats, e.bookingId ≠ b.id) ∧
    sh'.bookedSeats.Sublist sh.bookedSeats ∧
    (∀ e ∈ sh.bookedSeats, e.bookingId ≠ b.id → e ∈ sh'.bookedSeats) ∧
    (∀ e, e.bookingId ≠ b.id → sh'.bookedSeats.count e = sh.bookedSeats.count e) := by
  obtain ⟨b0, owner, sh0, h1, _, h3, _, h5, _⟩ := cancelBooking_released st req now hreach
  rw [hb] at h1
  cases h1
  rw [hsh] at h3
  cases h3
  have hid := findShowtime_id _ _ _ hsh
  rw [h5, hid, findShowtime_updateShowtime _ _ (releaseWrite sh b) (fun _ => rfl), if_pos rfl, hsh]
    at hafter
  simp only [Option.map_some', Option.some.injEq] at hafter
  subst hafter
  show (∀ e ∈ releaseSeats sh.bookedSeats b.id, e.bookingId ≠ b.id) ∧
    (releaseSeats sh.bookedSeats b.id).Sublist sh.bookedSeats ∧
    (∀ e ∈ sh.bookedSeats, e.bookingId ≠ b.id → e ∈ releaseSeats sh.bookedSeats b.id) ∧
    (∀ e, e.bookingId ≠ b.id →
      (releaseSeats sh.bookedSeats b.id).count e = sh.bookedSeats.count e)
  unfold releaseSeats
  refine ⟨?_, List.filter_sublist _, ?_, ?_⟩
  · intro e he
    simpa using (List.mem_filter.mp he).2
  · intro e he hne
    exact List.mem_filter.mpr ⟨he, by simpa using hne⟩
  · intro e hne
    rw [List.count_filter]
    simpa using hne

/-- C7 at a concrete input: seats A1 (booking 50) and A2 (booking 51) are
booked; cancelling booking 50 leaves exactly the entry of booking 51. -/
theorem cancelBooking_release_exact_witness :
    findShowtime (cancelBooking twoBookingsState cancelFirst 0).2.showtimes 10
      = some afterReleaseShowtime ∧
    afterReleaseShowtime.bookedSeats =
      [{ row := "A", number := 2, type := "standard", bookingId := 51 }] ∧
    ((∀ e ∈ afterReleaseShowtime.bookedSeats, e.bookingId ≠ 50) ∧
      afterReleaseShowtime.bookedSeats.Sublist bothBookedShowtime.bookedSeats) :=
  ⟨by decide, by decide,
   ⟨(cancelBooking_release_exact twoBookingsState cancelFirst 0 firstBooking bothBookedShowtime
      afterReleaseShowtime (by decide) (by decide) (Or.inl (by decide)) (by decide)).1,
    (cancelBooking_release_exact twoBookingsState cancelFirst 0 firstBooking bothBookedShowtime
      afterReleaseShowtime (by decide) (by decide) (Or.inl (by decide)) (by decide)).2.1⟩⟩

/-- C8. Evaluation of a repeated cancellation. Booking 50 holds seat A1 of the
two-seat room. The first `cancelBooking` succeeds and the showtime is back at
no booked seat and 2 available seats. The second `cancelBooking` of the same
booking succeeds too; `bookedSeats` stays empty, but `availableSeats` becomes
3 in a room of capacity 2. -/
theorem cancelBooking_twice_raises_availableSeats :
    (cancelBooking stateA1Booked cancelFirst 0).1.status = 200 ∧
    (cancelBooking stateA1Booked cancelFirst 0).2.showtimes.map
      (fun sh => (sh.bookedSeats, sh.availableSeats, sh.capacity)) = [([], 2, 2)] ∧
    (cancelBooking (cancelBooking stateA1Booked cancelFirst 0).2 cancelFirst 0).1.status = 200 ∧
    (cancelBooking (cancelBooking stateA1Booked cancelFirst 0).2 cancelFirst 0).2.showtimes.map
      (fun sh => (sh.bookedSeats, sh.availableSeats, sh.capacity)) = [([], 3, 2)] := by
  decide

theorem find?_updateUser (P : User → Bool) (i : Id) (h : User → User)
    (hP : ∀ x, P (h x) = P x) (l : List User) :
    (l.find? P = none ∧ (updateUser i h l).find? P = none) ∨
    ∃ y, l.find? P = some y ∧
      ((updateUser i h l).find? P = some y ∨
        (y.id = i ∧ (updateUser i h l).find? P = some (h y))) := by
  induction l with
  | nil => left; simp [updateUser]
  | cons x rest ih =>
    by_cases hx : x.id = i
    · cases hpx : P x with
      | true =>
        right
        refine ⟨x, by simp [List.find?_cons, hpx], Or.inr ⟨hx, ?_⟩⟩
        simp [updateUser, hx, List.find?_cons, hP, hpx]
      | false =>
        have e1 : (x :: rest).find? P = rest.find? P := by simp [List.find?_cons, hpx]
        have e2 : (updateUser i h (x :: rest)).find? P = rest.find? P := by
          simp [updateUser, hx, List.find?_cons, hP, hpx]
        rw [e1, e2]
        cases hr : rest.find? P with
        | none => left; exact ⟨rfl, rfl⟩
        | some y => right; exact ⟨y, rfl, Or.inl rfl⟩
    · cases hpx : P x with
      | true =>
        right
        refine ⟨x, by simp [List.find?_cons, hpx], Or.inl ?_⟩
        simp [updateUser, hx, List.find?_cons, hpx]
      | false =>
        have e1 : (x :: rest).find? P = rest.find? P := by simp [List.find?_cons, hpx]
        have e2 : (updateUser i h (x :: rest)).find? P = (updateUser i h rest).find? P := by
          simp [updateUser, hx, List.find?_cons, hpx]
        rw [e1, e2]
        exact ih

theorem findUser_updateUser_same (i : Id) (f : User → User) (hf : ∀ u, (f u).id = u.id)
    (l : List User) : findUser (updateUser i f l) i = (findUser l i).map f := by
  induction l with
  | nil => rfl
  | cons x rest ih =>
    unfold findUser at ih ⊢
    by_cases hx : x.id = i
    · have h1 : ((f x).id == i) = true := by simp [hf, hx]
      have h2 : (x.id == i) = true := by simp [hx]
      simp [updateUser, hx, List.find?_cons, h1]
    · have h2 : (x.id == i) = false := by simp [hx]
      simp only [updateUser, hx, if_false, List.find?_cons, h2]
      exact ih

theorem updateUser_twice (i : Id) (f g : User → User) (hf : ∀ u, (f u).id = u.id)
    (l : List User) :
    updateUser i g (updateUser i f l) = updateUser i (fun u => g (f u)) l := by
  induction l with
  | nil => rfl
  | cons x rest ih =>
    by_cases hx : x.id = i
    · have hfx : (f x).id = i := by rw [hf, hx]
      simp [updateUser, hx, hfx]
    · simp [updateUser, hx, ih]

theorem updateUser_congr (i : Id) (f g : User → User) (l : List User) (w : User)
    (hfind : findUser l i = some w) (hfg : f w = g w) :
    updateUser i f l = updateUser i g l := by
  induction l with
  | nil => rfl
  | cons x rest ih =>
    by_cases hx : x.id = i
    · have : x = w := by simpa [findUser, List.find?_cons, hx] using hfind
      subst this
      simp [updateUser, hx, hfg]
    · have hrest : findUser rest i = some w := by
        simpa [findUser, List.find?_cons, hx] using hfind
      simp [updateUser, hx, ih hrest]

theorem findUser_of_mem (l : List User) (u : User) (h : u ∈ l) :
    ∃ w, findUser l u.id = some w := by
  unfold findUser
  cases hf : l.find? (fun x => x.id == u.id) with
  | some w => exact ⟨w, rfl⟩
  | none =>
    rw [List.find?_eq_none] at hf
    have := hf u h
    simp at this

theorem claimSeats_flag (i : Id) (toAdd : List BookedSeat) (n : Nat) (l : List Showtime)
    (sh : Showtime) (hfind : findShowtime l i = some sh)
    (hno : elemMatchConflict sh.bookedSeats (toAdd.map (fun b => seatKey b.row b.number)) = false) :
    (claimSeats i toAdd n l).2 = true := by
  induction l with
  | nil => simp [findShowtime] at hfind
  | cons s rest ih =>
    unfold claimSeats
    by_cases hs : s.id = i
    · have : s = sh := by simpa [findShowtime, List.find?_cons, hs] using hfind
      subst this
      simp [hs, hno]
    · have hrest : findShowtime rest i = some sh := by
        simpa [findShowtime, List.find?_cons, hs] using hfind
      simp [hs, ih hrest]

theorem seatKeys_seatsToAdd (details : List SeatDetail) (i j : Id) :
    (seatsToAdd details i).map (fun b => seatKey b.row b.number) =
      (seatsToAdd details j).map (fun b => seatKey b.row b.number) := by
  simp [seatsToAdd, List.map_map, Function.comp_def]

/-- Sufficient conditions for `createBooking` to answer 201. -/
theorem createBooking_accepts (st : State) (req : BookingReq) (env : Env) (sh : Showtime)
    (su : User) (c : Customer)
    (h1 : findShowtime st.showtimes req.showtimeId = some sh)
    (h2 : findUser st.users req.user.id = some su)
    (h3 : staffGate st sh su = none)
    (h4 : unavailableSeats sh.bookedSeats req.seats = [])
    (h5 : resolveCustomer st req su = some c)
    (h6 : req.loyaltyPointsUsed ≤ c.points)
    (h7 : sh.movieId ∈ st.movies) (h8 : sh.cinemaId ∈ st.cinemas)
    (h9 : bookingInsertable st.bookings (bookingData req env sh su c) = true)
    (h10 : req.seats ≠ [])
    (h11 : elemMatchConflict sh.bookedSeats
      ((seatsToAdd (seatDetails sh.price req.seats) env.newId).map
        (fun b => seatKey b.row b.number)) = false) :
    (createBooking st req env).1 = accept 201 "" (bookingData req env sh su c) := by
  have hp : prepare st req env =
      Except.ok { booking := bookingData req env sh su c, customer := c } := by
    unfold prepare
    simp only [h1, h2, h3, h4, h5]
    simp [not_lt.mpr h6, h7, h8]
  unfold createBooking
  rw [hp]
  simp only
  rcases commit_cases st req { booking := bookingData req env sh su c, customer := c }
    with hc | hc | hc
  · exfalso
    have hflag := claimSeats_flag req.showtimeId
      (seatsToAdd (seatDetails sh.price req.seats) env.newId) req.seats.length st.showtimes sh h1 h11
    have hne : (seatsToAdd (seatDetails sh.price req.seats) env.newId).isEmpty = false := by
      cases hs : req.seats with
      | nil => exact absurd hs h10
      | cons a t => simp [seatsToAdd, seatDetails]
    have hcs := hc.2.1
    unfold commit at hcs
    simp only [h9] at hcs
    have hseats : (bookingData req env sh su c).seats = seatDetails sh.price req.seats := rfl
    have hid : (bookingData req env sh su c).id = env.newId := rfl
    simp [hseats, hid, hne, hflag, accept] at hcs
  · exfalso
    have hseats : (bookingData req env sh su c).seats = seatDetails sh.price req.seats := rfl
    have := hc.1
    rw [hseats] at this
    cases hs : req.seats with
    | nil => exact h10 hs
    | cons a t => rw [hs] at this; simp [seatDetails] at this
  · rw [hc.2.2.2]

theorem cancelBooking_movies_cinemas (st : State) (req : CancelReq) (now : Int) :
    (cancelBooking st req now).2.movies = st.movies ∧
    (cancelBooking st req now).2.cinemas = st.cinemas := by
  unfold cancelBooking
  cases hb : findBooking st.bookings req.bookingId with
  | none => exact ⟨rfl, rfl⟩
  | some b =>
    cases ho : b.userId with
    | none => simp [ho]
    | some owner =>
      simp only [ho]
      split
      · exact ⟨rfl, rfl⟩
      · cases hsh : findShowtime st.showtimes b.showtimeId with
        | none => exact ⟨rfl, rfl⟩
        | some sh =>
          simp only
          split
          · exact ⟨rfl, rfl⟩
          · cases hu : findUser st.users owner <;> exact ⟨rfl, rfl⟩

/-- The customer lookup after a write that keeps ids and phones finds the
document at the same place: the same document, or the rewritten one. -/
theorem resolveCustomer_after_update (st st2 : State) (req : BookingReq) (su su2 u : User)
    (i : Id) (hh : User → User)
    (hframe : ∀ x, (hh x).id = x.id ∧ (hh x).phone = x.phone)
    (husers : st2.users = updateUser i hh st.users)
    (hrole : su2.role = su.role)
    (h : resolveCustomer st req su = some (Customer.registered u)) :
    resolveCustomer st2 req su2 = some (Customer.registered u) ∨
    (u.id = i ∧ resolveCustomer st2 req su2 = some (Customer.registered (hh u))) := by
  unfold resolveCustomer at h ⊢
  have hcb : isCounterBooking su2 = isCounterBooking su := by
    unfold isCounterBooking; rw [hrole]
  rw [hcb, husers]
  cases hcond : (isCounterBooking su && truthyStr req.customerPhone) with
  | true =>
    simp only [hcond, if_true] at h ⊢
    unfold findUserByPhone at h ⊢
    rcases find?_updateUser (fun x => x.phone == some (req.customerPhone.getD "")) i hh
        (fun x => by simp [(hframe x).2]) st.users with ⟨hn, _⟩ | ⟨y, hy, hy2⟩
    · rw [hn] at h; simp at h
    · rw [hy] at h
      simp only [Option.some.injEq, Customer.registered.injEq] at h
      subst h
      rcases hy2 with hy2 | ⟨hyi, hy2⟩
      · left; rw [hy2]
      · right; rw [hy2]; exact ⟨hyi, rfl⟩
  | false =>
    simp only [hcond, Bool.false_eq_true, if_false] at h ⊢
    unfold findUser at h ⊢
    rcases find?_updateUser (fun x => x.id == req.user.id) i hh
        (fun x => by simp [(hframe x).1]) st.users with ⟨hn, _⟩ | ⟨y, hy, hy2⟩
    · rw [hn] at h; simp at h
    · rw [hy] at h
      simp only [Option.map_some', Option.some.injEq, Customer.registered.injEq] at h
      subst h
      rcases hy2 with hy2 | ⟨hyi, hy2⟩
      · left; rw [hy2]; rfl
      · right; rw [hy2]; exact ⟨hyi, rfl⟩

theorem resolveCustomer_mem (st : State) (req : BookingReq) (su u : User)
    (h : resolveCustomer st req su = some (Customer.registered u)) : u ∈ st.users := by
  unfold resolveCustomer at h
  split at h
  · unfold findUserByPhone at h
    cases hf : st.users.find? (fun x => x.phone == some (req.customerPhone.getD "")) with
    | none => rw [hf] at h; simp at h
    | some y =>
      rw [hf] at h
      simp only [Option.some.injEq, Customer.registered.injEq] at h
      subst h
      exact List.mem_of_find?_eq_some hf
  · unfold findUser at h
    cases hf : st.users.find? (fun x => x.id == req.user.id) with
    | none => rw [hf] at h; simp at h
    | some y =>
      rw [hf] at h
      simp only [Option.map_some', Option.some.injEq, Customer.registered.injEq] at h
      subst h
      exact List.mem_of_find?_eq_some hf

/-- A successful `createBooking`, then any writes that leave the showtimes and the
users alone and keep the reservation data of the new booking (`mid` is the
database after them), then a successful `cancelBooking` of that booking: every
showtime is as before the booking, and the same request is accepted again. -/
theorem create_settle_cancel_create (st : State) (req : BookingReq) (env : Env) (mid : State)
    (creq : CancelReq) (now : Int)
    (hcreate : (createBooking st req env).1.success = true)
    (hid : creq.bookingId = env.newId)
    (hms : mid.showtimes = (createBooking st req env).2.showtimes)
    (hmu : mid.users = (createBooking st req env).2.users)
    (hmm : mid.movies = (createBooking st req env).2.movies)
    (hmc : mid.cinemas = (createBooking st req env).2.cinemas)
    (hmb : ∀ b b0, findBooking mid.bookings env.newId = some b →
      (createBooking st req env).1.booking = some b0 → sameReservation b b0)
    (hcancel : (cancelBooking mid creq now).1.success = true)
    (hfresh : ∀ sh ∈ st.showtimes, ∀ e ∈ sh.bookedSeats, e.bookingId ≠ env.newId) :
    (cancelBooking mid creq now).2.showtimes = st.showtimes ∧
    ∀ env2 : Env,
      (∀ x ∈ (cancelBooking mid creq now).2.bookings,
        x.id ≠ env2.newId ∧
        x.bookingCode ≠ "BK" ++ toString env2.now ++ toString env2.rand) →
      (createBooking (cancelBooking mid creq now).2 req env2).1.status = 201 := by
  obtain ⟨p, sh, su, hp, h1, h2, h3, h4, h5, h6, h7, h8, h9, h10, hins, hno, heq⟩ :=
    createBooking_success st req env hcreate
  obtain ⟨b, owner, sh1, c1, c2, c3, c4, c5, c6⟩ :=
    cancelBooking_released mid creq now (Or.inl hcancel)
  obtain ⟨user, cu1, cu2, cu3⟩ := c6 hcancel
  have hst1s : mid.showtimes = updateShowtime req.showtimeId
      (applyClaim (seatsToAdd (seatDetails sh.price req.seats) env.newId) req.seats.length)
      st.showtimes := by rw [hms, heq]
  have hst1u : mid.users = saveLoyalty st.users p := by rw [hmu, heq]
  have hst1m : mid.movies = st.movies := by rw [hmm, heq]
  have hst1c : mid.cinemas = st.cinemas := by rw [hmc, heq]
  have hpid : p.booking.id = env.newId := by rw [h9]; rfl
  have hpseats : p.booking.seats = seatDetails sh.price req.seats := by rw [h9]; rfl
  have hpsid : p.booking.showtimeId = req.showtimeId := by rw [h9]; rfl
  -- the cancelled booking carries the reservation just made
  have hresp : (createBooking st req env).1.booking = some p.booking := by rw [heq]; rfl
  obtain ⟨e1, e2, e3, e4, e5, e6⟩ := hmb b p.booking (by rw [← hid]; exact c1) hresp
  rw [e2] at c2
  rw [e3] at c3
  -- the showtime read by cancelBooking is the claimed one
  have hsh1 : sh1 = applyClaim (seatsToAdd (seatDetails sh.price req.seats) env.newId)
      req.seats.length sh := by
    rw [hst1s, hpsid, findShowtime_updateShowtime _ _ (applyClaim _ _) (fun _ => rfl), if_pos rfl,
      h1] at c3
    exact (Option.some.inj c3).symm
  have hshid : sh.id = req.showtimeId := findShowtime_id _ _ _ h1
  have hrestore : releaseWrite sh1 b
      (applyClaim (seatsToAdd (seatDetails sh.price req.seats) env.newId) req.seats.length sh)
      = sh := by
    rw [hsh1]
    unfold releaseWrite applyClaim
    simp only
    rw [e1, e4, hpid, releaseSeats_append_fresh _ _ _ (hfresh sh (findShowtime_mem _ _ _ h1)), hpseats]
    have hlen : (seatDetails sh.price req.seats).length = req.seats.length := by
      simp [seatDetails]
    rw [hlen]
    simp
  have hshow : (cancelBooking mid creq now).2.showtimes = st.showtimes := by
    rw [c5, hst1s]
    have hsh1id : sh1.id = req.showtimeId := by rw [hsh1]; exact hshid
    rw [hsh1id, updateShowtime_twice _ (applyClaim _ _) _ (fun _ => rfl)]
    exact updateShowtime_self _ _ _ sh h1 hrestore
  refine ⟨hshow, ?_⟩
  intro env2 hfresh2
  -- the customer is a stored user
  cases hcust : p.customer with
  | walkIn ph nm =>
    rw [h9, hcust] at c2
    simp [bookingData] at c2
  | registered u =>
    rw [hcust] at h5 h6
    have howner : owner = u.id := by
      rw [h9, hcust] at c2
      simpa [bookingData] using c2.symm
    subst howner
    obtain ⟨w, hw⟩ := findUser_of_mem st.users u (resolveCustomer_mem st req su u h5)
    have hwid : w.id = u.id := by
      have := List.find?_some hw
      simpa using this
    -- the users collection after both calls
    have hsave : saveLoyalty st.users p = updateUser u.id (earnPointsWrite
        (u.loyaltyPoints - p.booking.loyaltyPointsUsed + p.booking.loyaltyPointsEarned))
        st.users := by
      unfold saveLoyalty
      rw [hcust]
    rw [hst1u, hsave, findUser_updateUser_same _ (earnPointsWrite _) (fun _ => rfl), hw] at cu1
    simp only [Option.map_some', Option.some.injEq] at cu1
    have huid : user.id = u.id := by rw [← cu1]; exact hwid
    obtain ⟨hh, hhdef⟩ : ∃ hh : User → User, hh = fun x =>
        refundPointsWrite user b (earnPointsWrite
          (u.loyaltyPoints - p.booking.loyaltyPointsUsed + p.booking.loyaltyPointsEarned) x) :=
      ⟨_, rfl⟩
    have husers : (cancelBooking mid creq now).2.users =
        updateUser u.id hh st.users := by
      rw [hhdef, cu2, hst1u, hsave, huid, updateUser_twice _ (earnPointsWrite _) _ (fun _ => rfl)]
    have hframe : ∀ x, (hh x).id = x.id ∧ (hh x).phone = x.phone ∧ (hh x).role = x.role ∧
        (hh x).cinemaId = x.cinemaId ∧ (hh x).loyaltyPoints = u.loyaltyPoints := by
      intro x
      rw [hhdef]
      refine ⟨rfl, rfl, rfl, rfl, ?_⟩
      rw [← cu1]
      unfold refundPointsWrite earnPointsWrite
      simp only
      omega
    obtain ⟨hmov, hcin⟩ := cancelBooking_movies_cinemas mid creq now
    rw [hst1m] at hmov
    rw [hst1c] at hcin
    -- the requester after both calls
    have hsu2 : ∃ su2, findUser (cancelBooking mid creq now).2.users
        req.user.id = some su2 ∧ su2.role = su.role ∧ su2.cinemaId = su.cinemaId := by
      unfold findUser at h2 ⊢
      rw [husers]
      rcases find?_updateUser (fun x => x.id == req.user.id) u.id hh
        (fun x => by simp [(hframe x).1]) st.users with ⟨hn, _⟩ | ⟨y, hy, hy2⟩
      · rw [hn] at h2; simp at h2
      · rw [h2] at hy
        cases hy
        rcases hy2 with hy2 | ⟨_, hy2⟩
        · exact ⟨_, hy2, rfl, rfl⟩
        · exact ⟨_, hy2, (hframe su).2.2.1, (hframe su).2.2.2.1⟩
    obtain ⟨su2, hsu2f, hrole, hcid⟩ := hsu2
    have hgate : staffGate (cancelBooking mid creq now).2 sh su2 = none := by
      unfold staffGate at h3 ⊢
      rw [hrole, hcid, hcin]
      exact h3
    have hcust2 : ∃ c2, resolveCustomer (cancelBooking mid creq now).2
        req su2 = some c2 ∧ c2.points = u.loyaltyPoints := by
      rcases resolveCustomer_after_update st _ req su su2 u u.id hh
        (fun x => ⟨(hframe x).1, (hframe x).2.1⟩) husers hrole h5 with hr | ⟨_, hr⟩
      · exact ⟨_, hr, rfl⟩
      · exact ⟨_, hr, (hframe u).2.2.2.2⟩
    obtain ⟨c2', hc2, hc2pts⟩ := hcust2
    have hins' := hins
    unfold bookingInsertable at hins'
    simp only [Bool.and_eq_true] at hins'
    have hacc := createBooking_accepts (cancelBooking mid creq now).2
      req env2 sh su2 c2' (by rw [hshow]; exact h1) hsu2f hgate h4 hc2
      (by rw [hc2pts]; exact h6) (by rw [hmov]; exact h7) (by rw [hcin]; exact h8)
      (by
        unfold bookingInsertable
        simp only [Bool.and_eq_true]
        refine ⟨⟨?_, ?_⟩, ?_⟩
        · have := hins'.1.1
          rw [hpseats] at this
          exact this
        · have := hins'.1.2
          rw [h9] at this
          exact this
        · rw [List.all_eq_true]
          intro x hx
          have := hfresh2 x hx
          simp only [Bool.and_eq_true, bne_iff_ne, ne_eq]
          exact this)
      h10
      (by rw [seatKeys_seatsToAdd _ env2.newId env.newId]; exact hno)
    rw [hacc]
    rfl

/-- A successful `createBooking` followed by a successful `cancelBooking` of the
booking it created restores every showtime, and the same request is then
accepted again. -/
theorem create_cancel_create (st : State) (req : BookingReq) (env : Env)
    (creq : CancelReq) (now : Int)
    (hcreate : (createBooking st req env).1.success = true)
    (hid : creq.bookingId = env.newId)
    (hcancel : (cancelBooking (createBooking st req env).2 creq now).1.success = true)
    (hfresh : ∀ sh ∈ st.showtimes, ∀ e ∈ sh.bookedSeats, e.bookingId ≠ env.newId) :
    (cancelBooking (createBooking st req env).2 creq now).2.showtimes = st.showtimes ∧
    ∀ env2 : Env,
      (∀ x ∈ (cancelBooking (createBooking st req env).2 creq now).2.bookings,
        x.id ≠ env2.newId ∧
        x.bookingCode ≠ "BK" ++ toString env2.now ++ toString env2.rand) →
      (createBooking (cancelBooking (createBooking st req env).2 creq now).2 req env2).1.status
        = 201 := by
  refine create_settle_cancel_create st req env (createBooking st req env).2 creq now hcreate hid
    rfl rfl rfl rfl ?_ hcancel hfresh
  intro b b0 hb hb0
  obtain ⟨p, sh, su, _, _, _, _, _, _, _, _, _, h9, _, hins, _, heq⟩ :=
    createBooking_success st req env hcreate
  have hpid : p.booking.id = env.newId := by rw [h9]; rfl
  rw [heq] at hb hb0
  simp only [accept, Option.some.injEq] at hb0
  subst hb0
  rw [← hpid, findBooking_append_fresh _ _ (bookingInsertable_fresh _ _ hins)] at hb
  cases hb
  exact ⟨rfl, rfl, rfl, rfl, rfl, rfl⟩

/-- C6. Cancellation releases seats. A successful `createBooking` followed by a
successful `cancelBooking` of the booking it created (successful means the
booking has a registered owner) leaves every showtime, with its `bookedSeats`
and `availableSeats`, as it was before the booking, and the same request then
succeeds again. The ObjectId of the new booking is fresh: no stored seat entry
carries it, and the later call gets an id and a booking code not in use. -/
theorem createBooking_cancel_round_trip (st : State) (req : BookingReq) (env : Env)
    (creq : CancelReq) (now : Int)
    (hcreate : (createBooking st req env).1.success = true)
    (hid : creq.bookingId = env.newId)
    (hcancel : (cancelBooking (createBooking st req env).2 creq now).1.success = true)
    (hfresh : ∀ sh ∈ st.showtimes, ∀ e ∈ sh.bookedSeats, e.bookingId ≠ env.newId) :
    (cancelBooking (createBooking st req env).2 creq now).2.showtimes = st.showtimes ∧
    ∀ env2 : Env,
      (∀ x ∈ (cancelBooking (createBooking st req env).2 creq now).2.bookings,
        x.id ≠ env2.newId ∧
        x.bookingCode ≠ "BK" ++ toString env2.now ++ toString env2.rand) →
      (createBooking (cancelBooking (createBooking st req env).2 creq now).2 req env2).1.status
        = 201 :=
  create_cancel_create st req env creq now hcreate hid hcancel hfresh

/-- C6 at a concrete input: the sample customer books A1 and A2, cancels the
booking, the showtime is as before, and the same request is accepted again. -/
theorem createBooking_cancel_round_trip_witness :
    (cancelBooking (createBooking sampleState (sampleRequest [seatA1, seatA2]) envFirst).2
      cancelFirst 0).2.showtimes = sampleState.showtimes ∧
    (createBooking
      (cancelBooking (createBooking sampleState (sampleRequest [seatA1, seatA2]) envFirst).2
        cancelFirst 0).2
      (sampleRequest [seatA1, seatA2]) envSecond).1.status = 201 :=
  ⟨(createBooking_cancel_round_trip sampleState (sampleRequest [seatA1, seatA2]) envFirst
      cancelFirst 0 (by decide) (by decide) (by decide) (by decide)).1,
   (createBooking_cancel_round_trip sampleState (sampleRequest [seatA1, seatA2]) envFirst
      cancelFirst 0 (by decide) (by decide) (by decide) (by decide)).2 envSecond (by decide)⟩

/-! ## C9: the cancellation cutoff -/

/-- C9, the claim as stated, fails at exactly two hours: the sample showtime
starts 7 200 000 ms after the current time, so `startTime - now ≤ 2 hours`,
and `cancelBooking` is not rejected but answers 200. -/
theorem cancelBooking_at_two_hours_succeeds :
    sampleShowtime.startTime - twoHoursBefore ≤ 2 * 60 * 60 * 1000 ∧
    (cancelBooking stateA1Booked cancelFirst twoHoursBefore).1.status = 200 ∧
    (cancelBooking stateA1Booked cancelFirst twoHoursBefore).1 ≠
      reject 400 "Cannot cancel booking less than 2 hours before showtime" := by
  decide

/-- C9, amended. For a stored booking with an owner, an authorised caller and
an existing showtime, `cancelBooking` answers with the cutoff rejection exactly
when `startTime - now` is less than two hours, and then changes nothing; at
two hours or more it passes the cutoff check. It is rejected one hour before
the start and succeeds three hours before (when the owner's user document
exists). -/
theorem cancelBooking_cutoff (st : State) (req : CancelReq) (now : Int) (b : Booking)
    (owner : Id) (sh : Showtime)
    (hb : findBooking st.bookings req.bookingId = some b)
    (ho : b.userId = some owner)
    (hauth : owner = req.user.id ∨ req.user.role = Role.admin ∨ req.user.role = Role.staff)
    (hsh : findShowtime st.showtimes b.showtimeId = some sh) :
    ((cancelBooking st req now).1 =
        reject 400 "Cannot cancel booking less than 2 hours before showtime"
      ↔ sh.startTime - now < 2 * 60 * 60 * 1000) ∧
    (sh.startTime - now < 2 * 60 * 60 * 1000 → (cancelBooking st req now).2 = st) ∧
    (sh.startTime - now = 1 * 60 * 60 * 1000 →
      (cancelBooking st req now).1 =
        reject 400 "Cannot cancel booking less than 2 hours before showtime") ∧
    (sh.startTime - now = 3 * 60 * 60 * 1000 → findUser st.users owner ≠ none →
      (cancelBooking st req now).1.status = 200) := by
  have hauth' : ¬ (owner ≠ req.user.id ∧ ¬ (req.user.role = Role.admin ∨ req.user.role = Role.staff)) := by
    rintro ⟨h1, h2⟩
    rcases hauth with h | h
    · exact h1 h
    · exact h2 h
  have hcut : insideCutoff sh.startTime now = true ↔ sh.startTime - now < 2 * 60 * 60 * 1000 := by
    unfold insideCutoff cutoffMs
    simp
  have hrej : sh.startTime - now < 2 * 60 * 60 * 1000 →
      cancelBooking st req now =
        (reject 400 "Cannot cancel booking less than 2 hours before showtime", st) := by
    intro hlt
    unfold cancelBooking
    simp only [hb, ho]
    rw [if_neg hauth']
    simp only [hsh]
    rw [if_pos (hcut.mpr hlt)]
  have hpass : ¬ sh.startTime - now < 2 * 60 * 60 * 1000 →
      (cancelBooking st req now).1 ≠
        reject 400 "Cannot cancel booking less than 2 hours before showtime" ∧
      (findUser st.users owner ≠ none → (cancelBooking st req now).1.status = 200) := by
    intro hge
    have hnc : ¬ insideCutoff sh.startTime now = true := fun h => hge (hcut.mp h)
    unfold cancelBooking
    simp only [hb, ho]
    rw [if_neg hauth']
    simp only [hsh]
    rw [if_neg hnc]
    cases hu : findUser st.users owner with
    | none => simp [serverError, reject]
    | some user => simp [accept, reject]
  refine ⟨⟨?_, fun hlt => by rw [hrej hlt]⟩, fun hlt => by rw [hrej hlt], ?_, ?_⟩
  · intro h
    by_contra hge
    exact (hpass hge).1 h
  · intro h1
    rw [hrej (by omega)]
  · intro h3 hu
    exact (hpass (by omega)).2 hu

/-- C9, amended, at concrete inputs: booking 50 of the sample showtime is
rejected one hour before the start and cancelled three hours before. -/
theorem cancelBooking_cutoff_witness :
    (cancelBooking stateA1Booked cancelFirst (100000000 - 1 * 60 * 60 * 1000)).1 =
      reject 400 "Cannot cancel booking less than 2 hours before showtime" ∧
    (cancelBooking stateA1Booked cancelFirst (100000000 - 3 * 60 * 60 * 1000)).1.status = 200 :=
  ⟨(cancelBooking_cutoff stateA1Booked cancelFirst (100000000 - 1 * 60 * 60 * 1000) firstBooking 1
      a1BookedShowtime (by decide) (by decide) (by decide) (by decide)).2.2.1 (by decide),
   (cancelBooking_cutoff stateA1Booked cancelFirst (100000000 - 3 * 60 * 60 * 1000) firstBooking 1
      a1BookedShowtime (by decide) (by decide) (by decide) (by decide)).2.2.2 (by decide) (by decide)⟩

/-! ## C10: booking status transitions -/

theorem findBooking_updateBooking (i j : Id) (f : Booking → Booking)
    (hf : ∀ b, (f b).id = b.id) (l : List Booking) :
    findBooking (updateBooking i f l) j =
      if j = i then (findBooking l i).map f else findBooking l j := by
  induction l with
  | nil => simp [updateBooking, findBooking]
  | cons s rest ih =>
    unfold findBooking at ih ⊢
    by_cases hs : s.id = i
    · by_cases hj : j = i
      · subst hj
        have h1 : ((f s).id == j) = true := by simp [hf, hs]
        have h2 : (s.id == j) = true := by simp [hs]
        simp [updateBooking, hs, List.find?_cons, h1, h2]
      · have hne : ¬ s.id = j := fun h => hj (h ▸ hs)
        have h1 : ((f s).id == j) = false := by simp [hf, hne]
        have h3 : (i == j) = false := by
          rw [beq_eq_false_iff_ne]; exact fun h => hj h.symm
        simp [updateBooking, hs, hj, List.find?_cons, h1, h3]
    · by_cases hj : j = i
      · subst hj
        have h2 : (s.id == j) = false := by simp [hs]
        simp only [updateBooking, hs, if_false, List.find?_cons, if_true, h2] at ih ⊢
        exact ih
      · simp only [updateBooking, hs, if_false, List.find?_cons, hj] at ih ⊢
        cases hsj : (s.id == j) with
        | true => rfl
        | false => exact ih

/-- A write that sets the status to `t` on one booking leaves the status of a
stored booking as it was or makes it `t`. -/
theorem statusOf_updateBooking (st st2 : State) (i j : Id) (f : Booking → Booking)
    (s t : BookingStatus) (hf : ∀ b, (f b).id = b.id) (ht : ∀ b, (f b).status = t)
    (hst : st2.bookings = updateBooking j f st.bookings) (hs : statusOf st i = some s) :
    statusOf st2 i = some s ∨ statusOf st2 i = some t := by
  unfold statusOf at hs ⊢
  rw [hst, findBooking_updateBooking j i f hf]
  by_cases hij : i = j
  · subst hij
    right
    rw [if_pos rfl]
    cases hb : findBooking st.bookings i with
    | none => rw [hb] at hs; simp at hs
    | some b => simp [ht]
  · left
    rw [if_neg hij]
    exact hs

theorem statusOf_same (st st2 : State) (i : Id) (h : st2.bookings = st.bookings) :
    statusOf st2 i = statusOf st i := by
  unfold statusOf
  rw [h]

theorem cancelBooking_bookings (st : State) (req : CancelReq) (now : Int) :
    (cancelBooking st req now).2.bookings = st.bookings ∨
    ∃ j, (cancelBooking st req now).2.bookings =
      updateBooking j (cancelWrite req.reason) st.bookings := by
  unfold cancelBooking
  cases hb : findBooking st.bookings req.bookingId with
  | none => left; rfl
  | some b =>
    cases ho : b.userId with
    | none => left; simp [ho]
    | some owner =>
      simp only [ho]
      split
      · left; rfl
      · cases hsh : findShowtime st.showtimes b.showtimeId with
        | none => left; rfl
        | some sh =>
          simp only
          split
          · left; rfl
          · cases hu : findUser st.users owner with
            | none => left; rfl
            | some user => right; exact ⟨b.id, rfl⟩

theorem checkInBooking_bookings (st : State) (j : Id) :
    (checkInBooking st j).2 = st ∨
    ∃ b, findBooking st.bookings j = some b ∧ b.status = BookingStatus.confirmed ∧
      (checkInBooking st j).2.bookings = updateBooking b.id checkInWrite st.bookings := by
  unfold checkInBooking
  cases hb : findBooking st.bookings j with
  | none => left; rfl
  | some b =>
    simp only
    split
    · left; rfl
    · split
      · left; rfl
      · rename_i h1 h2
        right
        exact ⟨b, rfl, by simpa using h2, rfl⟩

/-- A write that keeps the status of every booking keeps every stored status. -/
theorem statusOf_updateBooking_keep (st st2 : State) (i j : Id) (f : Booking → Booking)
    (hf : ∀ b, (f b).id = b.id) (hk : ∀ b, (f b).status = b.status)
    (hst : st2.bookings = updateBooking j f st.bookings) :
    statusOf st2 i = statusOf st i := by
  unfold statusOf
  rw [hst, findBooking_updateBooking j i f hf]
  by_cases hij : i = j
  · subst hij
    rw [if_pos rfl]
    cases hb : findBooking st.bookings i with
    | none => rfl
    | some b => simp [hk]
  · rw [if_neg hij]

theorem findBooking_id (l : List Booking) (i : Id) (b : Booking)
    (h : findBooking l i = some b) : b.id = i := by
  have := List.find?_some h
  simpa using this

/-- C10, the claim as stated, fails: booking 50 is `pending`; a VNPay callback
with a failure code sets it to `cancelled`, and so does `cancelBooking`, a
change that is neither pending → confirmed nor one from `confirmed`. -/
theorem pending_booking_becomes_cancelled :
    statusOf stateA1Booked 50 = some BookingStatus.pending ∧
    statusOf (verifyVNPayCallback stateA1Booked vnpayFailure).2 50
      = some BookingStatus.cancelled ∧
    statusOf (cancelBooking stateA1Booked cancelFirst 0).2 50 = some BookingStatus.cancelled := by
  decide

/-- C10, amended. `checkInBooking` changes a status only from `confirmed` to
`used`, so a `used`, `cancelled` or `expired` booking keeps its status under
it. For a booking that is `pending` or `confirmed`, `cancelBooking` and
`refundBooking` keep the status or set `cancelled`, `confirmPayment` keeps it
or sets `confirmed`, and `verifyVNPayCallback` keeps it or sets `confirmed` or
`cancelled`: from these two states the changes are pending → confirmed,
pending → cancelled, confirmed → used and confirmed → cancelled, and no
handler sets `expired`. -/
theorem status_changes_from_live_states (st : State) (i : Id) (s : BookingStatus)
    (hs : statusOf st i = some s) :
    (∀ j, statusOf (checkInBooking st j).2 i = some s ∨
      (s = BookingStatus.confirmed ∧
        statusOf (checkInBooking st j).2 i = some BookingStatus.used)) ∧
    (s = BookingStatus.pending ∨ s = BookingStatus.confirmed →
      (∀ req now, statusOf (cancelBooking st req now).2 i = some s ∨
        statusOf (cancelBooking st req now).2 i = some BookingStatus.cancelled) ∧
      (∀ j amount, statusOf (refundBooking st j amount).2 i = some s ∨
        statusOf (refundBooking st j amount).2 i = some BookingStatus.cancelled) ∧
      (∀ req env, statusOf (confirmPayment st req env).2 i = some s ∨
        statusOf (confirmPayment st req env).2 i = some BookingStatus.confirmed) ∧
      (∀ cb, statusOf (verifyVNPayCallback st cb).2 i = some s ∨
        statusOf (verifyVNPayCallback st cb).2 i = some BookingStatus.confirmed ∨
        statusOf (verifyVNPayCallback st cb).2 i = some BookingStatus.cancelled)) := by
  refine ⟨?_, fun _ => ⟨?_, ?_, ?_, ?_⟩⟩
  · intro j
    rcases checkInBooking_bookings st j with h | ⟨b, hb, hconf, hup⟩
    · left; rw [h]; exact hs
    · have hbid := findBooking_id _ _ _ hb
      by_cases hij : i = j
      · subst hij
        right
        have hsc : s = BookingStatus.confirmed := by
          unfold statusOf at hs
          rw [hb] at hs
          simp only [Option.map_some', Option.some.injEq] at hs
          rw [← hs, hconf]
        refine ⟨hsc, ?_⟩
        unfold statusOf
        rw [hup, hbid, findBooking_updateBooking i i checkInWrite (fun _ => rfl), if_pos rfl, hb]
        rfl
      · left
        unfold statusOf at hs ⊢
        rw [hup, hbid, findBooking_updateBooking j i checkInWrite (fun _ => rfl), if_neg hij]
        exact hs
  · intro req now
    rcases cancelBooking_bookings st req now with h | ⟨j, h⟩
    · left; rw [statusOf_same _ _ _ h]; exact hs
    · exact statusOf_updateBooking st _ i j (cancelWrite req.reason) s BookingStatus.cancelled
        (fun _ => rfl) (fun _ => rfl) h hs
  · intro j amount
    unfold refundBooking
    cases hb : findBooking st.bookings j with
    | none => left; exact hs
    | some b =>
      exact statusOf_updateBooking st _ i b.id (refundWrite _) s BookingStatus.cancelled
        (fun _ => rfl) (fun _ => rfl) rfl hs
  · intro req env
    unfold confirmPayment
    cases hb : findBooking st.bookings req.bookingId with
    | none => left; exact hs
    | some b =>
      simp only
      split
      · left; exact hs
      · split
        · split
          · exact statusOf_updateBooking st _ i b.id markPaid s BookingStatus.confirmed
              (fun _ => rfl) (fun _ => rfl) rfl hs
          · left; exact hs
        · cases hi : env.intentStatus with
          | none => left; exact hs
          | some status =>
            simp only
            split
            · exact statusOf_updateBooking st _ i b.id markPaid s BookingStatus.confirmed
                (fun _ => rfl) (fun _ => rfl) rfl hs
            · left
              rw [statusOf_updateBooking_keep st _ i b.id markFailed (fun _ => rfl)
                (fun _ => rfl) rfl]
              exact hs
  · intro cb
    unfold verifyVNPayCallback
    split
    · left; exact hs
    · split
      · cases hb : findBooking st.bookings cb.bookingId with
        | none => left; exact hs
        | some b =>
          rcases statusOf_updateBooking st
            { st with bookings := updateBooking cb.bookingId vnpayPaidWrite st.bookings }
            i cb.bookingId vnpayPaidWrite s BookingStatus.confirmed (fun _ => rfl) (fun _ => rfl)
            rfl hs with h | h
          · left; exact h
          · right; left; exact h
      · rcases statusOf_updateBooking st
          { st with bookings := updateBooking cb.bookingId vnpayFailedWrite st.bookings }
          i cb.bookingId vnpayFailedWrite s BookingStatus.cancelled (fun _ => rfl) (fun _ => rfl)
          rfl hs with h | h
        · left; exact h
        · right; right; exact h

/-- C10, amended, at a concrete input: booking 50 is `pending`, and after a
failed VNPay callback its status is `pending`, `confirmed` or `cancelled`. -/
theorem status_changes_from_live_states_witness :
    statusOf stateA1Booked 50 = some BookingStatus.pending ∧
    (statusOf (verifyVNPayCallback stateA1Booked vnpayFailure).2 50
        = some BookingStatus.pending ∨
      statusOf (verifyVNPayCallback stateA1Booked vnpayFailure).2 50
        = some BookingStatus.confirmed ∨
      statusOf (verifyVNPayCallback stateA1Booked vnpayFailure).2 50
        = some BookingStatus.cancelled) :=
  ⟨by decide,
   ((status_changes_from_live_states stateA1Booked 50 BookingStatus.pending (by decide)).2
      (Or.inl rfl)).2.2.2 vnpayFailure⟩

/-- Evaluation of the handlers without a status guard on bookings in a
terminal state. A `used` booking becomes `cancelled` through `refundBooking` and through
`cancelBooking`, and `confirmed` through `confirmPayment`; a `cancelled`
booking becomes `confirmed` through `confirmPayment` and through
`verifyVNPayCallback`; an `expired` booking becomes `confirmed` through
`verifyVNPayCallback`; a `pending` booking becomes `cancelled` through
`cancelBooking`. Only `checkInBooking` leaves a `used` booking as it is. -/
theorem handlers_overwrite_terminal_status :
    stateUsed.bookings.map (fun b => b.status) = [BookingStatus.used] ∧
    (refundBooking stateUsed 50 none).2.bookings.map (fun b => b.status)
      = [BookingStatus.cancelled] ∧
    (cancelBooking stateUsed cancelFirst 0).2.bookings.map (fun b => b.status)
      = [BookingStatus.cancelled] ∧
    (confirmPayment stateUsed confirmFirst devMock).2.bookings.map (fun b => b.status)
      = [BookingStatus.confirmed] ∧
    stateCancelled.bookings.map (fun b => b.status) = [BookingStatus.cancelled] ∧
    (confirmPayment stateCancelled confirmFirst devMock).2.bookings.map (fun b => b.status)
      = [BookingStatus.confirmed] ∧
    (verifyVNPayCallback stateCancelled vnpaySuccess).2.bookings.map (fun b => b.status)
      = [BookingStatus.confirmed] ∧
    stateExpired.bookings.map (fun b => b.status) = [BookingStatus.expired] ∧
    (verifyVNPayCallback stateExpired vnpaySuccess).2.bookings.map (fun b => b.status)
      = [BookingStatus.confirmed] ∧
    stateA1Booked.bookings.map (fun b => b.status) = [BookingStatus.pending] ∧
    (cancelBooking stateA1Booked cancelFirst 0).2.bookings.map (fun b => b.status)
      = [BookingStatus.cancelled] ∧
    (checkInBooking stateUsed 50).2 = stateUsed := by
  decide

/-! ## C11 - C13: cancelled, checked-in and counter bookings -/

/-- C11. Evaluation of the three handlers that set `cancelled`. Booking 50 is
paid and holds seat A1. After `cancelBooking` it is `cancelled` and holds no
seat. After `refundBooking` it is `cancelled` and the showtime still holds A1
for it, with `availableSeats` still 1; the same after a VNPay callback with a
failure code. And `confirmPayment` on the booking cancelled by `cancelBooking`
makes it `confirmed` while the showtime holds no seat for it. -/
theorem cancelled_booking_keeps_seats :
    statusOf stateConfirmed 50 = some BookingStatus.confirmed ∧
    heldSeats stateConfirmed 50 =
      [{ row := "A", number := 1, type := "standard", bookingId := 50 }] ∧
    statusOf (cancelBooking stateConfirmed cancelFirst 0).2 50 = some BookingStatus.cancelled ∧
    heldSeats (cancelBooking stateConfirmed cancelFirst 0).2 50 = [] ∧
    statusOf (refundBooking stateConfirmed 50 none).2 50 = some BookingStatus.cancelled ∧
    heldSeats (refundBooking stateConfirmed 50 none).2 50 =
      [{ row := "A", number := 1, type := "standard", bookingId := 50 }] ∧
    (refundBooking stateConfirmed 50 none).2.showtimes.map (fun sh => sh.availableSeats) = [1] ∧
    statusOf (verifyVNPayCallback stateConfirmed vnpayFailure).2 50
      = some BookingStatus.cancelled ∧
    heldSeats (verifyVNPayCallback stateConfirmed vnpayFailure).2 50 =
      [{ row := "A", number := 1, type := "standard", bookingId := 50 }] ∧
    statusOf (confirmPayment stateCancelled confirmFirst devMock).2 50
      = some BookingStatus.confirmed ∧
    heldSeats (confirmPayment stateCancelled confirmFirst devMock).2 50 = [] := by
  decide

/-- C12. Check-in requires status exactly `confirmed`. For a stored booking,
`checkInBooking` succeeds if and only if its status is `confirmed`; then the
stored booking is the old one with status `used` and `isCheckedIn` true, and
nothing else in the database changes; in every other case, a `used` booking
included, the call is rejected with 400 and the database is unchanged. -/
theorem checkInBooking_iff_confirmed (st : State) (j : Id) (b : Booking)
    (hb : findBooking st.bookings j = some b) :
    ((checkInBooking st j).1.success = true ↔ b.status = BookingStatus.confirmed) ∧
    (b.status = BookingStatus.confirmed →
      findBooking (checkInBooking st j).2.bookings j =
        some { b with status := BookingStatus.used, isCheckedIn := true } ∧
      (checkInBooking st j).2.showtimes = st.showtimes ∧
      (checkInBooking st j).2.users = st.users) ∧
    (b.status ≠ BookingStatus.confirmed →
      (checkInBooking st j).1.status = 400 ∧ (checkInBooking st j).2 = st) := by
  have hbid := findBooking_id _ _ _ hb
  by_cases hc : b.status = BookingStatus.confirmed
  · have hnu : ¬ b.status = BookingStatus.used := by rw [hc]; decide
    have heq : checkInBooking st j = (accept 200 "Check-in successful" (checkInWrite b),
        { st with bookings := updateBooking b.id checkInWrite st.bookings }) := by
      unfold checkInBooking
      simp only [hb]
      rw [if_neg hnu, if_neg (not_not.mpr hc)]
    refine ⟨⟨fun _ => hc, fun _ => by rw [heq]; rfl⟩, fun _ => ⟨?_, by rw [heq], by rw [heq]⟩,
      fun h => absurd hc h⟩
    rw [heq]
    subst hbid
    show findBooking (updateBooking b.id checkInWrite st.bookings) b.id = _
    rw [findBooking_updateBooking b.id b.id checkInWrite (fun _ => rfl), if_pos rfl, hb]
    rfl
  · have heq : (checkInBooking st j).1.status = 400 ∧ (checkInBooking st j).1.success = false ∧
        (checkInBooking st j).2 = st := by
      unfold checkInBooking
      simp only [hb]
      by_cases hu : b.status = BookingStatus.used
      · rw [if_pos hu]; exact ⟨rfl, rfl, rfl⟩
      · rw [if_neg hu, if_pos hc]; exact ⟨rfl, rfl, rfl⟩
    refine ⟨⟨fun h => ?_, fun h => absurd h hc⟩, fun h => absurd h hc, fun _ => ⟨heq.1, heq.2.2⟩⟩
    rw [heq.2.1] at h
    exact absurd h (by decide)

/-- C12 at concrete inputs: the paid booking 50 is checked in and becomes
`used`; a second check-in is rejected and changes nothing. -/
theorem checkInBooking_iff_confirmed_witness :
    (checkInBooking stateConfirmed 50).1.success = true ∧
    statusOf (checkInBooking stateConfirmed 50).2 50 = some BookingStatus.used ∧
    (checkInBooking stateUsed 50).1.status = 400 ∧
    (checkInBooking stateUsed 50).2 = stateUsed :=
  ⟨(checkInBooking_iff_confirmed stateConfirmed 50
      { firstBooking with
        paymentStatus := PaymentStatus.completed,
        status := BookingStatus.confirmed } (by decide)).1.2 (by decide),
   by decide,
   ((checkInBooking_iff_confirmed stateUsed 50
      { firstBooking with
        paymentStatus := PaymentStatus.completed,
        status := BookingStatus.used,
        isCheckedIn := true } (by decide)).2.2 (by decide)).1,
   ((checkInBooking_iff_confirmed stateUsed 50
      { firstBooking with
        paymentStatus := PaymentStatus.completed,
        status := BookingStatus.used,
        isCheckedIn := true } (by decide)).2.2 (by decide)).2⟩

/-- Every booking `createBooking` answers with has status `pending`, the
schema default, whoever the requester is; a counter booking differs only in
`paymentStatus` and `bookingType`. -/
theorem createBooking_stores_pending (st : State) (req : BookingReq) (env : Env) (b : Booking)
    (h : (createBooking st req env).1.success = true)
    (hb : (createBooking st req env).1.booking = some b) :
    b.status = BookingStatus.pending ∧
    findBooking (createBooking st req env).2.bookings env.newId = some b := by
  obtain ⟨p, sh, su, _, _, _, _, _, _, _, _, _, h9, _, hins, _, heq⟩ :=
    createBooking_success st req env h
  rw [heq] at hb ⊢
  simp only [accept, Option.some.injEq] at hb
  subst hb
  refine ⟨by rw [h9]; rfl, ?_⟩
  have hid : p.booking.id = env.newId := by rw [h9]; rfl
  rw [← hid]
  exact findBooking_append_fresh _ _ (bookingInsertable_fresh _ _ hins)

/-- C13. Evaluation of a counter booking. The staff user of cinema 200 books
seat A1 for a walk-in customer; the call answers 201 and the stored booking
has `paymentStatus` paid, `bookingType` counter and status `pending`, not
`confirmed`; `checkInBooking` on it is rejected with 400 and leaves it as it
is. -/
theorem counter_booking_is_pending :
    (createBooking counterState (counterRequest [seatA1]) envFirst).1.status = 201 ∧
    (createBooking counterState (counterRequest [seatA1]) envFirst).2.bookings.map
      (fun b => (b.paymentStatus, b.bookingType, b.status)) =
      [(PaymentStatus.paid, BookingType.counter, BookingStatus.pending)] ∧
    (checkInBooking (createBooking counterState (counterRequest [seatA1]) envFirst).2 50).1 =
      reject 400 "Only confirmed bookings can be checked in" ∧
    (checkInBooking (createBooking counterState (counterRequest [seatA1]) envFirst).2 50).2 =
      (createBooking counterState (counterRequest [seatA1]) envFirst).2 := by
  decide

/-! ## C14 - C16: amounts, loyalty points and partial cancellation -/

theorem seatPrice_of_listed (p : PriceTable) (type : String)
    (h : hasListedPrice p type = true) : seatPrice p type = listedPrice p type := by
  unfold hasListedPrice at h
  unfold seatPrice listedPrice
  cases hv : priceEntry p type with
  | none => rw [hv] at h; simp [truthyNum] at h
  | some v =>
    by_cases hz : v = 0
    · rw [hv] at h; simp [truthyNum, hz] at h
    · simp [truthyNum, hz]

/-- C14, the claim as stated, fails: the price table of the showtime has the
entry 0 for vip seats, so the seat type of the request has a price in the
table. The request for vip seat B3 is accepted, and the stored booking has
`totalAmount` 80 000 and the seat carries 80 000, the standard price, not the
price 0 of its type. -/
theorem createBooking_zero_price_charges_standard :
    priceEntry zeroVipShowtime.price "vip" = some 0 ∧
    listedPrice zeroVipShowtime.price "vip" = 0 ∧
    (createBooking zeroVipState vipRequest envFirst).1.status = 201 ∧
    (createBooking zeroVipState vipRequest envFirst).2.bookings.map
      (fun b => (b.totalAmount, b.seats.map (fun d => (d.type, d.price)))) =
      [(80000, [("vip", 80000)])] := by
  decide

/-- C14, amended. Booking total. For a successful `createBooking` on a request
whose seat types all have a price other than 0 in the showtime's price table,
the booking stored under the new id has `totalAmount` equal to the sum of the
listed prices of the requested seats plus the sum of price × quantity over the
combos, and its seats are the requested seats, each with the listed price of
its type. -/
theorem createBooking_total (st : State) (req : BookingReq) (env : Env) (sh : Showtime)
    (hs : (createBooking st req env).1.success = true)
    (hfind : findShowtime st.showtimes req.showtimeId = some sh)
    (hprice : ∀ s ∈ req.seats, hasListedPrice sh.price s.type = true) :
    ∃ b, findBooking (createBooking st req env).2.bookings env.newId = some b ∧
      (createBooking st req env).1.booking = some b ∧
      b.totalAmount =
        (req.seats.map (fun s => listedPrice sh.price s.type)).sum +
          (req.combos.map (fun c => c.price * c.quantity)).sum ∧
      b.seats = req.seats.map (fun s =>
        { row := s.row, number := s.number, type := s.type,
          price := listedPrice sh.price s.type }) := by
  obtain ⟨p, sh0, su, _, h1, _, _, _, _, _, _, _, h9, _, hins, _, heq⟩ :=
    createBooking_success st req env hs
  rw [hfind] at h1
  cases h1
  have hid : p.booking.id = env.newId := by rw [h9]; rfl
  have hseats : seatDetails sh.price req.seats = req.seats.map (fun s =>
      { row := s.row, number := s.number, type := s.type,
        price := listedPrice sh.price s.type }) := by
    unfold seatDetails
    apply List.map_congr_left
    intro s hsm
    rw [seatPrice_of_listed _ _ (hprice s hsm)]
  refine ⟨p.booking, ?_, by rw [heq]; rfl, ?_, ?_⟩
  · rw [heq, ← hid]
    exact findBooking_append_fresh _ _ (bookingInsertable_fresh _ _ hins)
  · rw [h9]
    show totalAmount sh.price req.seats req.combos = _
    unfold totalAmount
    rw [hseats]
    simp [List.map_map, Function.comp_def]
  · rw [h9]
    exact hseats

/-- C14, amended, at a concrete input: a VIP seat (120 000) and a standard seat (80 000)
with two popcorn at 45 000 and one cola at 20 000 are stored with
`totalAmount` 310 000. -/
theorem createBooking_total_witness :
    ∃ b, findBooking (createBooking sampleState mixedRequest envFirst).2.bookings 50 = some b ∧
      (createBooking sampleState mixedRequest envFirst).1.booking = some b ∧
      b.totalAmount = (120000 + 80000) + (45000 * 2 + 20000 * 1) ∧
      b.seats.map (fun d => d.price) = [120000, 80000] := by
  obtain ⟨b, h1, h2, h3, h4⟩ := createBooking_total sampleState mixedRequest envFirst
    sampleShowtime (by decide) (by decide) (by decide)
  refine ⟨b, h1, h2, ?_, ?_⟩
  · rw [h3]; decide
  · rw [h4]; decide

/-- A price entry of 0 counts as absent: the standard price is charged. -/
theorem seatPrice_zero_entry (std : Int) (h : std ≠ 0) :
    seatPrice { standard := some std, vip := some 0, couple := none } "vip" = std := by
  simp [seatPrice, priceEntry, truthyNum, h]

/-- The users collection after a successful `createBooking` and after the
successful `cancelBooking` of the created booking, for a registered customer
`u`: one write of the balance `u.loyaltyPoints - used + earned`, then one
write that brings the balance back to `u.loyaltyPoints`. -/
theorem create_cancel_users (st : State) (req : BookingReq) (env : Env) (creq : CancelReq)
    (now : Int) (su u : User)
    (hcreate : (createBooking st req env).1.success = true)
    (hid : creq.bookingId = env.newId)
    (hcancel : (cancelBooking (createBooking st req env).2 creq now).1.success = true)
    (hsu : findUser st.users req.user.id = some su)
    (hcust : resolveCustomer st req su = some (Customer.registered u)) :
    ∃ b w, (createBooking st req env).1.booking = some b ∧
      findUser st.users u.id = some w ∧
      (createBooking st req env).2.users = updateUser u.id
        (earnPointsWrite (u.loyaltyPoints - b.loyaltyPointsUsed + b.loyaltyPointsEarned))
        st.users ∧
      (cancelBooking (createBooking st req env).2 creq now).2.users = updateUser u.id
        (fun x => refundPointsWrite
          (earnPointsWrite (u.loyaltyPoints - b.loyaltyPointsUsed + b.loyaltyPointsEarned) w) b
          (earnPointsWrite (u.loyaltyPoints - b.loyaltyPointsUsed + b.loyaltyPointsEarned) x))
        st.users := by
  obtain ⟨p, sh, su0, hp, h1, h2, h3, h4, h5, h6, h7, h8, h9, h10, hins, hno, heq⟩ :=
    createBooking_success st req env hcreate
  rw [hsu] at h2
  cases h2
  rw [hcust] at h5
  have hpc : p.customer = Customer.registered u := (Option.some.inj h5).symm
  obtain ⟨b, owner, sh1, c1, c2, c3, c4, c5, c6⟩ :=
    cancelBooking_released (createBooking st req env).2 creq now (Or.inl hcancel)
  obtain ⟨user, cu1, cu2, cu3⟩ := c6 hcancel
  have hst1b : (createBooking st req env).2.bookings = st.bookings ++ [p.booking] := by rw [heq]
  have hst1u : (createBooking st req env).2.users = saveLoyalty st.users p := by rw [heq]
  have hpid : p.booking.id = env.newId := by rw [h9]; rfl
  have hb : b = p.booking := by
    rw [hst1b, hid, ← hpid, findBooking_append_fresh _ _ (bookingInsertable_fresh _ _ hins)] at c1
    exact (Option.some.inj c1).symm
  subst hb
  have howner : owner = u.id := by
    rw [h9, hpc] at c2
    simpa [bookingData] using c2.symm
  subst howner
  obtain ⟨w, hw⟩ := findUser_of_mem st.users u (resolveCustomer_mem st req su u hcust)
  have hwid : w.id = u.id := by
    have := List.find?_some hw
    simpa using this
  have hsave : saveLoyalty st.users p = updateUser u.id (earnPointsWrite
      (u.loyaltyPoints - p.booking.loyaltyPointsUsed + p.booking.loyaltyPointsEarned))
      st.users := by
    unfold saveLoyalty
    rw [hpc]
  rw [hst1u, hsave, findUser_updateUser_same _ (earnPointsWrite _) (fun _ => rfl), hw] at cu1
  simp only [Option.map_some', Option.some.injEq] at cu1
  have huid : user.id = u.id := by rw [← cu1]; exact hwid
  refine ⟨p.booking, w, by rw [heq]; rfl, hw, by rw [hst1u, hsave], ?_⟩
  rw [cu2, hst1u, hsave, huid, updateUser_twice _ (earnPointsWrite _) _ (fun _ => rfl), cu1]

/-- C15. Loyalty points are restored by cancellation. Let `u` be the registered
customer `createBooking` resolves for the request. After a successful
`createBooking` the stored balance of `u` is the old balance minus the points
used plus the points earned, and after the successful `cancelBooking` of that
booking it is the balance before the booking again. -/
theorem loyalty_restored (st : State) (req : BookingReq) (env : Env) (creq : CancelReq)
    (now : Int) (su u : User)
    (hcreate : (createBooking st req env).1.success = true)
    (hid : creq.bookingId = env.newId)
    (hcancel : (cancelBooking (createBooking st req env).2 creq now).1.success = true)
    (hsu : findUser st.users req.user.id = some su)
    (hcust : resolveCustomer st req su = some (Customer.registered u)) :
    ∃ b u1 u2, (createBooking st req env).1.booking = some b ∧
      findUser (createBooking st req env).2.users u.id = some u1 ∧
      u1.loyaltyPoints = u.loyaltyPoints - b.loyaltyPointsUsed + b.loyaltyPointsEarned ∧
      findUser (cancelBooking (createBooking st req env).2 creq now).2.users u.id = some u2 ∧
      u2.loyaltyPoints = u.loyaltyPoints := by
  obtain ⟨b, w, hb, hw, h1, h2⟩ :=
    create_cancel_users st req env creq now su u hcreate hid hcancel hsu hcust
  refine ⟨b,
    earnPointsWrite (u.loyaltyPoints - b.loyaltyPointsUsed + b.loyaltyPointsEarned) w,
    refundPointsWrite
      (earnPointsWrite (u.loyaltyPoints - b.loyaltyPointsUsed + b.loyaltyPointsEarned) w) b
      (earnPointsWrite (u.loyaltyPoints - b.loyaltyPointsUsed + b.loyaltyPointsEarned) w),
    hb, ?_, rfl, ?_, ?_⟩
  · rw [h1, findUser_updateUser_same _ (earnPointsWrite _) (fun _ => rfl), hw]
    rfl
  · rw [h2, findUser_updateUser_same u.id (fun x => refundPointsWrite
      (earnPointsWrite (u.loyaltyPoints - b.loyaltyPointsUsed + b.loyaltyPointsEarned) w) b
      (earnPointsWrite (u.loyaltyPoints - b.loyaltyPointsUsed + b.loyaltyPointsEarned) x))
      (fun _ => rfl), hw]
    rfl
  · show u.loyaltyPoints - b.loyaltyPointsUsed + b.loyaltyPointsEarned + b.loyaltyPointsUsed
      - b.loyaltyPointsEarned = u.loyaltyPoints
    omega

/-- C15 at a concrete input: a customer with 5 points spends 3 on seat A1
(final amount 77 000, 770 points earned), has 772 points after the booking and
5 again after cancelling it. -/
theorem loyalty_restored_witness :
    (findUser (createBooking pointsState pointsRequest envFirst).2.users 1).map
      (fun x => x.loyaltyPoints) = some 772 ∧
    (findUser (cancelBooking (createBooking pointsState pointsRequest envFirst).2
      cancelFirst 0).2.users 1).map (fun x => x.loyaltyPoints) = some 5 ∧
    ∃ b u1 u2, (createBooking pointsState pointsRequest envFirst).1.booking = some b ∧
      findUser (createBooking pointsState pointsRequest envFirst).2.users pointsCustomer.id
        = some u1 ∧
      u1.loyaltyPoints
        = pointsCustomer.loyaltyPoints - b.loyaltyPointsUsed + b.loyaltyPointsEarned ∧
      findUser (cancelBooking (createBooking pointsState pointsRequest envFirst).2
        cancelFirst 0).2.users pointsCustomer.id = some u2 ∧
      u2.loyaltyPoints = pointsCustomer.loyaltyPoints :=
  ⟨by decide, by decide,
   loyalty_restored pointsState pointsRequest envFirst cancelFirst 0 pointsCustomer
    pointsCustomer (by decide) (by decide) (by decide) (by decide) (by decide)⟩

/-- The ways `cancelBooking` can end: a rejection or an early error with the
database untouched; the error on the missing user document, when only the
showtime has been written; success, with the three writes made. -/
theorem cancelBooking_outcomes (st : State) (req : CancelReq) (now : Int) :
    ((cancelBooking st req now).1.success = false ∧ (cancelBooking st req now).2 = st) ∨
    (∃ b sh, findBooking st.bookings req.bookingId = some b ∧
      findShowtime st.showtimes b.showtimeId = some sh ∧
      cancelBooking st req now = (serverError "TypeError: user is null",
        { st with showtimes := updateShowtime sh.id (releaseWrite sh b) st.showtimes })) ∨
    (∃ b sh user, findBooking st.bookings req.bookingId = some b ∧
      findShowtime st.showtimes b.showtimeId = some sh ∧
      cancelBooking st req now = (accept 200 "Booking cancelled successfully"
          (cancelWrite req.reason b),
        { showtimes := updateShowtime sh.id (releaseWrite sh b) st.showtimes,
          users := updateUser user.id (refundPointsWrite user b) st.users,
          bookings := updateBooking b.id (cancelWrite req.reason) st.bookings,
          movies := st.movies, cinemas := st.cinemas })) := by
  unfold cancelBooking
  cases hb : findBooking st.bookings req.bookingId with
  | none => left; exact ⟨rfl, rfl⟩
  | some b =>
    cases ho : b.userId with
    | none => left; simp [ho, serverError]
    | some owner =>
      simp only [ho]
      by_cases hauth : owner ≠ req.user.id ∧ ¬ (req.user.role = Role.admin ∨ req.user.role = Role.staff)
      · rw [if_pos hauth]; left; exact ⟨rfl, rfl⟩
      · rw [if_neg hauth]
        cases hsh : findShowtime st.showtimes b.showtimeId with
        | none => left; exact ⟨rfl, rfl⟩
        | some sh =>
          simp only
          cases hcut : insideCutoff sh.startTime now with
          | true => left; simp [reject]
          | false =>
            simp only [Bool.false_eq_true, if_false]
            cases hu : findUser st.users owner with
            | none => right; left; exact ⟨b, sh, rfl, hsh, rfl⟩
            | some user => right; right; exact ⟨b, sh, user, rfl, hsh, rfl⟩

/-- C16. Evaluation of `cancelBooking` on a booking whose user document no
longer exists. Booking 50 holds seat A1 (`availableSeats` 1). The admin's
cancellation fails with the error of the missing user, yet the showtime has
been written: `bookedSeats` is empty and `availableSeats` is 2, while the
booking keeps status `pending`. -/
theorem cancelBooking_fails_after_release :
    ownerGoneState.showtimes.map (fun sh => (seatPairs sh.bookedSeats, sh.availableSeats))
      = [([("A", 1)], 1)] ∧
    (cancelBooking ownerGoneState cancelByAdmin 0).1 = serverError "TypeError: user is null" ∧
    (cancelBooking ownerGoneState cancelByAdmin 0).2.showtimes.map
      (fun sh => (seatPairs sh.bookedSeats, sh.availableSeats)) = [([], 2)] ∧
    statusOf (cancelBooking ownerGoneState cancelByAdmin 0).2 50 = some BookingStatus.pending ∧
    (cancelBooking ownerGoneState cancelByAdmin 0).2 ≠ ownerGoneState := by
  decide

/-! ## C17 - C18: what createBooking checks before it books -/

/-- C17, the claim as stated, fails: the only showtime is `completed` and
started before the current time, and a request for seat A1 is accepted with
201, the booking is stored and the seat is claimed. -/
theorem createBooking_accepts_past_showtime :
    pastShowtime.status ≠ ShowtimeStatus.scheduled ∧
    pastShowtime.startTime < (envFirst.now : Int) ∧
    (createBooking pastState (sampleRequest [seatA1]) envFirst).1.status = 201 ∧
    (createBooking pastState (sampleRequest [seatA1]) envFirst).2.bookings.length = 1 ∧
    (createBooking pastState (sampleRequest [seatA1]) envFirst).2.showtimes.map
      (fun sh => seatPairs sh.bookedSeats) = [[("A", 1)]] := by
  decide

/-- C17, amended. `createBooking` succeeds only if the seat list is non-empty
and the showtime exists; it reads neither the showtime's status nor its start
time. When the showtime does not exist the call answers 404 and the database
is unchanged, so no booking is stored; when the seat list is empty the call
fails and every showtime is unchanged. -/
theorem createBooking_validation (st : State) (req : BookingReq) (env : Env) :
    ((createBooking st req env).1.success = true →
      req.seats ≠ [] ∧ ∃ sh, findShowtime st.showtimes req.showtimeId = some sh) ∧
    (findShowtime st.showtimes req.showtimeId = none →
      createBooking st req env = (reject 404 "Showtime not found", st)) ∧
    (req.seats = [] →
      (createBooking st req env).1.success = false ∧
      (createBooking st req env).2.showtimes = st.showtimes) := by
  refine ⟨?_, ?_, ?_⟩
  · intro hs
    obtain ⟨p, sh, su, _, h1, _, _, _, _, _, _, _, _, h10, _, _, _⟩ :=
      createBooking_success st req env hs
    exact ⟨h10, sh, h1⟩
  · intro hnone
    unfold createBooking prepare
    simp only [hnone]
  · intro hempty
    have hf : (createBooking st req env).1.success = false := by
      cases hs : (createBooking st req env).1.success with
      | false => rfl
      | true =>
        obtain ⟨p, sh, su, _, _, _, _, _, _, _, _, _, _, h10, _, _, _⟩ :=
          createBooking_success st req env hs
        exact absurd hempty h10
    exact ⟨hf, createBooking_failure_showtimes st req env hf⟩

/-- C17, amended, at concrete inputs: a request for an unknown showtime is
answered 404 and changes nothing; a request without seats fails and leaves
the showtimes as they were. -/
theorem createBooking_validation_witness :
    createBooking sampleState { sampleRequest [seatA1] with showtimeId := 11 } envFirst
      = (reject 404 "Showtime not found", sampleState) ∧
    (createBooking sampleState (sampleRequest []) envFirst).1.success = false ∧
    (createBooking sampleState (sampleRequest []) envFirst).2.showtimes = sampleState.showtimes :=
  ⟨(createBooking_validation sampleState { sampleRequest [seatA1] with showtimeId := 11 }
      envFirst).2.1 (by decide),
   ((createBooking_validation sampleState (sampleRequest []) envFirst).2.2 (by decide)).1,
   ((createBooking_validation sampleState (sampleRequest []) envFirst).2.2 (by decide)).2⟩

/-- Evaluation of a request with an empty seat list: `Booking.create` has
stored the booking when the update with the empty `$or` fails, and nothing
removes it. -/
theorem createBooking_empty_seats_keeps_booking :
    (createBooking sampleState (sampleRequest []) envFirst).1.status = 500 ∧
    (createBooking sampleState (sampleRequest []) envFirst).2.bookings.map (fun b => b.id) = [50] ∧
    (createBooking sampleState (sampleRequest []) envFirst).2.showtimes = sampleState.showtimes := by
  decide

/-- C18, the claim as stated, fails: the staff user of cinema 201 asks for a
seat of the sample showtime, which belongs to cinema 200, while the cinema
document of that showtime is gone. `populate` leaves `showtime.cinemaId` null,
line 41 throws, and the request is answered 500, not 403. -/
theorem createBooking_staff_scope_dangling_cinema :
    findUser danglingCinemaState.users (counterRequest [seatA1]).user.id = some otherStaff ∧
    otherStaff.role = Role.staff ∧
    otherStaff.cinemaId = some 201 ∧
    sampleShowtime.cinemaId = 200 ∧
    createBooking danglingCinemaState (counterRequest [seatA1]) envFirst =
      (serverError "TypeError: showtime.cinemaId is null", danglingCinemaState) ∧
    (createBooking danglingCinemaState (counterRequest [seatA1]) envFirst).1.status = 500 := by
  decide

/-- C18, amended. Staff are scoped to their own cinema. For a request on an
existing showtime whose requester is a stored user with role staff: without a
`cinemaId` the request is answered 403 and the database is unchanged; with a
`cinemaId` that differs from the showtime's cinema the request fails and the
database is unchanged, and the answer is 403 when the showtime's cinema
document exists, so that `populate` resolves it; hence the booking of every
successful request of a staff user carries the cinema of that user. -/
theorem createBooking_staff_scope (st : State) (req : BookingReq) (env : Env) (sh : Showtime)
    (su : User)
    (hfind : findShowtime st.showtimes req.showtimeId = some sh)
    (hsu : findUser st.users req.user.id = some su)
    (hrole : su.role = Role.staff) :
    (su.cinemaId = none →
      createBooking st req env = (reject 403 "Staff chưa được gán rạp", st)) ∧
    (∀ c, su.cinemaId = some c → sh.cinemaId ≠ c →
      (createBooking st req env).1.success = false ∧ (createBooking st req env).2 = st ∧
      (sh.cinemaId ∈ st.cinemas →
        (createBooking st req env).1 = reject 403 "Bạn chỉ có thể đặt vé cho rạp của mình")) ∧
    ((createBooking st req env).1.success = true →
      ∃ b, (createBooking st req env).1.booking = some b ∧
        findBooking (createBooking st req env).2.bookings env.newId = some b ∧
        b.showtimeId = req.showtimeId ∧ b.cinemaId = sh.cinemaId ∧
        su.cinemaId = some sh.cinemaId) := by
  refine ⟨?_, ?_, ?_⟩
  · intro hnone
    unfold createBooking prepare
    simp only [hfind, hsu]
    have hg : staffGate st sh su = some (reject 403 "Staff chưa được gán rạp") := by
      unfold staffGate
      rw [if_pos hrole, hnone]
    rw [hg]
  · intro c hc hne
    have hg : ∃ r, staffGate st sh su = some r ∧ r.success = false ∧
        (sh.cinemaId ∈ st.cinemas → r = reject 403 "Bạn chỉ có thể đặt vé cho rạp của mình") := by
      unfold staffGate
      rw [if_pos hrole, hc]
      simp only
      by_cases hpop : sh.cinemaId ∈ st.cinemas
      · refine ⟨reject 403 "Bạn chỉ có thể đặt vé cho rạp của mình", ?_, rfl, fun _ => rfl⟩
        simp [hpop, hne]
      · refine ⟨serverError "TypeError: showtime.cinemaId is null", ?_, rfl, fun h => absurd h hpop⟩
        simp [hpop]
    obtain ⟨r, hr, hrf, hr403⟩ := hg
    have heq : createBooking st req env = (r, st) := by
      unfold createBooking prepare
      simp only [hfind, hsu, hr]
    rw [heq]
    exact ⟨hrf, rfl, hr403⟩
  · intro hs
    obtain ⟨p, sh0, su0, _, h1, h2, h3, _, _, _, _, _, h9, _, hins, _, heq⟩ :=
      createBooking_success st req env hs
    rw [hfind] at h1
    cases h1
    rw [hsu] at h2
    cases h2
    have hid : p.booking.id = env.newId := by rw [h9]; rfl
    refine ⟨p.booking, by rw [heq]; rfl, ?_, by rw [h9]; rfl, by rw [h9]; rfl, ?_⟩
    · rw [heq, ← hid]
      exact findBooking_append_fresh _ _ (bookingInsertable_fresh _ _ hins)
    · unfold staffGate at h3
      rw [if_pos hrole] at h3
      cases hc : su.cinemaId with
      | none => rw [hc] at h3; simp at h3
      | some c =>
        rw [hc] at h3
        simp only at h3
        split at h3
        · simp at h3
        · split at h3
          · simp at h3
          · rename_i _ hcc
            simp only [ne_eq, not_not] at hcc
            rw [hcc]

/-- C18, amended, at concrete inputs: the staff user of cinema 201 is refused on the
showtime of cinema 200 and nothing changes; the staff user of cinema 200 books
it, and the stored booking is for cinema 200. -/
theorem createBooking_staff_scope_witness :
    (createBooking otherStaffState (counterRequest [seatA1]) envFirst).1 =
      reject 403 "Bạn chỉ có thể đặt vé cho rạp của mình" ∧
    (createBooking otherStaffState (counterRequest [seatA1]) envFirst).2 = otherStaffState ∧
    ∃ b, (createBooking counterState (counterRequest [seatA1]) envFirst).1.booking = some b ∧
      findBooking (createBooking counterState (counterRequest [seatA1]) envFirst).2.bookings
        envFirst.newId = some b ∧
      b.showtimeId = (counterRequest [seatA1]).showtimeId ∧
      b.cinemaId = sampleShowtime.cinemaId ∧
      sampleStaff.cinemaId = some sampleShowtime.cinemaId :=
  ⟨((createBooking_staff_scope otherStaffState (counterRequest [seatA1]) envFirst sampleShowtime
      otherStaff (by decide) (by decide) (by decide)).2.1 201 (by decide) (by decide)).2.2
      (by decide),
   ((createBooking_staff_scope otherStaffState (counterRequest [seatA1]) envFirst sampleShowtime
      otherStaff (by decide) (by decide) (by decide)).2.1 201 (by decide) (by decide)).2.1,
   (createBooking_staff_scope counterState (counterRequest [seatA1]) envFirst sampleShowtime
      sampleStaff (by decide) (by decide) (by decide)).2.2 (by decide)⟩

/-! ## C19 - C20: showtime removal and occupancy -/

theorem mem_updateShowtime_of_ne (i : Id) (f : Showtime → Showtime) (l : List Showtime)
    (s0 x : Showtime) (hfind : findShowtime l i = some s0) (hx : x ∈ l) (hne : x ≠ s0) :
    x ∈ updateShowtime i f l := by
  induction l with
  | nil => simp at hx
  | cons s rest ih =>
    by_cases hs : s.id = i
    · have : s = s0 := by simpa [findShowtime, List.find?_cons, hs] using hfind
      subst this
      simp only [updateShowtime, hs, if_true]
      rcases List.mem_cons.mp hx with h | h
      · exact absurd h hne
      · exact List.mem_cons_of_mem _ h
    · have hrest : findShowtime rest i = some s0 := by
        simpa [findShowtime, List.find?_cons, hs] using hfind
      simp only [updateShowtime, hs, if_false]
      rcases List.mem_cons.mp hx with h | h
      · rw [h]; exact List.mem_cons_self _ _
      · exact List.mem_cons_of_mem _ (ih hrest h)

/-- C19, the claim as stated, fails: the showtime of booking 50 started at
millisecond 0, is `completed` and has seat A1 booked; `cleanupOldShowtimes`
with a seven-days-ago mark of 1000 removes its record. -/
theorem cleanupOldShowtimes_removes_booked_showtime :
    oldBookedState.showtimes.map (fun sh => seatPairs sh.bookedSeats) = [[("A", 1)]] ∧
    (cleanupOldShowtimes oldBookedState 1000).showtimes = [] := by
  decide

/-- C19, amended. For a showtime whose `bookedSeats` is non-empty:
`deleteShowtime` rejects it with 400 and changes nothing, and no
`deleteShowtime` call removes its record; the regenerate-today route keeps its
record; `cleanupOldShowtimes` removes its record exactly when it started
before the seven-days-ago mark and its status is `completed` or `cancelled`.
A showtime without bookings is only soft-deleted by `deleteShowtime`: its
record stays, with `isActive` false. -/
theorem showtime_removal (st : State) (sh : Showtime) (hmem : sh ∈ st.showtimes) :
    (sh.bookedSeats ≠ [] →
      (∀ i, findShowtime st.showtimes i = some sh → deleteShowtime st i =
        (reject 400 "Cannot delete showtime with existing bookings", st)) ∧
      (∀ i, sh ∈ (deleteShowtime st i).2.showtimes) ∧
      (∀ today tomorrow dayEnd generated,
        sh ∈ (regenerateToday st today tomorrow dayEnd generated).showtimes) ∧
      (∀ mark, sh ∈ (cleanupOldShowtimes st mark).showtimes ↔
        ¬ (sh.startTime < mark ∧
          (sh.status = ShowtimeStatus.completed ∨ sh.status = ShowtimeStatus.cancelled)))) ∧
    (sh.bookedSeats = [] → ∀ i, findShowtime st.showtimes i = some sh →
      (deleteShowtime st i).1.status = 200 ∧
      findShowtime (deleteShowtime st i).2.showtimes i = some { sh with isActive := false } ∧
      (deleteShowtime st i).2.showtimes.length = st.showtimes.length) := by
  refine ⟨fun hbooked => ⟨?_, ?_, ?_, ?_⟩, ?_⟩
  · intro i hfind
    have hlen : sh.bookedSeats.length > 0 := List.length_pos.mpr hbooked
    unfold deleteShowtime
    simp only [hfind]
    rw [if_pos hlen]
  · intro i
    unfold deleteShowtime
    cases hfind : findShowtime st.showtimes i with
    | none => exact hmem
    | some s0 =>
      simp only
      split
      · exact hmem
      · rename_i hlen
        have hs0 : s0.bookedSeats = [] := by
          cases hb : s0.bookedSeats with
          | nil => rfl
          | cons a t => rw [hb] at hlen; simp at hlen
        have hne : sh ≠ s0 := by
          intro h
          rw [h] at hbooked
          exact hbooked hs0
        have hid := findShowtime_id _ _ _ hfind
        rw [hid]
        exact mem_updateShowtime_of_ne i softDeleteWrite st.showtimes s0 sh hfind hmem hne
  · intro today tomorrow dayEnd generated
    have hkept : sh ∈ st.showtimes.filter (fun s => !startsTodayUnbooked today tomorrow s) := by
      rw [List.mem_filter]
      refine ⟨hmem, ?_⟩
      have hlen : sh.bookedSeats.length ≠ 0 := fun h => hbooked (List.length_eq_zero.mp h)
      simp [startsTodayUnbooked, hlen]
    unfold regenerateToday
    simp only
    split
    · exact hkept
    · exact List.mem_append_left _ hkept
  · intro mark
    unfold cleanupOldShowtimes
    simp only [List.mem_filter, hmem, true_and]
    unfold oldAndOver
    simp only [Bool.not_eq_true', Bool.and_eq_false_imp, decide_eq_true_eq, Bool.or_eq_false_iff,
      beq_eq_false_iff_ne, ne_eq, not_and, not_or]
  · intro hnone i hfind
    have hlen : ¬ sh.bookedSeats.length > 0 := by rw [hnone]; simp
    have hid := findShowtime_id _ _ _ hfind
    have heq : deleteShowtime st i = (showtimeDeleted,
        { st with showtimes := updateShowtime i softDeleteWrite st.showtimes }) := by
      unfold deleteShowtime
      simp only [hfind]
      rw [if_neg hlen, hid]
    rw [heq]
    refine ⟨rfl, ?_, ?_⟩
    · show findShowtime (updateShowtime i softDeleteWrite st.showtimes) i = _
      rw [findShowtime_updateShowtime i i softDeleteWrite (fun _ => rfl), if_pos rfl, hfind]
      rfl
    · show (updateShowtime i softDeleteWrite st.showtimes).length = _
      clear heq hfind hmem
      induction st.showtimes with
      | nil => rfl
      | cons s rest ih =>
        by_cases hs : s.id = i
        · simp [updateShowtime, hs]
        · simp [updateShowtime, hs, ih]

/-- C19, amended, at concrete inputs: the showtime with seat A1 booked is
refused by `deleteShowtime` and kept by the regenerate-today route even when it
starts today; the empty sample showtime is soft-deleted. -/
theorem showtime_removal_witness :
    deleteShowtime stateA1Booked 10 =
      (reject 400 "Cannot delete showtime with existing bookings", stateA1Booked) ∧
    a1BookedShowtime ∈ (regenerateToday stateA1Booked 0 200000000 199999999 []).showtimes ∧
    (deleteShowtime sampleState 10).1.status = 200 ∧
    findShowtime (deleteShowtime sampleState 10).2.showtimes 10 =
      some { sampleShowtime with isActive := false } :=
  ⟨((showtime_removal stateA1Booked a1BookedShowtime (by decide)).1 (by decide)).1 10
      (by decide),
   ((showtime_removal stateA1Booked a1BookedShowtime (by decide)).1 (by decide)).2.2.1
      0 200000000 199999999 [],
   ((showtime_removal sampleState sampleShowtime (by decide)).2 (by decide) 10 (by decide)).1,
   ((showtime_removal sampleState sampleShowtime (by decide)).2 (by decide) 10 (by decide)).2.1⟩

/-- Rounding to the nearest integer does not go below the floor. -/
theorem roundHalfEven_floor_le (m : ℚ) : ⌊m⌋ ≤ roundHalfEven m := by
  unfold roundHalfEven
  split_ifs <;> omega

/-- Rounding to the nearest integer does not go above the ceiling. -/
theorem roundHalfEven_le_ceil (m : ℚ) : roundHalfEven m ≤ ⌈m⌉ := by
  have hfc : ⌊m⌋ ≤ ⌈m⌉ := Int.floor_le_ceil m
  have hpos : 0 < m - (⌊m⌋ : ℚ) → ⌊m⌋ + 1 ≤ ⌈m⌉ := by
    intro h
    have : (⌊m⌋ : ℚ) < m := by linarith
    have h2 : ⌊m⌋ < ⌈m⌉ := by
      have := Int.le_ceil m
      exact_mod_cast lt_of_lt_of_le ‹(⌊m⌋ : ℚ) < m› this
    omega
  unfold roundHalfEven
  split_ifs with h1 h2 h3
  · exact hfc
  · exact hpos (by linarith)
  · exact hfc
  · exact hpos (by linarith)

/-- Rounding to the nearest integer moves a number by at most one half. -/
theorem roundHalfEven_error (m : ℚ) : |(roundHalfEven m : ℚ) - m| ≤ 1 / 2 := by
  have hf := Int.floor_le m
  have hl := Int.lt_floor_add_one m
  unfold roundHalfEven
  split_ifs with h1 h2 h3
  · rw [abs_le]; constructor <;> linarith
  · push_cast; rw [abs_le]; constructor <;> linarith
  · rw [abs_le]; constructor <;> linarith
  · push_cast; rw [abs_le]; constructor <;> linarith

/-- A number less than one half away from an integer is rounded to it. -/
theorem roundHalfEven_of_near (m : ℚ) (k : ℤ) (h : |m - (k : ℚ)| < 1 / 2) :
    roundHalfEven m = k := by
  rw [abs_lt] at h
  by_cases hk : (k : ℚ) ≤ m
  · have hfl : ⌊m⌋ = k := by
      rw [Int.floor_eq_iff]
      constructor
      · exact hk
      · linarith
    unfold roundHalfEven
    rw [hfl, if_pos (by linarith)]
  · have hfl : ⌊m⌋ = k - 1 := by
      rw [Int.floor_eq_iff]
      push_cast
      constructor <;> linarith
    unfold roundHalfEven
    rw [hfl]
    push_cast
    rw [if_neg (by linarith), if_pos (by linarith)]
    omega

/-- The binary exponent of a number between two consecutive powers of 2. -/
theorem log2_eq (q : ℚ) (e : ℤ) (h1 : (2 : ℚ) ^ e ≤ q) (h2 : q < (2 : ℚ) ^ (e + 1)) :
    Int.log 2 q = e := by
  have hq : 0 < q := lt_of_lt_of_le (by positivity) h1
  have a : e ≤ Int.log 2 q := by
    rw [← Int.zpow_le_iff_le_log (by norm_num) hq]
    simpa using h1
  have b : Int.log 2 q < e + 1 := by
    rw [← Int.lt_zpow_iff_log_lt (by norm_num) hq]
    simpa using h2
  omega

/-- A positive number lies between the power of 2 of its binary exponent and the
next one. -/
theorem log2_bounds (q : ℚ) (hq : 0 < q) :
    (2 : ℚ) ^ Int.log 2 q ≤ q ∧ q < (2 : ℚ) ^ (Int.log 2 q + 1) := by
  have a := Int.zpow_log_le_self (b := 2) (by norm_num) hq
  have b := Int.lt_zpow_succ_log_self (b := 2) (by norm_num) q
  simp only [Nat.cast_ofNat] at a b
  exact ⟨a, b⟩

/-- Evaluation of `roundDouble`: with `2 ^ e ≤ q < 2 ^ (e + 1)` and `q` less than
half a unit in the last place away from `k` units, the double is `k` units. -/
theorem roundDouble_eq (q : ℚ) (e k : ℤ) (h1 : (2 : ℚ) ^ e ≤ q) (h2 : q < (2 : ℚ) ^ (e + 1))
    (hk : |q / (2 : ℚ) ^ (e - 52) - (k : ℚ)| < 1 / 2) :
    roundDouble q = (k : ℚ) * (2 : ℚ) ^ (e - 52) := by
  have hq : 0 < q := lt_of_lt_of_le (by positivity) h1
  unfold roundDouble
  rw [if_neg hq.ne', abs_of_pos hq, log2_eq q e h1 h2, roundHalfEven_of_near _ k hk]

/-- The double of a non-negative result is not negative. -/
theorem roundDouble_nonneg (q : ℚ) (hq : 0 ≤ q) : 0 ≤ roundDouble q := by
  unfold roundDouble
  split_ifs with h0
  · exact le_refl 0
  · have hpos : (0 : ℚ) < (2 : ℚ) ^ (Int.log 2 |q| - 52) := by positivity
    apply mul_nonneg _ hpos.le
    have hm : 0 ≤ q / (2 : ℚ) ^ (Int.log 2 |q| - 52) := div_nonneg hq hpos.le
    have : (0 : ℤ) ≤ roundHalfEven (q / (2 : ℚ) ^ (Int.log 2 |q| - 52)) :=
      le_trans (Int.floor_nonneg.mpr hm) (roundHalfEven_floor_le _)
    exact_mod_cast this

/-- Rounding does not cross an integer below `2 ^ 53`: a positive result that is
at most `c` is rounded to a double that is at most `c`. -/
theorem roundDouble_le_natCast (q : ℚ) (c : ℕ) (hq : 0 < q) (hqc : q ≤ (c : ℚ))
    (hc : c < 2 ^ 53) : roundDouble q ≤ (c : ℚ) := by
  obtain ⟨hlo, hhi⟩ := log2_bounds q hq
  have he : Int.log 2 q ≤ 52 := by
    have hlt : (2 : ℚ) ^ Int.log 2 q < (2 : ℚ) ^ (53 : ℤ) := by
      calc (2 : ℚ) ^ Int.log 2 q ≤ q := hlo
        _ ≤ (c : ℚ) := hqc
        _ < (2 : ℚ) ^ (53 : ℤ) := by
          have h53 : ((2 ^ 53 : ℕ) : ℚ) = (2 : ℚ) ^ (53 : ℤ) := by norm_num
          rw [← h53]
          exact_mod_cast hc
    have := (zpow_lt_zpow_iff_right₀ (by norm_num : (1 : ℚ) < 2)).mp hlt
    omega
  unfold roundDouble
  rw [if_neg hq.ne', abs_of_pos hq]
  have hpos : (0 : ℚ) < (2 : ℚ) ^ (Int.log 2 q - 52) := by positivity
  -- the bound is a whole number of units in the last place
  obtain ⟨n, hn⟩ : ∃ n : ℕ, 52 - Int.log 2 q = (n : ℤ) := ⟨(52 - Int.log 2 q).toNat, by omega⟩
  have hunit : (c : ℚ) / (2 : ℚ) ^ (Int.log 2 q - 52) = ((c * 2 ^ n : ℕ) : ℚ) := by
    have : Int.log 2 q - 52 = -(n : ℤ) := by omega
    rw [this, zpow_neg, zpow_natCast]
    push_cast
    field_simp
  have hm : q / (2 : ℚ) ^ (Int.log 2 q - 52) ≤ ((c * 2 ^ n : ℕ) : ℚ) := by
    rw [← hunit]
    exact div_le_div_of_nonneg_right hqc hpos.le
  have hceil : ⌈q / (2 : ℚ) ^ (Int.log 2 q - 52)⌉ ≤ ((c * 2 ^ n : ℕ) : ℤ) := by
    rw [Int.ceil_le]
    exact_mod_cast hm
  have hr : roundHalfEven (q / (2 : ℚ) ^ (Int.log 2 q - 52)) ≤ ((c * 2 ^ n : ℕ) : ℤ) :=
    le_trans (roundHalfEven_le_ceil _) hceil
  have hrq : (roundHalfEven (q / (2 : ℚ) ^ (Int.log 2 q - 52)) : ℚ) ≤ ((c * 2 ^ n : ℕ) : ℚ) := by
    exact_mod_cast hr
  calc (roundHalfEven (q / (2 : ℚ) ^ (Int.log 2 q - 52)) : ℚ) * (2 : ℚ) ^ (Int.log 2 q - 52)
      ≤ ((c * 2 ^ n : ℕ) : ℚ) * (2 : ℚ) ^ (Int.log 2 q - 52) :=
        mul_le_mul_of_nonneg_right hrq hpos.le
    _ = (c : ℚ) := by
        rw [← hunit]
        field_simp

/-- The double of a positive result differs from it by at most the fraction
`2 ^ (-53)` of it. -/
theorem roundDouble_error (q : ℚ) (hq : 0 < q) :
    |roundDouble q - q| ≤ q * (2 : ℚ) ^ (-53 : ℤ) := by
  obtain ⟨hlo, hhi⟩ := log2_bounds q hq
  unfold roundDouble
  rw [if_neg hq.ne', abs_of_pos hq]
  have hpos : (0 : ℚ) < (2 : ℚ) ^ (Int.log 2 q - 52) := by positivity
  have herr := roundHalfEven_error (q / (2 : ℚ) ^ (Int.log 2 q - 52))
  have hsplit : (roundHalfEven (q / (2 : ℚ) ^ (Int.log 2 q - 52)) : ℚ) *
      (2 : ℚ) ^ (Int.log 2 q - 52) - q =
      ((roundHalfEven (q / (2 : ℚ) ^ (Int.log 2 q - 52)) : ℚ) -
        q / (2 : ℚ) ^ (Int.log 2 q - 52)) * (2 : ℚ) ^ (Int.log 2 q - 52) := by
    field_simp
  rw [hsplit, abs_mul, abs_of_pos hpos]
  have hulp : (2 : ℚ) ^ (Int.log 2 q - 52) = (2 : ℚ) ^ Int.log 2 q * (2 : ℚ) ^ (-52 : ℤ) := by
    rw [← zpow_add₀ (by norm_num : (2 : ℚ) ≠ 0)]
    congr 1
  calc |(roundHalfEven (q / (2 : ℚ) ^ (Int.log 2 q - 52)) : ℚ) -
        q / (2 : ℚ) ^ (Int.log 2 q - 52)| * (2 : ℚ) ^ (Int.log 2 q - 52)
      ≤ 1 / 2 * (2 : ℚ) ^ (Int.log 2 q - 52) := mul_le_mul_of_nonneg_right herr hpos.le
    _ = (2 : ℚ) ^ Int.log 2 q * (2 : ℚ) ^ (-53 : ℤ) := by
        rw [hulp]
        norm_num
        ring
    _ ≤ q * (2 : ℚ) ^ (-53 : ℤ) := mul_le_mul_of_nonneg_right hlo (by positivity)

/-- The occupancy of a showtime that counts `t > 0` seats, `b` of them booked. -/
theorem getOccupancy_of_counts (sh : Showtime) (b : ℕ) (t : ℤ)
    (hb : sh.bookedSeats.length = b) (ht : sh.availableSeats + (b : ℤ) = t) (hpos : 0 < t) :
    getOccupancy sh = roundDouble (roundDouble ((b : ℚ) / (t : ℚ)) * 100) := by
  unfold getOccupancy
  simp only [hb, ht]
  rw [if_pos hpos]

/-- C20, the claim as stated, fails: the two-seat room with one seat booked
has capacity 2 > 0 and `getOccupancy` returns 50, not 1/2, a value above 1;
for the room of capacity 1 with two seats booked and `availableSeats` -1 it
returns 200, not 2/1; and for the room of 25 seats with 7 booked it returns
the double 28 + 2 ^ (-48), printed 28.000000000000004, not 7/25. -/
theorem getOccupancy_is_not_a_fraction :
    0 < a1BookedShowtime.capacity ∧
    getOccupancy a1BookedShowtime = 50 ∧
    getOccupancy a1BookedShowtime ≠
      (a1BookedShowtime.bookedSeats.length : ℚ) / (a1BookedShowtime.capacity : ℚ) ∧
    ¬ getOccupancy a1BookedShowtime ≤ 1 ∧
    0 < overbookedShowtime.capacity ∧
    getOccupancy overbookedShowtime = 200 ∧
    0 < sevenOfTwentyFive.capacity ∧
    getOccupancy sevenOfTwentyFive = 28 + (2 : ℚ) ^ (-48 : ℤ) := by
  have h50 : getOccupancy a1BookedShowtime = 50 := by
    rw [getOccupancy_of_counts a1BookedShowtime 1 2 (by decide) (by decide) (by decide)]
    have e1 : roundDouble (((1 : ℕ) : ℚ) / ((2 : ℤ) : ℚ)) = 1 / 2 := by
      rw [roundDouble_eq _ (-1) (2 ^ 52) (by norm_num) (by norm_num) (by norm_num)]
      norm_num
    rw [e1, roundDouble_eq _ 5 (50 * 2 ^ 47) (by norm_num) (by norm_num) (by norm_num)]
    norm_num
  have h200 : getOccupancy overbookedShowtime = 200 := by
    rw [getOccupancy_of_counts overbookedShowtime 2 1 (by decide) (by decide) (by decide)]
    have e1 : roundDouble (((2 : ℕ) : ℚ) / ((1 : ℤ) : ℚ)) = 2 := by
      rw [roundDouble_eq _ 1 (2 ^ 52) (by norm_num) (by norm_num) (by norm_num)]
      norm_num
    rw [e1, roundDouble_eq _ 7 (200 * 2 ^ 45) (by norm_num) (by norm_num) (by norm_num)]
    norm_num
  have h28 : getOccupancy sevenOfTwentyFive = 28 + (2 : ℚ) ^ (-48 : ℤ) := by
    rw [getOccupancy_of_counts sevenOfTwentyFive 7 25 (by decide) (by decide) (by decide)]
    have e1 : roundDouble (((7 : ℕ) : ℚ) / ((25 : ℤ) : ℚ)) =
        5044031582654956 * (2 : ℚ) ^ (-54 : ℤ) := by
      rw [roundDouble_eq _ (-2) 5044031582654956 (by norm_num) (by norm_num)
        (by norm_num [abs_lt])]
      norm_num
    rw [e1, roundDouble_eq _ 4 7881299347898369 (by norm_num) (by norm_num)
      (by norm_num [abs_lt])]
    norm_num
  refine ⟨by decide, h50, ?_, ?_, by decide, h200, by decide, h28⟩
  · rw [h50]
    norm_num [a1BookedShowtime, sampleShowtime]
  · rw [h50]
    norm_num

/-- The occupancy of the room of 3 seats with 1 booked is the double
2345624805922133 × 2 ^ (-46), printed 33.33333333333333. -/
theorem getOccupancy_one_of_three :
    getOccupancy oneOfThree = 2345624805922133 * (2 : ℚ) ^ (-46 : ℤ) := by
  rw [getOccupancy_of_counts oneOfThree 1 3 (by decide) (by decide) (by decide)]
  have e1 : roundDouble (((1 : ℕ) : ℚ) / ((3 : ℤ) : ℚ)) =
      6004799503160661 * (2 : ℚ) ^ (-54 : ℤ) := by
    rw [roundDouble_eq _ (-2) 6004799503160661 (by norm_num) (by norm_num)
      (by norm_num [abs_lt])]
    norm_num
  rw [e1, roundDouble_eq _ 5 4691249611844266 (by norm_num) (by norm_num)
    (by norm_num [abs_lt])]
  norm_num

/-- C20, amended. `getOccupancy` returns a percentage, computed in doubles. For
every showtime with capacity > 0 (and below 2 ^ 53, so that the seat counts are
exact doubles) whose count `availableSeats + |bookedSeats|` equals the room's
capacity and whose `availableSeats` is not negative, `getOccupancy` returns the
double nearest to 100 times the double nearest to |bookedSeats| / capacity; this
value lies between 0 and 100 and differs from 100 × |bookedSeats| / capacity by
at most the fraction 2 ^ (-51) of it. -/
theorem getOccupancy_percentage (sh : Showtime) (hcap : 0 < sh.capacity)
    (hsafe : sh.capacity < 2 ^ 53)
    (hcount : sh.availableSeats + (sh.bookedSeats.length : Int) = sh.capacity)
    (havail : 0 ≤ sh.availableSeats) :
    getOccupancy sh =
      roundDouble (roundDouble ((sh.bookedSeats.length : ℚ) / (sh.capacity : ℚ)) * 100) ∧
    0 ≤ getOccupancy sh ∧ getOccupancy sh ≤ 100 ∧
    |getOccupancy sh - 100 * (sh.bookedSeats.length : ℚ) / (sh.capacity : ℚ)| ≤
      100 * (sh.bookedSeats.length : ℚ) / (sh.capacity : ℚ) * (2 : ℚ) ^ (-51 : ℤ) := by
  have hval := getOccupancy_of_counts sh sh.bookedSeats.length sh.capacity rfl hcount hcap
  have hcq : (0 : ℚ) < (sh.capacity : ℚ) := by exact_mod_cast hcap
  have hle : (sh.bookedSeats.length : ℚ) ≤ (sh.capacity : ℚ) := by
    have : (sh.bookedSeats.length : Int) ≤ sh.capacity := by omega
    exact_mod_cast this
  rw [hval]
  refine ⟨rfl, ?_, ?_, ?_⟩
  · exact roundDouble_nonneg _ (mul_nonneg (roundDouble_nonneg _ (by positivity)) (by norm_num))
  · -- the quotient is at most 1, its double is at most 1, the product at most 100
    by_cases hb0 : sh.bookedSeats.length = 0
    · simp [hb0, roundDouble]
    · have hbpos : (0 : ℚ) < (sh.bookedSeats.length : ℚ) := by
        exact_mod_cast Nat.pos_of_ne_zero hb0
      have hx : (0 : ℚ) < (sh.bookedSeats.length : ℚ) / (sh.capacity : ℚ) := div_pos hbpos hcq
      have hx1 : (sh.bookedSeats.length : ℚ) / (sh.capacity : ℚ) ≤ ((1 : ℕ) : ℚ) := by
        rw [Nat.cast_one, div_le_one hcq]
        exact hle
      have h1 := roundDouble_le_natCast _ 1 hx hx1 (by norm_num)
      have herr := roundDouble_error _ hx
      have hu : (2 : ℚ) ^ (-53 : ℤ) < 1 := by norm_num
      have hx1pos : 0 < roundDouble ((sh.bookedSeats.length : ℚ) / (sh.capacity : ℚ)) := by
        rw [abs_le] at herr
        nlinarith [herr.1]
      have hy : roundDouble ((sh.bookedSeats.length : ℚ) / (sh.capacity : ℚ)) * 100 ≤
          ((100 : ℕ) : ℚ) := by
        push_cast at h1 ⊢
        linarith
      have := roundDouble_le_natCast _ 100 (by positivity) hy (by norm_num)
      exact_mod_cast this
  · by_cases hb0 : sh.bookedSeats.length = 0
    · simp [hb0, roundDouble]
    · have hbpos : (0 : ℚ) < (sh.bookedSeats.length : ℚ) := by
        exact_mod_cast Nat.pos_of_ne_zero hb0
      have hx : (0 : ℚ) < (sh.bookedSeats.length : ℚ) / (sh.capacity : ℚ) := div_pos hbpos hcq
      have herr := roundDouble_error _ hx
      have hu : (2 : ℚ) ^ (-53 : ℤ) ≤ 1 := by norm_num
      have hu0 : (0 : ℚ) < (2 : ℚ) ^ (-53 : ℤ) := by positivity
      have h51 : (2 : ℚ) ^ (-51 : ℤ) = 4 * (2 : ℚ) ^ (-53 : ℤ) := by norm_num
      have hx1pos : 0 < roundDouble ((sh.bookedSeats.length : ℚ) / (sh.capacity : ℚ)) := by
        rw [abs_le] at herr
        have hlt : (2 : ℚ) ^ (-53 : ℤ) < 1 := by norm_num
        nlinarith [herr.1]
      have herr2 := roundDouble_error
        (roundDouble ((sh.bookedSeats.length : ℚ) / (sh.capacity : ℚ)) * 100) (by positivity)
      rw [h51]
      rw [abs_le] at herr herr2 ⊢
      have hdiv : 100 * (sh.bookedSeats.length : ℚ) / (sh.capacity : ℚ) =
          100 * ((sh.bookedSeats.length : ℚ) / (sh.capacity : ℚ)) := by ring
      rw [hdiv]
      generalize (sh.bookedSeats.length : ℚ) / (sh.capacity : ℚ) = x at hx herr herr2 hx1pos ⊢
      generalize roundDouble x = x1 at herr herr2 hx1pos ⊢
      generalize roundDouble (x1 * 100) = r at herr2 ⊢
      generalize (2 : ℚ) ^ (-53 : ℤ) = u at hu hu0 herr herr2 ⊢
      constructor <;> nlinarith [herr.1, herr.2, herr2.1, herr2.2, mul_pos hx hu0,
        mul_nonneg (mul_nonneg hx.le hu0.le) hu0.le, mul_le_mul_of_nonneg_left hu (mul_nonneg hx.le hu0.le)]

/-- C20, amended, at a concrete input: the room of 25 seats with 7 booked is
at the double nearest to 100 times the double nearest to 7/25, a value between
0 and 100. -/
theorem getOccupancy_percentage_witness :
    getOccupancy sevenOfTwentyFive =
      roundDouble (roundDouble ((sevenOfTwentyFive.bookedSeats.length : ℚ) /
        (sevenOfTwentyFive.capacity : ℚ)) * 100) ∧
    0 ≤ getOccupancy sevenOfTwentyFive ∧ getOccupancy sevenOfTwentyFive ≤ 100 ∧
    |getOccupancy sevenOfTwentyFive - 100 * (sevenOfTwentyFive.bookedSeats.length : ℚ) /
        (sevenOfTwentyFive.capacity : ℚ)| ≤
      100 * (sevenOfTwentyFive.bookedSeats.length : ℚ) / (sevenOfTwentyFive.capacity : ℚ) *
        (2 : ℚ) ^ (-51 : ℤ) :=
  getOccupancy_percentage sevenOfTwentyFive (by decide) (by decide) (by decide) (by decide)

/-! ## Loyalty tiers (C21) -/

/-- The tier assigned inline by `createBooking` and the one assigned by
`User.updateLoyaltyTier` are the same function of the balance. -/
theorem updateLoyaltyTier_eq_tierOf (u : User) :
    updateLoyaltyTier u = { u with loyaltyTier := tierOf u.loyaltyPoints } := by
  unfold updateLoyaltyTier tierOf
  split_ifs <;> rfl

/-- The thresholds of `getMyLoyaltyInfo` are the ones of the inline tier of
`createBooking`: a balance has tier `t` exactly when it lies between the threshold of
`t` and the threshold of the next tier. -/
theorem tierThresholds_tierOf (p : Int) (hp : 0 ≤ p) (t : Tier) :
    tierOf p = t ↔
      tierThresholds t ≤ p ∧ ∀ n, nextTier t = some n → p < tierThresholds n := by
  unfold tierOf
  cases t <;> simp [nextTier, tierThresholds] <;> split_ifs <;> simp <;> omega

/-- The tier of `LoyaltyService._getUserTier` is the one of `createBooking` exactly
outside the band from 1000 to 1999 points. -/
theorem getUserTier_eq_iff (p : Int) :
    getUserTier p = rewardTiers (tierOf p) ↔ ¬ (1000 ≤ p ∧ p < 2000) := by
  unfold getUserTier tierOf
  simp only [rewardTiers]
  split_ifs <;> simp <;> omega

/-- C21, evaluation at the failing input: with 1500 points the inline tier of
`createBooking`, `User.updateLoyaltyTier` and the thresholds of `getMyLoyaltyInfo`
give bronze (500 points short of silver), while `LoyaltyService._getUserTier`
returns the silver entry. -/
theorem loyalty_tier_disagreement :
    tierOf 1500 = Tier.bronze ∧
    (updateLoyaltyTier midCustomer).loyaltyTier = Tier.bronze ∧
    pointsToNextTier (updateLoyaltyTier midCustomer) = 500 ∧
    getUserTier 1500 = rewardTiers Tier.silver ∧
    rewardTiers Tier.silver ≠ rewardTiers Tier.bronze := by
  refine ⟨by decide, by decide, by decide, ?_, ?_⟩
  · simp [getUserTier, rewardTiers]
  · simp [rewardTiers]

/-! ## C22: the same request submitted again -/

/-- After an accepted `createBooking`, every key of the request is a key of the
showtime's `bookedSeats`, so the pre-check lists all of them. -/
theorem unavailableSeats_after_claim (booked : List BookedSeat) (price : PriceTable)
    (seats : List SeatReq) (i : Id) :
    unavailableSeats (booked ++ seatsToAdd (seatDetails price seats) i) seats =
      seats.map (fun s => seatKey s.row s.number) := by
  unfold unavailableSeats
  rw [List.filter_eq_self]
  intro k hk
  simp only [List.contains_iff_exists_mem_beq, beq_iff_eq, List.mem_map, List.mem_append,
    exists_exists_and_eq_and]
  obtain ⟨s, hs, rfl⟩ := List.mem_map.mp hk
  refine ⟨{ row := s.row, number := s.number, type := s.type, bookingId := i }, Or.inr ?_, rfl⟩
  unfold seatsToAdd seatDetails
  simp only [List.map_map, List.mem_map, Function.comp]
  exact ⟨s, hs, rfl⟩

/-- The requester is still stored, with the same role and cinema, after the
loyalty write of `createBooking`. -/
theorem findUser_saveLoyalty (users : List User) (p : Prepared) (i : Id) (su : User)
    (h : findUser users i = some su) :
    ∃ su1, findUser (saveLoyalty users p) i = some su1 ∧ su1.role = su.role ∧
      su1.cinemaId = su.cinemaId := by
  unfold saveLoyalty
  cases hc : p.customer with
  | walkIn ph nm => exact ⟨su, h, rfl, rfl⟩
  | registered u =>
    simp only
    unfold findUser at h ⊢
    rcases find?_updateUser (fun x => x.id == i) u.id
      (earnPointsWrite (u.loyaltyPoints - p.booking.loyaltyPointsUsed +
        p.booking.loyaltyPointsEarned))
      (fun x => rfl) users with ⟨hn, _⟩ | ⟨y, hy, hy2⟩
    · rw [hn] at h; simp at h
    · rw [h] at hy
      cases hy
      rcases hy2 with hy2 | ⟨_, hy2⟩
      · exact ⟨_, hy2, rfl, rfl⟩
      · exact ⟨_, hy2, rfl, rfl⟩

/-- The same request, submitted again after it was accepted, is rejected by the
pre-check with every requested seat listed, and nothing is written. -/
theorem createBooking_again (st : State) (req : BookingReq) (env env2 : Env)
    (h : (createBooking st req env).1.success = true) :
    createBooking (createBooking st req env).2 req env2 =
      (seatsAlreadyBooked (req.seats.map (fun s => seatKey s.row s.number)),
        (createBooking st req env).2) := by
  obtain ⟨p, sh, su, hp, h1, h2, h3, h4, h5, h6, h7, h8, h9, h10, hins, hno, heq⟩ :=
    createBooking_success st req env h
  rw [heq]
  obtain ⟨su1, hsu1, hrole, hcid⟩ := findUser_saveLoyalty st.users p req.user.id su h2
  have hfs : findShowtime (updateShowtime req.showtimeId
      (applyClaim (seatsToAdd (seatDetails sh.price req.seats) env.newId) req.seats.length)
      st.showtimes) req.showtimeId =
      some (applyClaim (seatsToAdd (seatDetails sh.price req.seats) env.newId)
        req.seats.length sh) := by
    rw [findShowtime_updateShowtime _ _ (applyClaim _ _) (fun _ => rfl), if_pos rfl, h1]
    rfl
  have hgate : staffGate
      { showtimes := updateShowtime req.showtimeId
          (applyClaim (seatsToAdd (seatDetails sh.price req.seats) env.newId) req.seats.length)
          st.showtimes,
        bookings := st.bookings ++ [p.booking],
        users := saveLoyalty st.users p,
        movies := st.movies, cinemas := st.cinemas }
      (applyClaim (seatsToAdd (seatDetails sh.price req.seats) env.newId) req.seats.length sh)
      su1 = none := by
    unfold staffGate at h3 ⊢
    rw [hrole, hcid]
    exact h3
  have hun : unavailableSeats
      (applyClaim (seatsToAdd (seatDetails sh.price req.seats) env.newId)
        req.seats.length sh).bookedSeats req.seats =
      req.seats.map (fun s => seatKey s.row s.number) :=
    unavailableSeats_after_claim sh.bookedSeats sh.price req.seats env.newId
  have hlen : (req.seats.map (fun s => seatKey s.row s.number)).length > 0 := by
    rw [List.length_map]
    exact List.length_pos.mpr h10
  unfold createBooking prepare
  simp only [hfs, hsu1, hgate, hun, if_pos hlen]

/-- No answer of the staff gate has status 201. -/
theorem staffGate_status (st : State) (sh : Showtime) (su : User) (r : Response)
    (h : staffGate st sh su = some r) : r.status ≠ 201 := by
  unfold staffGate at h
  split at h
  · split at h
    · simp only [Option.some.injEq] at h; subst h; decide
    · split at h
      · simp only [Option.some.injEq] at h; subst h; decide
      · split at h
        · simp only [Option.some.injEq] at h; subst h; decide
        · simp at h
  · simp at h

/-- No answer `prepare` gives by itself has status 201. -/
theorem prepare_error_status (st : State) (req : BookingReq) (env : Env) (r : Response)
    (h : prepare st req env = Except.error r) : r.status ≠ 201 := by
  unfold prepare at h
  split at h
  · simp only [Except.error.injEq] at h; subst h; decide
  · split at h
    · simp only [Except.error.injEq] at h; subst h; decide
    · split at h
      · rename_i r0 hg
        simp only [Except.error.injEq] at h; subst h
        exact staffGate_status _ _ _ _ hg
      · split at h
        · simp only [Except.error.injEq] at h; subst h; simp [seatsAlreadyBooked]
        · split at h
          · simp only [Except.error.injEq] at h; subst h; decide
          · split at h
            · simp only [Except.error.injEq] at h; subst h; decide
            · split at h
              · simp only [Except.error.injEq] at h; subst h; decide
              · split at h
                · simp only [Except.error.injEq] at h; subst h; decide
                · simp at h

/-- The answer 201 of `createBooking` is the success answer. -/
theorem createBooking_201_success (st : State) (req : BookingReq) (env : Env)
    (h : (createBooking st req env).1.status = 201) :
    (createBooking st req env).1.success = true := by
  unfold createBooking at h ⊢
  cases hp : prepare st req env with
  | error r =>
    simp only [hp] at h
    exact absurd h (prepare_error_status st req env r hp)
  | ok p =>
    simp only [hp] at h ⊢
    rcases commit_cases st req p with hc | hc | hc
    · rcases hc.2.2 with h1 | h1
      · rw [h1] at h; simp [seatConflict] at h
      · rw [h1] at h; simp at h
    · rw [hc.2.2] at h; simp [serverError] at h
    · rw [hc.2.2.2]; rfl

/-- The handler `confirmPayment` leaves showtimes, users, movies and cinemas as
they are, and every stored booking keeps its reservation data. -/
theorem confirmPayment_frame (st : State) (cfm : ConfirmReq) (penv : PaymentEnv) :
    (confirmPayment st cfm penv).2.showtimes = st.showtimes ∧
    (confirmPayment st cfm penv).2.users = st.users ∧
    (confirmPayment st cfm penv).2.movies = st.movies ∧
    (confirmPayment st cfm penv).2.cinemas = st.cinemas ∧
    ∀ i b, findBooking (confirmPayment st cfm penv).2.bookings i = some b →
      ∃ b0, findBooking st.bookings i = some b0 ∧ sameReservation b b0 := by
  have hsame : ∀ b : Booking, findBooking st.bookings b.id = some b →
      sameReservation b b := fun b _ => ⟨rfl, rfl, rfl, rfl, rfl, rfl⟩
  have hupd : ∀ (j : Id) (f : Booking → Booking), (∀ x, sameReservation (f x) x) →
      ∀ i b, findBooking (updateBooking j f st.bookings) i = some b →
        ∃ b0, findBooking st.bookings i = some b0 ∧ sameReservation b b0 := by
    intro j f hf i b hb
    rw [findBooking_updateBooking j i f (fun x => (hf x).1)] at hb
    by_cases hij : i = j
    · rw [if_pos hij] at hb
      cases h0 : findBooking st.bookings j with
      | none => rw [h0] at hb; simp at hb
      | some b0 =>
        rw [h0] at hb
        simp only [Option.map_some', Option.some.injEq] at hb
        subst hb
        exact ⟨b0, by rw [hij]; exact h0, hf b0⟩
    · rw [if_neg hij] at hb
      exact ⟨b, hb, ⟨rfl, rfl, rfl, rfl, rfl, rfl⟩⟩
  have hkeep : ∀ i b, findBooking st.bookings i = some b →
      ∃ b0, findBooking st.bookings i = some b0 ∧ sameReservation b b0 :=
    fun i b hb => ⟨b, hb, ⟨rfl, rfl, rfl, rfl, rfl, rfl⟩⟩
  have hpaid : ∀ x, sameReservation (markPaid x) x := fun _ => ⟨rfl, rfl, rfl, rfl, rfl, rfl⟩
  have hfailed : ∀ x, sameReservation (markFailed x) x :=
    fun _ => ⟨rfl, rfl, rfl, rfl, rfl, rfl⟩
  unfold confirmPayment
  cases hb : findBooking st.bookings cfm.bookingId with
  | none => exact ⟨rfl, rfl, rfl, rfl, hkeep⟩
  | some booking =>
    simp only
    split_ifs
    · exact ⟨rfl, rfl, rfl, rfl, hkeep⟩
    · exact ⟨rfl, rfl, rfl, rfl, hupd _ _ hpaid⟩
    · exact ⟨rfl, rfl, rfl, rfl, hkeep⟩
    · cases penv.intentStatus with
      | none => exact ⟨rfl, rfl, rfl, rfl, hkeep⟩
      | some status =>
        simp only
        split_ifs
        · exact ⟨rfl, rfl, rfl, rfl, hupd _ _ hpaid⟩
        · exact ⟨rfl, rfl, rfl, rfl, hupd _ _ hfailed⟩

/-- C22, the claim as stated, fails: `createBooking` reads no idempotency token.
The request for seat A1 is accepted with 201; the same request submitted again
ends differently, with the 400 of the pre-check; and after the booking has been
confirmed by `confirmPayment` and then cancelled, the same request is not
answered with the original outcome but accepted as a new booking, so that two
Booking records (ids 50 and 52) exist. -/
theorem createBooking_replay_creates_second_booking :
    (createBooking sampleState (sampleRequest [seatA1]) envFirst).1.status = 201 ∧
    (createBooking stateA1Booked (sampleRequest [seatA1]) envSecond).1.status = 400 ∧
    statusOf stateConfirmed 50 = some BookingStatus.confirmed ∧
    (cancelBooking stateConfirmed cancelFirst 0).1.status = 200 ∧
    (createBooking stateCancelled (sampleRequest [seatA1]) envThird).1.status = 201 ∧
    (createBooking stateCancelled (sampleRequest [seatA1]) envThird).2.bookings.map
      (fun b => (b.id, b.status)) =
      [(50, BookingStatus.cancelled), (52, BookingStatus.pending)] := by
  decide

/-- C22, amended. `createBooking` has no idempotency token. An accepted request
adds exactly one Booking record; the same request submitted again while that
booking holds its seats is rejected by the pre-check (`Some seats are already
booked`, listing every requested seat) and writes nothing, so still exactly one
record was added; and when the booking has been cancelled, directly or after a
`confirmPayment`, the same request (with an ObjectId and a booking code not in
use) is accepted again with 201 and stores a new Booking record. -/
theorem createBooking_resubmission (st : State) (req : BookingReq) (env : Env)
    (h : (createBooking st req env).1.success = true) :
    (∃ b, b.id = env.newId ∧ (createBooking st req env).2.bookings = st.bookings ++ [b]) ∧
    (∀ env2 : Env,
      createBooking (createBooking st req env).2 req env2 =
        (seatsAlreadyBooked (req.seats.map (fun s => seatKey s.row s.number)),
          (createBooking st req env).2)) ∧
    (∀ (mid : State) (creq : CancelReq) (now : Int) (env3 : Env),
      (mid = (createBooking st req env).2 ∨
        ∃ cfm penv, mid = (confirmPayment (createBooking st req env).2 cfm penv).2) →
      creq.bookingId = env.newId →
      (cancelBooking mid creq now).1.success = true →
      (∀ sh ∈ st.showtimes, ∀ e ∈ sh.bookedSeats, e.bookingId ≠ env.newId) →
      (∀ x ∈ (cancelBooking mid creq now).2.bookings,
        x.id ≠ env3.newId ∧
        x.bookingCode ≠ "BK" ++ toString env3.now ++ toString env3.rand) →
      (createBooking (cancelBooking mid creq now).2 req env3).1.status = 201 ∧
      ∃ b2, b2.id = env3.newId ∧
        (createBooking (cancelBooking mid creq now).2 req env3).2.bookings =
          (cancelBooking mid creq now).2.bookings ++ [b2]) := by
  refine ⟨?_, fun env2 => createBooking_again st req env env2 h, ?_⟩
  · obtain ⟨p, sh, su, _, _, _, _, _, _, _, _, _, h9, _, _, _, heq⟩ :=
      createBooking_success st req env h
    exact ⟨p.booking, by rw [h9]; rfl, by rw [heq]⟩
  · intro mid creq now env3 hmid hid hcancel hfresh hfresh3
    have hstored : ∀ b b0, findBooking (createBooking st req env).2.bookings env.newId = some b →
        (createBooking st req env).1.booking = some b0 → sameReservation b b0 := by
      intro b b0 hb hb0
      obtain ⟨_, hfind⟩ := createBooking_stores_pending st req env b0 h hb0
      rw [hfind] at hb
      cases hb
      exact ⟨rfl, rfl, rfl, rfl, rfl, rfl⟩
    have hframe : mid.showtimes = (createBooking st req env).2.showtimes ∧
        mid.users = (createBooking st req env).2.users ∧
        mid.movies = (createBooking st req env).2.movies ∧
        mid.cinemas = (createBooking st req env).2.cinemas ∧
        ∀ b b0, findBooking mid.bookings env.newId = some b →
          (createBooking st req env).1.booking = some b0 → sameReservation b b0 := by
      rcases hmid with rfl | ⟨cfm, penv, rfl⟩
      · exact ⟨rfl, rfl, rfl, rfl, hstored⟩
      · obtain ⟨f1, f2, f3, f4, f5⟩ := confirmPayment_frame (createBooking st req env).2 cfm penv
        refine ⟨f1, f2, f3, f4, ?_⟩
        intro b b0 hb hb0
        obtain ⟨b1, hb1, hs⟩ := f5 _ _ hb
        have hs1 := hstored b1 b0 hb1 hb0
        exact ⟨hs.1.trans hs1.1, hs.2.1.trans hs1.2.1, hs.2.2.1.trans hs1.2.2.1,
          hs.2.2.2.1.trans hs1.2.2.2.1, hs.2.2.2.2.1.trans hs1.2.2.2.2.1,
          hs.2.2.2.2.2.trans hs1.2.2.2.2.2⟩
    obtain ⟨f1, f2, f3, f4, f5⟩ := hframe
    have h201 := (create_settle_cancel_create st req env mid creq now h hid f1 f2 f3 f4 f5
      hcancel hfresh).2 env3 hfresh3
    refine ⟨h201, ?_⟩
    have hsucc := createBooking_201_success _ req env3 h201
    obtain ⟨p, sh, su, _, _, _, _, _, _, _, _, _, h9, _, _, _, heq⟩ :=
      createBooking_success _ req env3 hsucc
    exact ⟨p.booking, by rw [h9]; rfl, by rw [heq]⟩

/-- C22 at a concrete input: the sample customer books A1; the same request is
then rejected with A1 listed and nothing written; after the payment has been
confirmed and the booking cancelled it is accepted again as a new booking. -/
theorem createBooking_resubmission_witness :
    (createBooking sampleState (sampleRequest [seatA1]) envFirst).1.success = true ∧
    createBooking (createBooking sampleState (sampleRequest [seatA1]) envFirst).2
        (sampleRequest [seatA1]) envSecond =
      (seatsAlreadyBooked ["A1"],
        (createBooking sampleState (sampleRequest [seatA1]) envFirst).2) ∧
    (createBooking (cancelBooking stateConfirmed cancelFirst 0).2
      (sampleRequest [seatA1]) envThird).1.status = 201 :=
  ⟨by decide,
   (createBooking_resubmission sampleState (sampleRequest [seatA1]) envFirst
      (by decide)).2.1 envSecond,
   ((createBooking_resubmission sampleState (sampleRequest [seatA1]) envFirst
      (by decide)).2.2 stateConfirmed cancelFirst 0 envThird
      (Or.inr ⟨confirmFirst, devMock, rfl⟩) (by decide) (by decide) (by decide)
      (by decide)).1⟩

/-! ## The step model and the handlers -/

/-- A `createBooking` request that runs alone through its four operations is
the handler `createBooking`. -/
theorem createSteps_eq_createBooking (st : State) (req : BookingReq) (env : Env) :
    runSchedule [0, 0, 0, 0] st [Proc.create req env CreatePc.start] =
      ((createBooking st req env).2,
        [Proc.create req env (CreatePc.done (createBooking st req env).1)]) := by
  simp only [runSchedule, stepAt, Proc.step]
  unfold createBooking
  cases hp : prepare st req env with
  | error r => simp [createStep, hp]
  | ok p =>
    simp only [createStep, hp]
    unfold commit
    by_cases hins : bookingInsertable st.bookings p.booking = true
    · simp only [hins, Bool.not_true, Bool.false_eq_true, if_false, createStep]
      by_cases hempty : (seatsToAdd p.booking.seats p.booking.id).isEmpty = true
      · simp [hempty, createStep]
      · simp only [hempty, Bool.false_eq_true, if_false]
        by_cases hcl : (claimSeats req.showtimeId (seatsToAdd p.booking.seats p.booking.id)
            req.seats.length st.showtimes).2 = true
        · simp [hcl, createStep]
        · simp [hcl, createStep]
    · simp [hins, createStep]

/-- A `cancelBooking` request that runs alone through its six operations is
the handler `cancelBooking`. -/
theorem cancelSteps_eq_cancelBooking (st : State) (req : CancelReq) (now : Int) :
    runSchedule [0, 0, 0, 0, 0, 0] st [Proc.cancel req now CancelPc.start] =
      ((cancelBooking st req now).2,
        [Proc.cancel req now (CancelPc.done (cancelBooking st req now).1)]) := by
  have hdone : ∀ (s : State) (r : Response),
      cancelStep req now s (CancelPc.done r) = (s, CancelPc.done r) := fun _ _ => rfl
  simp only [runSchedule, stepAt, Proc.step]
  unfold cancelBooking
  cases hb : findBooking st.bookings req.bookingId with
  | none =>
    have e1 : cancelStep req now st CancelPc.start =
        (st, CancelPc.done (reject 404 "Booking not found")) := by
      simp only [cancelStep, hb]
    simp only [e1, hdone]
  | some b =>
    cases ho : b.userId with
    | none =>
      have e1 : cancelStep req now st CancelPc.start =
          (st, CancelPc.done (serverError "TypeError: booking.userId is undefined")) := by
        simp only [cancelStep, hb, ho]
      simp only [e1, hdone, ho]
    | some owner =>
      simp only [ho]
      by_cases hauth : owner ≠ req.user.id ∧
          ¬ (req.user.role = Role.admin ∨ req.user.role = Role.staff)
      · have e1 : cancelStep req now st CancelPc.start =
            (st, CancelPc.done (reject 403 "Not authorized to cancel this booking")) := by
          simp only [cancelStep, hb, ho]
          rw [if_pos hauth]
        simp only [e1, hdone]
        rw [if_pos hauth]
      · have e1 : cancelStep req now st CancelPc.start = (st, CancelPc.bookingRead b owner) := by
          simp only [cancelStep, hb, ho]
          rw [if_neg hauth]
        simp only [e1]
        rw [if_neg hauth]
        cases hs : findShowtime st.showtimes b.showtimeId with
        | none =>
          have e2 : cancelStep req now st (CancelPc.bookingRead b owner) =
              (st, CancelPc.done (serverError "TypeError: showtime is null")) := by
            simp only [cancelStep, hs]
          simp only [e2, hdone]
        | some sh =>
          by_cases hcut : insideCutoff sh.startTime now = true
          · have e2 : cancelStep req now st (CancelPc.bookingRead b owner) =
                (st, CancelPc.done
                  (reject 400 "Cannot cancel booking less than 2 hours before showtime")) := by
              simp only [cancelStep, hs, hcut, if_true]
            simp only [e2, hdone, hcut, if_true]
          · have e2 : cancelStep req now st (CancelPc.bookingRead b owner) =
                (st, CancelPc.showtimeRead b owner sh) := by
              simp only [cancelStep, hs, hcut, Bool.false_eq_true, if_false]
            have e3 : ∀ s : State, cancelStep req now s (CancelPc.showtimeRead b owner sh) =
                ({ s with
                    showtimes := updateShowtime sh.id (releaseWrite sh b) s.showtimes },
                  CancelPc.released b owner) := fun _ => rfl
            simp only [e2, e3, hcut, Bool.false_eq_true, if_false]
            cases hu : findUser st.users owner with
            | none =>
              have e4 : ∀ s : State, s.users = st.users →
                  cancelStep req now s (CancelPc.released b owner) =
                    (s, CancelPc.done (serverError "TypeError: user is null")) := by
                intro s hs'
                simp only [cancelStep, hs', hu]
              simp only [hdone,
                (e4 { st with
                showtimes := updateShowtime sh.id (releaseWrite sh b) st.showtimes } rfl)]
            | some u =>
              have e4 : ∀ s : State, s.users = st.users →
                  cancelStep req now s (CancelPc.released b owner) =
                    (s, CancelPc.userRead b u) := by
                intro s hs'
                simp only [cancelStep, hs', hu]
              have e5 : ∀ s : State, cancelStep req now s (CancelPc.userRead b u) =
                  ({ s with users := updateUser u.id (refundPointsWrite u b) s.users },
                    CancelPc.refunded b) := fun _ => rfl
              have e6 : ∀ s : State, cancelStep req now s (CancelPc.refunded b) =
                  ({ s with
                      bookings := updateBooking b.id (cancelWrite req.reason) s.bookings },
                    CancelPc.done (accept 200 "Booking cancelled successfully"
                      (cancelWrite req.reason b))) := fun _ => rfl
              simp only [e5, e6,
                (e4 { st with
                showtimes := updateShowtime sh.id (releaseWrite sh b) st.showtimes } rfl)]
/-! ## C23, C24: requests that interleave -/

/-- For seat A1 of the sample showtime, every interleaving of the operations of
two `createBooking` requests ends with one 201 and one seat rejection, seat A1
held once and one Booking record. -/
theorem race_single_letter_row_all_schedules :
    ∀ s ∈ interleavings 4 4,
      oneWinner [seatA1] (runSchedule s raceState (twoCreates [seatA1])) = true ∧
      (runSchedule s raceState (twoCreates [seatA1])).1.showtimes.map
        (fun sh => (seatPairs sh.bookedSeats, sh.availableSeats)) = [([("A", 1)], 1)] ∧
      (runSchedule s raceState (twoCreates [seatA1])).1.bookings.length = 1 := by
  decide

/-- C23. Evaluation of two concurrent `createBooking` requests for the same
single seat, seat 1 of row AB, which is free. Each request alone is accepted.
When both do their reads before either writes, the conditional update of the
second one is not refused: its filter looks for row `A` and number
`parseInt("B1")`, which no stored seat has. Both requests end with 201, none is
rejected as a seat conflict, two Booking records are stored and the seat is in
`bookedSeats` twice. -/
theorem race_two_letter_row_sold_twice :
    readsFirst ∈ interleavings 4 4 ∧
    (createBooking raceState (sampleRequest [seatAB1]) envFirst).1.status = 201 ∧
    (createBooking raceState (otherRequest [seatAB1]) envSecond).1.status = 201 ∧
    (answers (runSchedule readsFirst raceState (twoCreates [seatAB1]))).map
      (fun r => r.map (fun x => x.status)) = [some 201, some 201] ∧
    oneWinner [seatAB1] (runSchedule readsFirst raceState (twoCreates [seatAB1])) = false ∧
    (runSchedule readsFirst raceState (twoCreates [seatAB1])).1.showtimes.map
      (fun sh => (seatPairs sh.bookedSeats, sh.availableSeats)) =
      [([("AB", 1), ("AB", 1)], 0)] ∧
    (runSchedule readsFirst raceState (twoCreates [seatAB1])).1.bookings.map
      (fun b => (b.id, b.userId)) = [(50, some 1), (51, some 4)] := by
  decide

/-- C24. Evaluation of a `cancelBooking` interleaved with a `createBooking` on
the same showtime. Booking 50 holds seat A1. The cancellation reads the
showtime, then the second customer books seat A2 (answer 201, booking 51
stored), then the cancellation saves its copy: `bookedSeats` is the filtered
list of the copy, which never held A2. After both have finished the claimed
seat A2 is not in `bookedSeats`, and a further request for A2 is accepted. When
the two requests run one after the other, A2 stays booked. -/
theorem cancelBooking_stale_save_drops_claimed_seat :
    staleSave ∈ interleavings 6 4 ∧
    (answers (runSchedule staleSave raceA1Booked cancelAndCreate)).map
      (fun r => r.map (fun x => x.status)) = [some 200, some 201] ∧
    (runSchedule staleSave raceA1Booked cancelAndCreate).1.bookings.map
      (fun b => (b.id, b.status, b.seats.map (fun s => (s.row, s.number)))) =
      [(50, BookingStatus.cancelled, [("A", 1)]), (51, BookingStatus.pending, [("A", 2)])] ∧
    (runSchedule staleSave raceA1Booked cancelAndCreate).1.showtimes.map
      (fun sh => (seatPairs sh.bookedSeats, sh.availableSeats, sh.capacity)) = [([], 2, 2)] ∧
    (createBooking (runSchedule staleSave raceA1Booked cancelAndCreate).1
      (sampleRequest [seatA2]) envThird).1.status = 201 ∧
    (runSchedule [0, 0, 0, 0, 0, 0, 1, 1, 1, 1] raceA1Booked cancelAndCreate).1.showtimes.map
      (fun sh => (seatPairs sh.bookedSeats, sh.availableSeats, sh.capacity)) =
      [([("A", 2)], 1, 2)] := by
  decide

/-! ## C25: seat bookkeeping -/

/-- After rewriting the showtime with id `i`, every showtime is an old one or
the rewritten one. -/
theorem mem_updateShowtime_cases (i : Id) (f : Showtime → Showtime) (l : List Showtime)
    (sh x : Showtime) (hfind : findShowtime l i = some sh) (hx : x ∈ updateShowtime i f l) :
    x ∈ l ∨ x = f sh := by
  induction l with
  | nil => simp [findShowtime] at hfind
  | cons s rest ih =>
    unfold updateShowtime at hx
    by_cases hs : s.id = i
    · have : s = sh := by simpa [findShowtime, List.find?_cons, hs] using hfind
      subst this
      rw [if_pos hs] at hx
      rcases List.mem_cons.mp hx with h | h
      · exact Or.inr h
      · exact Or.inl (List.mem_cons_of_mem _ h)
    · have hrest : findShowtime rest i = some sh := by
        simpa [findShowtime, List.find?_cons, hs] using hfind
      rw [if_neg hs] at hx
      rcases List.mem_cons.mp hx with h | h
      · exact Or.inl (by rw [h]; exact List.mem_cons_self _ _)
      · rcases ih hrest h with h1 | h1
        · exact Or.inl (List.mem_cons_of_mem _ h1)
        · exact Or.inr h1

/-- The entries of a booking and the others add up to `bookedSeats`. -/
theorem releaseSeats_length (booked : List BookedSeat) (i : Id) :
    (releaseSeats booked i).length + (booked.filter (fun s => s.bookingId == i)).length =
      booked.length := by
  unfold releaseSeats
  induction booked with
  | nil => rfl
  | cons b rest ih =>
    by_cases hb : b.bookingId = i
    · simp [List.filter_cons, hb] at ih ⊢
      omega
    · simp [List.filter_cons, hb] at ih ⊢
      omega

/-- The showtime documents of `createShowtime` keep the books. -/
theorem createShowtimeDoc_bookkeeping (body : ShowtimeBody) (screens : List Screen)
    (duration : Int) (i : Id) :
    bookkeeping (storeShowtime i (createShowtimeDoc body screens duration)) := by
  have hcap : (roomInfoOrDefault (roomAndCapacity body screens).1).capacity =
      (roomAndCapacity body screens).2 := by
    unfold roomAndCapacity
    cases body.room with
    | none =>
      cases body.screenId with
      | none => rfl
      | some j =>
        simp only
        cases screens.find? (fun s => s.id == j) <;> rfl
    | some room =>
      simp only
      by_cases hn : truthyStr room.name = true
      · simp only [hn, if_true]
        rfl
      · simp only [hn, Bool.false_eq_true, if_false]
        cases body.screenId with
        | none => rfl
        | some j =>
          simp only
          cases screens.find? (fun s => s.id == j) <;> rfl
  unfold bookkeeping storeShowtime createShowtimeDoc
  simp only [List.length_nil, Nat.cast_zero, add_zero]
  exact hcap.symm

/-- The showtime objects of the generator keep the books. -/
theorem cinemaDocs_bookkeeping (cinemaId : Id) (screens : List Screen) (pick : Nat → Id × Int)
    (tomorrow : Int) (pricing : Int → String → PriceTable) (i : Id) :
    ∀ d ∈ cinemaDocs cinemaId screens pick tomorrow pricing, bookkeeping (storeShowtime i d) := by
  intro d hd
  unfold cinemaDocs at hd
  simp only [List.mem_flatMap, List.mem_map] at hd
  obtain ⟨kr, _, slot, _, rfl⟩ := hd
  unfold bookkeeping storeShowtime generatedDoc
  simp

/-- The seat claim of `createBooking` keeps the books of every showtime. -/
theorem createBooking_bookkeeping (st : State) (req : BookingReq) (env : Env)
    (h : ∀ sh ∈ st.showtimes, bookkeeping sh) :
    ∀ sh ∈ (createBooking st req env).2.showtimes, bookkeeping sh := by
  rcases hs : (createBooking st req env).1.success with _ | _
  · rw [createBooking_failure_showtimes st req env hs]
    exact h
  · obtain ⟨p, sh, su, _, h1, _, _, _, _, _, _, _, _, _, _, _, heq⟩ :=
      createBooking_success st req env hs
    rw [heq]
    intro x hx
    rcases mem_updateShowtime_cases _ _ _ sh x h1 hx with hx | hx
    · exact h x hx
    · subst hx
      have hsh := h sh (findShowtime_mem _ _ _ h1)
      unfold bookkeeping at hsh ⊢
      unfold applyClaim
      simp only [List.length_append, seatsToAdd, seatDetails, List.length_map, Nat.cast_add]
      omega

/-- The release of `cancelBooking` keeps the books of every showtime when the
showtime holds as many entries of the booking as the booking has seats. -/
theorem cancelBooking_bookkeeping (st : State) (creq : CancelReq) (now : Int)
    (h : ∀ sh ∈ st.showtimes, bookkeeping sh)
    (hheld : ∀ b sh, findBooking st.bookings creq.bookingId = some b →
      findShowtime st.showtimes b.showtimeId = some sh → heldCount sh b.id = b.seats.length) :
    ∀ sh ∈ (cancelBooking st creq now).2.showtimes, bookkeeping sh := by
  have key : ∀ b sh, findBooking st.bookings creq.bookingId = some b →
      findShowtime st.showtimes b.showtimeId = some sh →
      ∀ x ∈ updateShowtime sh.id (releaseWrite sh b) st.showtimes, bookkeeping x := by
    intro b sh hb hsh x hx
    have hid : sh.id = b.showtimeId := findShowtime_id _ _ _ hsh
    rw [hid] at hx
    rcases mem_updateShowtime_cases _ _ _ sh x hsh hx with hx | hx
    · exact h x hx
    · subst hx
      have hbk := h sh (findShowtime_mem _ _ _ hsh)
      have hcount := hheld b sh hb hsh
      have hlen := releaseSeats_length sh.bookedSeats b.id
      unfold bookkeeping releaseWrite heldCount at *
      simp only
      omega
  rcases cancelBooking_outcomes st creq now with ⟨_, hst⟩ | ⟨b, sh, hb, hsh, heq⟩ |
    ⟨b, sh, user, hb, hsh, heq⟩
  · rw [hst]; exact h
  · rw [heq]; exact key b sh hb hsh
  · rw [heq]; exact key b sh hb hsh

/-- C25, the claim as stated, fails. The sold-out sample room (capacity 1, one
seat booked, `availableSeats` 0) keeps the books; `createBooking` accepts a
second seat, the books are still kept and `availableSeats` is -1, so kept
books do not make `availableSeats` non-negative. And the books are not
preserved by cancelling a booking a second time: after booking 50 has been
cancelled twice, `availableSeats` + |`bookedSeats`| is 3 in a room of 2. -/
theorem bookkeeping_allows_negative_availableSeats :
    (∀ sh ∈ fullState.showtimes, bookkeeping sh) ∧
    (createBooking fullState (sampleRequest [seatA2]) envFirst).1.status = 201 ∧
    (∀ sh ∈ (createBooking fullState (sampleRequest [seatA2]) envFirst).2.showtimes,
      bookkeeping sh ∧ sh.availableSeats = -1 ∧ sh.capacity = 1) ∧
    (∀ sh ∈ stateA1Booked.showtimes, bookkeeping sh) ∧
    (∀ sh ∈ (cancelBooking (cancelBooking stateA1Booked cancelFirst 0).2 cancelFirst 0).2.showtimes,
      ¬ bookkeeping sh ∧ sh.availableSeats + (sh.bookedSeats.length : Int) = 3 ∧
        sh.capacity = 2) := by
  decide

/-- C25, amended. `availableSeats` + |`bookedSeats`| = room capacity holds for
every showtime produced by `createShowtime` and by the showtime generator, and
is preserved by every `createBooking`, and by every `cancelBooking` of a
booking that `bookedSeats` holds with as many entries as the booking has seats;
`availableSeats` is then non-negative exactly when |`bookedSeats`| does not
exceed the capacity, which `createBooking` does not check. -/
theorem seat_bookkeeping :
    (∀ (body : ShowtimeBody) (screens : List Screen) (duration : Int) (i : Id),
      bookkeeping (storeShowtime i (createShowtimeDoc body screens duration))) ∧
    (∀ (cinemaId : Id) (screens : List Screen) (pick : Nat → Id × Int) (tomorrow : Int)
      (pricing : Int → String → PriceTable) (i : Id),
      ∀ d ∈ cinemaDocs cinemaId screens pick tomorrow pricing,
        bookkeeping (storeShowtime i d)) ∧
    (∀ (st : State) (req : BookingReq) (env : Env),
      (∀ sh ∈ st.showtimes, bookkeeping sh) →
      ∀ sh ∈ (createBooking st req env).2.showtimes, bookkeeping sh) ∧
    (∀ (st : State) (creq : CancelReq) (now : Int),
      (∀ sh ∈ st.showtimes, bookkeeping sh) →
      (∀ b sh, findBooking st.bookings creq.bookingId = some b →
        findShowtime st.showtimes b.showtimeId = some sh →
        heldCount sh b.id = b.seats.length) →
      ∀ sh ∈ (cancelBooking st creq now).2.showtimes, bookkeeping sh) ∧
    (∀ sh : Showtime, bookkeeping sh →
      (0 ≤ sh.availableSeats ↔ (sh.bookedSeats.length : Int) ≤ sh.capacity)) := by
  refine ⟨createShowtimeDoc_bookkeeping, cinemaDocs_bookkeeping, createBooking_bookkeeping,
    cancelBooking_bookkeeping, ?_⟩
  intro sh hsh
  unfold bookkeeping at hsh
  omega

/-- C25 at concrete inputs: booking seat A1 of the sample showtime keeps the
books, cancelling that booking keeps them, and the sample showtime, whose books
are kept, has a non-negative `availableSeats`. -/
theorem seat_bookkeeping_witness :
    (∀ sh ∈ (createBooking sampleState (sampleRequest [seatA1]) envFirst).2.showtimes,
      bookkeeping sh) ∧
    (∀ sh ∈ (cancelBooking stateA1Booked cancelFirst 0).2.showtimes, bookkeeping sh) ∧
    (0 ≤ sampleShowtime.availableSeats ↔
      (sampleShowtime.bookedSeats.length : Int) ≤ sampleShowtime.capacity) :=
  ⟨seat_bookkeeping.2.2.1 sampleState (sampleRequest [seatA1]) envFirst (by decide),
   seat_bookkeeping.2.2.2.1 stateA1Booked cancelFirst 0 (by decide)
    (by
      intro b sh hb hsh
      have h1 : findBooking stateA1Booked.bookings cancelFirst.bookingId = some firstBooking := by
        decide
      rw [h1] at hb
      cases hb
      have h2 : findShowtime stateA1Booked.showtimes firstBooking.showtimeId =
          some a1BookedShowtime := by decide
      rw [h2] at hsh
      cases hsh
      decide),
   seat_bookkeeping.2.2.2.2 sampleShowtime (by decide)⟩

/-! ## Decoding a seat key -/

/-- The character of a decimal digit is a decimal digit with that value. -/
theorem digitValue_digitChar (k : Nat) (hk : k < 10) :
    digitValue 10 (Nat.digitChar k) = some k := by
  interval_cases k <;> decide

/-- The character of a decimal digit is no white space. -/
theorem isStrWhiteSpace_digitChar (k : Nat) (hk : k < 10) :
    isStrWhiteSpace (Nat.digitChar k) = false := by
  interval_cases k <;> decide

/-- A list of decimal digit characters is read back digit by digit. -/
theorem takeDigits_digitChars (ks : List Nat) (h : ∀ k ∈ ks, k < 10) :
    takeDigits 10 (ks.map Nat.digitChar) = ks := by
  induction ks with
  | nil => rfl
  | cons k rest ih =>
    simp only [List.map_cons, takeDigits, digitValue_digitChar k (h k (List.mem_cons_self _ _))]
    rw [ih (fun x hx => h x (List.mem_cons_of_mem _ hx))]

/-- The value of a digit list with one more digit at the end. -/
theorem digitsValue_append (ks : List Nat) (k : Nat) :
    digitsValue 10 (ks ++ [k]) = digitsValue 10 ks * 10 + k := by
  unfold digitsValue
  rw [List.foldl_append]
  rfl

/-- The digits `Nat.toDigitsCore` puts in front of its accumulator. -/
theorem toDigitsCore_digits (fuel : Nat) :
    ∀ (n : Nat) (ds : List Char), n < fuel →
      ∃ ks : List Nat, ks ≠ [] ∧ (∀ k ∈ ks, k < 10) ∧ digitsValue 10 ks = n ∧
        Nat.toDigitsCore 10 fuel n ds = ks.map Nat.digitChar ++ ds := by
  induction fuel with
  | zero => intro n ds h; omega
  | succ fuel ih =>
    intro n ds h
    by_cases h0 : n / 10 = 0
    · refine ⟨[n % 10], by simp, ?_, ?_, ?_⟩
      · intro k hk
        simp only [List.mem_singleton] at hk
        omega
      · simp only [digitsValue, List.foldl_cons, List.foldl_nil]
        omega
      · simp [Nat.toDigitsCore, h0]
    · obtain ⟨ks, hne, hlt, hval, heq⟩ := ih (n / 10) (Nat.digitChar (n % 10) :: ds) (by omega)
      refine ⟨ks ++ [n % 10], by simp, ?_, ?_, ?_⟩
      · intro k hk
        rcases List.mem_append.mp hk with hk | hk
        · exact hlt k hk
        · simp only [List.mem_singleton] at hk
          omega
      · rw [digitsValue_append, hval]
        omega
      · simp [Nat.toDigitsCore, h0, heq]

/-- The decimal numeral of a natural number, as digits. -/
theorem toString_digits (n : Nat) :
    ∃ ks : List Nat, ks ≠ [] ∧ (∀ k ∈ ks, k < 10) ∧ digitsValue 10 ks = n ∧
      (toString n).data = ks.map Nat.digitChar := by
  obtain ⟨ks, hne, hlt, hval, heq⟩ := toDigitsCore_digits (n + 1) n [] (by omega)
  refine ⟨ks, hne, hlt, hval, ?_⟩
  have : (toString n).data = Nat.toDigitsCore 10 (n + 1) n [] := rfl
  rw [this, heq, List.append_nil]

/-- The global `parseInt` reads a non-empty string of decimal digits as its value. -/
theorem parseInt_digitChars (ks : List Nat) (hne : ks ≠ []) (h : ∀ k ∈ ks, k < 10) :
    parseInt (String.mk (ks.map Nat.digitChar)) = some (digitsValue 10 ks : Int) := by
  cases ks with
  | nil => exact absurd rfl hne
  | cons k rest =>
    have hk : k < 10 := h k (List.mem_cons_self _ _)
    have hrest : ∀ x ∈ rest, x < 10 := fun x hx => h x (List.mem_cons_of_mem _ hx)
    have htake := takeDigits_digitChars (k :: rest) h
    have hws := isStrWhiteSpace_digitChar k hk
    unfold parseInt
    simp only [List.map_cons, List.dropWhile_cons, hws, Bool.false_eq_true, if_false]
    simp only [List.map_cons] at htake
    interval_cases k
    · cases rest with
      | nil => decide
      | cons k2 rest2 =>
        have hk2 : k2 < 10 := hrest k2 (List.mem_cons_self _ _)
        simp only [List.map_cons] at htake ⊢
        interval_cases k2 <;> simp [Nat.digitChar] at htake ⊢ <;> rw [htake]
    all_goals (simp [Nat.digitChar] at htake ⊢; rw [htake])

/-- The global `parseInt` reads the decimal numeral of a natural number back. -/
theorem parseInt_toString (n : Nat) : parseInt (toString n) = some (n : Int) := by
  obtain ⟨ks, hne, hlt, hval, hdata⟩ := toString_digits n
  have h := parseInt_digitChars ks hne hlt
  rw [← hdata, hval] at h
  exact h

/-- For a row label of one character, the update filter reads the requested row
and number out of the seat key. -/
theorem decodeKey_single_letter_row (row : String) (number : Nat) (h : row.length = 1) :
    decodeKey (seatKey row number) = (row, some (number : Int)) := by
  obtain ⟨cs⟩ := row
  have hcs : ∃ c, cs = [c] := by
    cases cs with
    | nil => simp [String.length] at h
    | cons c rest =>
      cases rest with
      | nil => exact ⟨c, rfl⟩
      | cons d rest2 => simp [String.length] at h
  obtain ⟨c, rfl⟩ := hcs
  have hdata : (seatKey (String.mk [c]) number).data = c :: (toString number).data := rfl
  unfold decodeKey charAt0 substring1
  rw [hdata]
  simp only [List.tail_cons]
  rw [show String.mk (toString number).data = toString number from rfl, parseInt_toString]

/-- Seats with one-character row labels have the same key only if they are the
same seat. -/
theorem seatKey_injective_single_letter (r1 r2 : String) (n1 n2 : Nat)
    (h1 : r1.length = 1) (h2 : r2.length = 1) (h : seatKey r1 n1 = seatKey r2 n2) :
    r1 = r2 ∧ n1 = n2 := by
  have e1 := decodeKey_single_letter_row r1 n1 h1
  have e2 := decodeKey_single_letter_row r2 n2 h2
  rw [h, e2] at e1
  simp only [Prod.mk.injEq, Option.some.injEq, Nat.cast_inj] at e1
  exact ⟨e1.1.symm, e1.2.symm⟩

/-- When every row label, stored or requested, has one character, the two
conflict checks of `createBooking` agree: the update filter matches a booked
seat exactly when the pre-check finds an unavailable seat. -/
theorem conflict_checks_agree_single_letter_rows (booked : List BookedSeat) (price : PriceTable)
    (seats : List SeatReq) (i : Id)
    (hb : ∀ b ∈ booked, b.row.length = 1) (hs : ∀ s ∈ seats, s.row.length = 1) :
    elemMatchConflict booked (filterIdentifiers price seats i) = true ↔
      unavailableSeats booked seats ≠ [] := by
  have hids : filterIdentifiers price seats i = seats.map (fun s => seatKey s.row s.number) := by
    unfold filterIdentifiers seatsToAdd seatDetails
    simp [List.map_map, Function.comp]
  rw [hids]
  unfold elemMatchConflict unavailableSeats
  rw [Ne, List.filter_eq_nil_iff]
  simp only [List.any_eq_true, List.mem_map, exists_exists_and_eq_and, not_forall,
    List.contains_iff_exists_mem_beq, beq_iff_eq, forall_exists_index, and_imp,
    forall_apply_eq_imp_iff₂, Classical.not_imp, not_not, exists_prop]
  constructor
  · rintro ⟨b, hbm, s, hsm, hmatch⟩
    refine ⟨s, hsm, b, hbm, ?_⟩
    have hd := decodeKey_single_letter_row s.row s.number (hs s hsm)
    unfold matchesIdentifier at hmatch
    unfold decodeKey at hd
    simp only [Prod.mk.injEq] at hd
    rw [hd.1, hd.2] at hmatch
    simp only [Bool.and_eq_true, beq_iff_eq, Option.some.injEq, Nat.cast_inj] at hmatch
    rw [hmatch.1, hmatch.2]
  · rintro ⟨s, hsm, b, hbm, hkey⟩
    refine ⟨b, hbm, s, hsm, ?_⟩
    obtain ⟨hr, hn⟩ := seatKey_injective_single_letter b.row s.row b.number s.number
      (hb b hbm) (hs s hsm) hkey.symm
    have hd := decodeKey_single_letter_row s.row s.number (hs s hsm)
    unfold matchesIdentifier
    unfold decodeKey at hd
    simp only [Prod.mk.injEq] at hd
    rw [hd.1, hd.2, hr, hn]
    simp

/-! ## C26: the two conflict checks -/

/-- C26. Evaluation of the two conflict checks of `createBooking` on the same
lists. With seat A1 booked and seat 1 of row A0 requested, the pre-check finds
no unavailable seat (`A01` is not `A1`) while the update filter matches the
booked seat (`A01` decodes to row `A`, number 1). With seat 1 of row AB booked
and the same seat requested, the pre-check finds it while the filter matches
nothing (`AB1` decodes to row `A` and `parseInt("B1")`, which is NaN). Decoding
the key does not return the requested row in either case. -/
theorem conflict_checks_disagree :
    unavailableSeats [bookedA1] [seatA0_1] = [] ∧
    elemMatchConflict [bookedA1] (filterIdentifiers sampleShowtime.price [seatA0_1] 50) = true ∧
    unavailableSeats [bookedAB1] [seatAB1] = ["AB1"] ∧
    elemMatchConflict [bookedAB1] (filterIdentifiers sampleShowtime.price [seatAB1] 50) = false ∧
    decodeKey (seatKey seatA0_1.row seatA0_1.number) = ("A", some 1) ∧
    decodeKey (seatKey seatAB1.row seatAB1.number) = ("A", none) := by
  decide

/-! ## Two requests for one seat with a one-letter row -/

/-- The update filter built from the key of a seat with a one-letter row matches
every showtime that holds the seat. -/
theorem elemMatchConflict_of_held (booked : List BookedSeat) (row : String) (number : Nat)
    (hlen : row.length = 1) (h : ∃ b ∈ booked, b.row = row ∧ b.number = number) :
    elemMatchConflict booked [seatKey row number] = true := by
  obtain ⟨b, hb, hr, hn⟩ := h
  have hd := decodeKey_single_letter_row row number hlen
  unfold decodeKey at hd
  simp only [Prod.mk.injEq] at hd
  unfold elemMatchConflict
  simp only [List.any_eq_true, List.mem_singleton, exists_eq_left]
  refine ⟨b, hb, ?_⟩
  unfold matchesIdentifier
  rw [hd.1, hd.2, hr, hn]
  simp

/-- One operation of a `createBooking` request for the single seat
`(row, number)` of a one-letter row: what is known of the request stays true,
a seat that is held stays held, and the request gets its seats only if the seat
was not held. -/
theorem createStep_singleSeat (req : BookingReq) (env : Env) (st : State) (pc : CreatePc)
    (s : SeatReq) (hs : req.seats = [s]) (hlen : s.row.length = 1)
    (hinv : pc.singleSeat st req.showtimeId s.row s.number) :
    (createStep req env st pc).2.singleSeat (createStep req env st pc).1 req.showtimeId
        s.row s.number ∧
    (holdsSeat st req.showtimeId s.row s.number →
      holdsSeat (createStep req env st pc).1 req.showtimeId s.row s.number) ∧
    ((createStep req env st pc).2.won → pc.won ∨ ¬ holdsSeat st req.showtimeId s.row s.number) := by
  cases pc with
  | start =>
    simp only [createStep]
    cases hp : prepare st req env with
    | error r =>
      refine ⟨?_, fun h => h, ?_⟩
      · intro h201
        exact absurd h201 (prepare_error_status st req env r hp)
      · intro h201
        exact absurd h201 (prepare_error_status st req env r hp)
    | ok p =>
      refine ⟨?_, fun h => h, fun h => h.elim⟩
      obtain ⟨sh, su, _, _, _, _, _, _, _, _, h9⟩ := prepare_ok st req env p hp
      show ∃ e, seatsToAdd p.booking.seats p.booking.id = [e] ∧ e.row = s.row ∧
        e.number = s.number
      rw [h9]
      simp [bookingData, seatsToAdd, seatDetails, hs]
  | prepared p =>
    simp only [createStep]
    split_ifs
    · refine ⟨?_, fun h => h, ?_⟩
      · intro h201; simp [serverError] at h201
      · intro h201; simp [CreatePc.won, serverError] at h201
    · exact ⟨hinv, fun h => h, fun h => h.elim⟩
  | inserted p =>
    obtain ⟨e, ht, her, hen⟩ := hinv
    simp only [createStep, ht, List.isEmpty_cons, Bool.false_eq_true, if_false]
    cases hcl : (claimSeats req.showtimeId [e] req.seats.length st.showtimes).2 with
    | false =>
      simp only [Bool.not_false, if_true]
      exact ⟨trivial, fun h => h, fun h => h.elim⟩
    | true =>
      simp only [Bool.not_true, Bool.false_eq_true, if_false]
      obtain ⟨sh, hfind, hno, hres⟩ := claimSeats_true _ _ _ _ hcl
      have hfind2 : findShowtime (claimSeats req.showtimeId [e] req.seats.length
          st.showtimes).1 req.showtimeId = some (applyClaim [e] req.seats.length sh) := by
        rw [hres, findShowtime_updateShowtime _ _ (applyClaim _ _) (fun _ => rfl), if_pos rfl,
          hfind]
        rfl
      refine ⟨?_, ?_, ?_⟩
      · exact ⟨_, hfind2, e, by simp [applyClaim], her, hen⟩
      · rintro ⟨sh0, h0, b, hb, hbr, hbn⟩
        rw [hfind] at h0
        cases h0
        exact ⟨_, hfind2, b, by simp [applyClaim, hb], hbr, hbn⟩
      · intro _
        right
        rintro ⟨sh0, h0, hheld⟩
        rw [hfind] at h0
        cases h0
        have := elemMatchConflict_of_held sh.bookedSeats s.row s.number hlen hheld
        simp only [List.map_cons, List.map_nil, her, hen] at hno
        rw [this] at hno
        exact absurd hno (by decide)
  | refused p =>
    simp only [createStep]
    refine ⟨?_, fun h => h, ?_⟩
    · intro h201; simp [seatConflict] at h201
    · intro h201; simp [CreatePc.won, seatConflict] at h201
  | claimed p =>
    simp only [createStep]
    exact ⟨fun _ => hinv, fun h => h, fun _ => Or.inl trivial⟩
  | done r =>
    simp only [createStep]
    exact ⟨hinv, fun h => h, fun h => Or.inl h⟩

/-- What is known of a request stays true when held seats stay held. -/
theorem singleSeat_of_held_stays (st st2 : State) (showtimeId : Id) (row : String) (number : Nat)
    (pc : CreatePc)
    (hmono : holdsSeat st showtimeId row number → holdsSeat st2 showtimeId row number)
    (h : pc.singleSeat st showtimeId row number) : pc.singleSeat st2 showtimeId row number := by
  cases pc with
  | start => trivial
  | prepared p => exact h
  | inserted p => exact h
  | refused p => trivial
  | claimed p => exact hmono h
  | done r => exact fun h201 => hmono (h h201)

/-- Two `createBooking` requests for the same single seat of a one-letter row,
under any schedule of their operations: what is known of each request holds
throughout, and at no point do both have the seat. -/
theorem race_invariant (reqA reqB : BookingReq) (envA envB : Env) (sA sB : SeatReq)
    (hA : reqA.seats = [sA]) (hB : reqB.seats = [sB]) (hrow : sB.row = sA.row)
    (hnum : sB.number = sA.number) (hlen : sA.row.length = 1)
    (hsid : reqB.showtimeId = reqA.showtimeId) (sched : List Nat) :
    ∀ (st : State) (pcA pcB : CreatePc),
      pcA.singleSeat st reqA.showtimeId sA.row sA.number →
      pcB.singleSeat st reqA.showtimeId sA.row sA.number →
      ¬ (pcA.won ∧ pcB.won) →
      ∃ st2 pcA2 pcB2,
        runSchedule sched st [Proc.create reqA envA pcA, Proc.create reqB envB pcB] =
          (st2, [Proc.create reqA envA pcA2, Proc.create reqB envB pcB2]) ∧
        pcA2.singleSeat st2 reqA.showtimeId sA.row sA.number ∧
        pcB2.singleSeat st2 reqA.showtimeId sA.row sA.number ∧
        ¬ (pcA2.won ∧ pcB2.won) := by
  have hlenB : sB.row.length = 1 := by rw [hrow]; exact hlen
  induction sched with
  | nil =>
    intro st pcA pcB h1 h2 h3
    exact ⟨st, pcA, pcB, rfl, h1, h2, h3⟩
  | cons i rest ih =>
    intro st pcA pcB h1 h2 h3
    match i with
    | 0 =>
      obtain ⟨k1, k2, k3⟩ := createStep_singleSeat reqA envA st pcA sA hA hlen h1
      have hB2 := singleSeat_of_held_stays st (createStep reqA envA st pcA).1 _ _ _ pcB k2 h2
      have hnot : ¬ ((createStep reqA envA st pcA).2.won ∧ pcB.won) := by
        rintro ⟨w1, w2⟩
        rcases k3 w1 with hw | hnh
        · exact h3 ⟨hw, w2⟩
        · apply hnh
          cases pcB with
          | claimed p => exact h2
          | done r => exact h2 w2
          | start => exact w2.elim
          | prepared p => exact w2.elim
          | inserted p => exact w2.elim
          | refused p => exact w2.elim
      exact ih _ _ _ k1 hB2 hnot
    | 1 =>
      have h2' : pcB.singleSeat st reqB.showtimeId sB.row sB.number := by
        rw [hsid, hrow, hnum]; exact h2
      obtain ⟨k1, k2, k3⟩ := createStep_singleSeat reqB envB st pcB sB hB hlenB h2'
      rw [hsid, hrow, hnum] at k1 k2 k3
      have hA2 := singleSeat_of_held_stays st (createStep reqB envB st pcB).1 _ _ _ pcA k2 h1
      have hnot : ¬ (pcA.won ∧ (createStep reqB envB st pcB).2.won) := by
        rintro ⟨w1, w2⟩
        rcases k3 w2 with hw | hnh
        · exact h3 ⟨w1, hw⟩
        · apply hnh
          cases pcA with
          | claimed p => exact h1
          | done r => exact h1 w1
          | start => exact w1.elim
          | prepared p => exact w1.elim
          | inserted p => exact w1.elim
          | refused p => exact w1.elim
      exact ih _ _ _ hA2 k1 hnot
    | n + 2 =>
      have hskip : runSchedule ((n + 2) :: rest) st
          [Proc.create reqA envA pcA, Proc.create reqB envB pcB] =
          runSchedule rest st [Proc.create reqA envA pcA, Proc.create reqB envB pcB] := by
        simp [runSchedule, stepAt]
      rw [hskip]
      exact ih st pcA pcB h1 h2 h3

/-- Two `createBooking` requests for the same single seat of a one-letter row
are never both accepted, whatever the database, the requests and the
interleaving of their operations. -/
theorem race_one_letter_row_at_most_one_accepted (st : State) (reqA reqB : BookingReq)
    (envA envB : Env) (sA sB : SeatReq)
    (hA : reqA.seats = [sA]) (hB : reqB.seats = [sB]) (hrow : sB.row = sA.row)
    (hnum : sB.number = sA.number) (hlen : sA.row.length = 1)
    (hsid : reqB.showtimeId = reqA.showtimeId) (sched : List Nat) (a b : Response)
    (h : answers (runSchedule sched st
      [Proc.create reqA envA CreatePc.start, Proc.create reqB envB CreatePc.start]) =
        [some a, some b]) :
    ¬ (a.status = 201 ∧ b.status = 201) := by
  obtain ⟨st2, pcA2, pcB2, hrun, _, _, hnot⟩ :=
    race_invariant reqA reqB envA envB sA sB hA hB hrow hnum hlen hsid sched st
      CreatePc.start CreatePc.start trivial trivial (fun hw => hw.1.elim)
  rw [hrun] at h
  simp only [answers, List.map_cons, List.map_nil, List.cons.injEq, and_true] at h
  rintro ⟨ha, hb⟩
  apply hnot
  constructor
  · cases pcA2 with
    | done r =>
      simp only [Proc.response, Option.some.injEq] at h
      rw [h.1]
      exact ha
    | start => simp [Proc.response] at h
    | prepared p => simp [Proc.response] at h
    | inserted p => simp [Proc.response] at h
    | refused p => simp [Proc.response] at h
    | claimed p => trivial
  · cases pcB2 with
    | done r =>
      simp only [Proc.response, Option.some.injEq] at h
      rw [h.2]
      exact hb
    | start => simp [Proc.response] at h
    | prepared p => simp [Proc.response] at h
    | inserted p => simp [Proc.response] at h
    | refused p => simp [Proc.response] at h
    | claimed p => trivial

/-! ## C27: amounts and loyalty points -/

/-- For a non-negative total and a non-negative number of points used, the
final amount lies between 0 and the total. -/
theorem finalAmount_bounds (total used : Int) (ht : 0 ≤ total) (hu : 0 ≤ used) :
    0 ≤ finalAmount total used ∧ finalAmount total used ≤ total := by
  unfold finalAmount
  constructor
  · exact le_max_left _ _
  · apply max_le ht
    omega

/-- A request that spends more points than the customer has is rejected with
`Insufficient loyalty points` once the earlier checks have passed, and nothing
is written. -/
theorem createBooking_insufficient_points (st : State) (req : BookingReq) (env : Env)
    (sh : Showtime) (su : User) (c : Customer)
    (h1 : findShowtime st.showtimes req.showtimeId = some sh)
    (h2 : findUser st.users req.user.id = some su)
    (h3 : staffGate st sh su = none)
    (h4 : unavailableSeats sh.bookedSeats req.seats = [])
    (h5 : resolveCustomer st req su = some c)
    (h6 : req.loyaltyPointsUsed > c.points) :
    createBooking st req env = (reject 400 "Insufficient loyalty points", st) := by
  unfold createBooking prepare
  simp only [h1, h2, h3, h4, h5, List.length_nil, gt_iff_lt, lt_self_iff_false, if_false]
  rw [if_pos h6]

/-- For an accepted request of a registered customer that spends a non-negative
number of points: the stored final amount is max(0, total - 1000 × points used),
it is not negative, it does not exceed a non-negative total, and the stored
balance afterwards is then at most the balance read plus floor(total / 100). -/
theorem createBooking_amounts_of_nonneg_points (st : State) (req : BookingReq) (env : Env)
    (su u : User)
    (h : (createBooking st req env).1.success = true)
    (hsu : findUser st.users req.user.id = some su)
    (hcust : resolveCustomer st req su = some (Customer.registered u))
    (hused : 0 ≤ req.loyaltyPointsUsed) :
    ∃ b u1, (createBooking st req env).1.booking = some b ∧
      b.finalAmount = max 0 (b.totalAmount - 1000 * b.loyaltyPointsUsed) ∧
      0 ≤ b.finalAmount ∧
      (0 ≤ b.totalAmount → b.finalAmount ≤ b.totalAmount) ∧
      findUser (createBooking st req env).2.users u.id = some u1 ∧
      (0 ≤ b.totalAmount → u1.loyaltyPoints ≤ u.loyaltyPoints + b.totalAmount / 100) := by
  obtain ⟨p, sh, su', hp, h1, h2, h3, h4, h5, h6, h7, h8, h9, h10, hins, hno, heq⟩ :=
    createBooking_success st req env h
  rw [hsu] at h2
  cases h2
  rw [hcust] at h5
  have hpc : p.customer = Customer.registered u := (Option.some.inj h5).symm
  obtain ⟨w, hw⟩ := findUser_of_mem st.users u (resolveCustomer_mem st req su u hcust)
  have hfinal : p.booking.finalAmount =
      max 0 (p.booking.totalAmount - 1000 * p.booking.loyaltyPointsUsed) := by
    rw [h9]
    simp only [bookingData, finalAmount]
    congr 1
    ring
  have hearned : p.booking.loyaltyPointsEarned = p.booking.finalAmount / 100 := by
    rw [h9, hpc]
    simp [bookingData, Customer.isWalkIn, pointsEarned]
  have hu : p.booking.loyaltyPointsUsed = req.loyaltyPointsUsed := by rw [h9]; rfl
  have hnn : 0 ≤ p.booking.finalAmount := by rw [hfinal]; exact le_max_left _ _
  have hle : 0 ≤ p.booking.totalAmount → p.booking.finalAmount ≤ p.booking.totalAmount := by
    intro ht
    rw [hfinal]
    apply max_le ht
    omega
  refine ⟨p.booking,
    earnPointsWrite
      (u.loyaltyPoints - p.booking.loyaltyPointsUsed + p.booking.loyaltyPointsEarned) w,
    by rw [heq]; rfl, hfinal, hnn, hle, ?_, ?_⟩
  · rw [heq]
    simp only [saveLoyalty, hpc]
    rw [findUser_updateUser_same _ (earnPointsWrite _) (fun _ => rfl), hw]
    rfl
  · intro ht
    have h100 := hle ht
    simp only [earnPointsWrite]
    rw [hearned]
    omega

/-- C27. Evaluation of `createBooking` on a request with `loyaltyPointsUsed` -5.
The customer has 0 points; -5 does not exceed the balance, so the request is
accepted. The total is 80000 and the stored final amount is 85000, above the
total; the balance afterwards is 855, above the balance before plus
floor(80000 / 100) = 800. -/
theorem negative_points_raise_amount_and_balance :
    (createBooking sampleState negativePointsRequest envFirst).1.status = 201 ∧
    (createBooking sampleState negativePointsRequest envFirst).2.bookings.map
      (fun b => (b.totalAmount, b.finalAmount, b.loyaltyPointsUsed, b.loyaltyPointsEarned)) =
      [(80000, 85000, -5, 850)] ∧
    sampleState.users.map (fun u => u.loyaltyPoints) = [0] ∧
    (createBooking sampleState negativePointsRequest envFirst).2.users.map
      (fun u => u.loyaltyPoints) = [855] ∧
    ¬ ((855 : Int) ≤ 0 + 80000 / 100) := by
  decide

/-! ## C28: the status of a showtime -/

/-- The status `updateStatus` assigns depends on the clock only. -/
theorem updateStatus_by_time (sh : Showtime) (now : Int) :
    (now < sh.startTime → (updateStatus sh now).status = ShowtimeStatus.scheduled) ∧
    (sh.startTime ≤ now → now < sh.endTime →
      (updateStatus sh now).status = ShowtimeStatus.ongoing) ∧
    (sh.startTime ≤ now → sh.endTime ≤ now →
      (updateStatus sh now).status = ShowtimeStatus.completed) := by
  unfold updateStatus
  refine ⟨fun h => ?_, fun h1 h2 => ?_, fun h1 h2 => ?_⟩
  · rw [if_pos h]
  · rw [if_neg (not_lt.mpr h1), if_pos ⟨h1, h2⟩]
  · rw [if_neg (not_lt.mpr h1), if_neg (fun h => absurd h.2 (not_lt.mpr h2))]

/-- C28. Evaluation of `updateStatus` on a cancelled showtime. The sample
showtime, cancelled, starts at 100 000 000 and ends at 107 200 000. Read before
its start, `getShowtime` answers 200 with status `scheduled` and stores
`scheduled`; `updateStatus` makes it `ongoing` during the show and `completed`
afterwards. In no case does the status stay `cancelled`. -/
theorem updateStatus_resurrects_cancelled_showtime :
    cancelledShowtime.status = ShowtimeStatus.cancelled ∧
    (updateStatus cancelledShowtime 0).status = ShowtimeStatus.scheduled ∧
    (updateStatus cancelledShowtime 100000000).status = ShowtimeStatus.ongoing ∧
    (updateStatus cancelledShowtime 107200000).status = ShowtimeStatus.completed ∧
    (getShowtime cancelledShowtimeState 10 0).1 = 200 ∧
    (getShowtime cancelledShowtimeState 10 0).2.1.map (fun sh => sh.status) =
      some ShowtimeStatus.scheduled ∧
    (getShowtime cancelledShowtimeState 10 0).2.2.showtimes.map (fun sh => sh.status) =
      [ShowtimeStatus.scheduled] := by
  decide

/-! ## C29: the default rooms of the generator -/

/-- The default rooms: `n` rooms, named `Phòng 1` to `Phòng n`, with capacity
200 for the first two and 150 for the rest. -/
theorem generateDefaultRooms_names_capacities (n : Nat) :
    (generateDefaultRooms n).length = n ∧
    ∀ k, k < n →
      ((generateDefaultRooms n).map (fun r => r.name))[k]? = some ("Phòng " ++ toString (k + 1)) ∧
      ((generateDefaultRooms n).map (fun r => r.capacity))[k]? =
        some (if k + 1 ≤ 2 then 200 else 150) := by
  unfold generateDefaultRooms
  refine ⟨by simp, fun k hk => ?_⟩
  simp [List.getElem?_map, List.getElem?_range hk]

/-- When an active cinema has no screens, the list the generator hands to
`insertMany` holds a document that fails validation, and nothing is stored. -/
theorem generatedDocs_rejected_of_screenless_cinema (cinemas : List (Id × List Screen))
    (pick : Id → Nat → Id × Int) (tomorrow : Int) (pricing : Int → String → PriceTable)
    (firstId : Id) (h : ∃ c ∈ cinemas, c.2 = []) :
    insertMany firstId (generatedDocs cinemas pick tomorrow pricing) = none := by
  obtain ⟨c, hc, hnil⟩ := h
  have hbad : ∃ d ∈ generatedDocs cinemas pick tomorrow pricing, ShowtimeDoc.valid d = false := by
    refine ⟨generatedDoc (pick c.1 1).1 c.1 (pick c.1 1).2
      { name := "Phòng 2", capacity := 200, type := "vip" } tomorrow 540 (pricing 540 "vip"),
      ?_, by simp [ShowtimeDoc.valid, generatedDoc, roomTypeEnum]⟩
    unfold generatedDocs
    rw [List.mem_flatMap]
    refine ⟨c, hc, ?_⟩
    unfold cinemaDocs
    rw [hnil, List.mem_flatMap]
    refine ⟨(1, { name := "Phòng 2", capacity := 200, type := "vip" }), by decide, ?_⟩
    simp [timeSlots]
  have hall : (generatedDocs cinemas pick tomorrow pricing).all ShowtimeDoc.valid = false := by
    rw [Bool.eq_false_iff]
    intro hall
    rw [List.all_eq_true] at hall
    obtain ⟨d, hd, hv⟩ := hbad
    rw [hall d hd] at hv
    exact absurd hv (by decide)
  unfold insertMany
  rw [hall]
  rfl

/-- C29. Evaluation of `generateDefaultRooms`. The second default room has type
`vip`, which is not among the values the Showtime schema accepts for
`room.type`; the showtime objects built for a cinema without screens carry it,
one of them is not valid, and `insertMany` stores nothing, whatever movies are
picked and whatever the prices are. -/
theorem generateDefaultRooms_second_room_type_rejected :
    (generateDefaultRooms 2).map (fun r => r.type) = ["imax", "vip"] ∧
    roomTypeEnum.contains "vip" = false ∧
    (generateDefaultRooms 5).map (fun r => roomTypeEnum.contains r.type) =
      [true, false, true, true, true] ∧
    (∀ (pick : Nat → Id × Int) (tomorrow : Int) (pricing : Int → String → PriceTable),
      (cinemaDocs 200 [] pick tomorrow pricing).all ShowtimeDoc.valid = false ∧
      insertMany 60 (cinemaDocs 200 [] pick tomorrow pricing) = none) := by
  refine ⟨by decide, by decide, by decide, fun pick tomorrow pricing => ?_⟩
  have hall : (cinemaDocs 200 [] pick tomorrow pricing).all ShowtimeDoc.valid = false := by
    simp [cinemaDocs, roomsOfCinema, generateDefaultRooms, List.range, List.range.loop,
      List.enum, List.enumFrom, timeSlots, generatedDoc, ShowtimeDoc.valid, roomTypeEnum]
  refine ⟨hall, ?_⟩
  unfold insertMany
  rw [hall]
  rfl

/-! ## C30: cancelling a walk-in booking -/

/-- C30. Evaluation of `cancelBooking` on a walk-in counter booking. The staff
user sells seat A1 to a walk-in customer: the stored booking 50 has
`customerInfo` and no `userId`. More than two hours before the showtime the
staff user, and likewise an admin, cancels it: `booking.userId.toString()`
throws, the answer is 500, nothing is written, the seat stays in `bookedSeats`
and the booking keeps its status. -/
theorem cancelBooking_walk_in_booking_fails :
    (createBooking counterState (counterRequest [seatA1]) envFirst).1.status = 201 ∧
    walkInBooked.bookings.map (fun b => (b.id, b.userId, b.customerInfo.isSome, b.status)) =
      [(50, none, true, BookingStatus.pending)] ∧
    insideCutoff sampleShowtime.startTime 0 = false ∧
    cancelBooking walkInBooked cancelByStaff 0 =
      (serverError "TypeError: booking.userId is undefined", walkInBooked) ∧
    cancelBooking walkInBooked cancelByAdmin 0 =
      (serverError "TypeError: booking.userId is undefined", walkInBooked) ∧
    (cancelBooking walkInBooked cancelByStaff 0).1.status = 500 ∧
    (cancelBooking walkInBooked cancelByStaff 0).2.showtimes.map
      (fun sh => (seatPairs sh.bookedSeats, sh.availableSeats)) = [([("A", 1)], 1)] := by
  decide

end Cinema
